import Mathlib

/-!
Shallow embedding of the rultra64 instruction-execution core (CPU, register
files, MMU, backing stores) for checking the natural-language specification
against the source. Rust machine integers are modelled as `Int` values in
the corresponding signed range, with explicit reductions modulo `2^w`
wherever the source wraps or casts. Fallible operations (Rust panics via
`unreachable!`, `todo!`, `unimplemented!`, array-index-out-of-bounds,
division by zero, shift-amount overflow and `usize` underflow) are modelled
with `Option`, where `none` stands for a process abort.
-/

/-- Unsigned `w`-bit reinterpretation of an integer (Rust `as uN` / two's
complement representative in `[0, 2^w)`). -/
def toU (w : Nat) (x : Int) : Nat := (Int.emod x (2 ^ w)).toNat

/-- Signed `w`-bit reinterpretation of an integer (Rust `as iN` /
`wrapping` arithmetic result). -/
def toI (w : Nat) (x : Int) : Int :=
  let u := toU w x
  if u < 2 ^ (w - 1) then (u : Int) else (u : Int) - 2 ^ w

/-- 64-bit bitwise AND on `i64` values (two's complement). -/
def landI (a b : Int) : Int := toI 64 ((toU 64 a &&& toU 64 b : Nat) : Int)

/-- 64-bit bitwise OR on `i64` values (two's complement). -/
def lorI (a b : Int) : Int := toI 64 ((toU 64 a ||| toU 64 b : Nat) : Int)

/-- 64-bit bitwise XOR on `i64` values (two's complement). -/
def xorI (a b : Int) : Int := toI 64 ((toU 64 a ^^^ toU 64 b : Nat) : Int)

/-- 64-bit bitwise NOT on an `i64` value (Rust `!x`). -/
def lnotI (a : Int) : Int := toI 64 ((toU 64 a ^^^ 0xFFFFFFFFFFFFFFFF : Nat) : Int)

/-- Big-endian byte list of the low `n` bytes of an integer
(Rust `to_be_bytes` on an `n`-byte machine integer). -/
def be_bytes (n : Nat) (x : Int) : List Nat :=
  (List.range n).map (fun i => (toU (8 * n) x >>> (8 * (n - 1 - i))) &&& 0xFF)

/-- Rust `iN::checked_add` on 32-bit operands. -/
def checkedAdd32 (a b : Int) : Option Int :=
  if -2147483648 ≤ a + b ∧ a + b ≤ 2147483647 then some (a + b) else none

/-- Rust `iN::checked_sub` on 32-bit operands. -/
def checkedSub32 (a b : Int) : Option Int :=
  if -2147483648 ≤ a - b ∧ a - b ≤ 2147483647 then some (a - b) else none

/-- Rust `iN::checked_add` on 64-bit operands. -/
def checkedAdd64 (a b : Int) : Option Int :=
  if -9223372036854775808 ≤ a + b ∧ a + b ≤ 9223372036854775807 then some (a + b) else none

/-- Rust `iN::checked_sub` on 64-bit operands. -/
def checkedSub64 (a b : Int) : Option Int :=
  if -9223372036854775808 ≤ a - b ∧ a - b ≤ 9223372036854775807 then some (a - b) else none

/-- `src/registers.rs`: the CPU register file.  The source stores 32 boxed
`Register` trait objects where slot 0 is the `Fixed` register (its `set` is
a no-op and it permanently holds 0) and the rest are `Generic`; here the
array is a function from slot number to the stored `i64` value. -/
structure CPURegisters where
  registers : Nat → Int
  program_counter : Int
  next_program_counter : Int
  hi : Int
  lo : Int
  load_link : Bool

/-- `CPURegisters::new`: reset state, all registers zero, PC at the boot
vector. -/
def CPURegisters.new : CPURegisters :=
  { registers := fun _ => 0
    program_counter := 0xBFC00000
    next_program_counter := 0xBFC00004
    hi := 0
    lo := 0
    load_link := false }

/-- The effect of `self.registers[index].set(val)`: slot 0 is the `Fixed`
register whose `set` discards the value; other slots store it. -/
def CPURegisters.setRegister (r : CPURegisters) (index : Nat) (val : Int) : CPURegisters :=
  if index = 0 then r
  else { r with registers := fun j => if j = index then val else r.registers j }

/-- `CPURegisters::get_by_number`; `none` models the `unreachable!` panic
on an index above 31. -/
def CPURegisters.get_by_number (r : CPURegisters) (index : Nat) : Option Int :=
  if index > 31 then none else some (r.registers index)

/-- `CPURegisters::set_by_number`; `none` models the `unreachable!` panic
on an index above 31. -/
def CPURegisters.set_by_number (r : CPURegisters) (index : Nat) (val : Int) :
    Option CPURegisters :=
  if index > 31 then none else some (r.setRegister index val)

/-- `CPURegisters::get_program_counter`. -/
def CPURegisters.get_program_counter (r : CPURegisters) : Int := r.program_counter

/-- `CPURegisters::set_program_counter`. -/
def CPURegisters.set_program_counter (r : CPURegisters) (val : Int) : CPURegisters :=
  { r with program_counter := val }

/-- `CPURegisters::get_next_program_counter`. -/
def CPURegisters.get_next_program_counter (r : CPURegisters) : Int := r.next_program_counter

/-- `CPURegisters::set_next_program_counter`. -/
def CPURegisters.set_next_program_counter (r : CPURegisters) (val : Int) : CPURegisters :=
  { r with next_program_counter := val }

/-- `CPURegisters::increment_next_program_counter` (wrapping 64-bit add). -/
def CPURegisters.increment_next_program_counter (r : CPURegisters) (val : Int) : CPURegisters :=
  r.set_next_program_counter (toI 64 (r.next_program_counter + val))

/-- `CPURegisters::set_hi`. -/
def CPURegisters.set_hi (r : CPURegisters) (val : Int) : CPURegisters := { r with hi := val }

/-- `CPURegisters::set_lo`. -/
def CPURegisters.set_lo (r : CPURegisters) (val : Int) : CPURegisters := { r with lo := val }

/-- `CPURegisters::get_hi`. -/
def CPURegisters.get_hi (r : CPURegisters) : Int := r.hi

/-- `CPURegisters::get_lo`. -/
def CPURegisters.get_lo (r : CPURegisters) : Int := r.lo

/-- `CPURegisters::set_load_link`. -/
def CPURegisters.set_load_link (r : CPURegisters) (val : Bool) : CPURegisters :=
  { r with load_link := val }

/-- `CPURegisters::get_load_link`. -/
def CPURegisters.get_load_link (r : CPURegisters) : Bool := r.load_link

/-- `src/registers.rs`: the CP0 register file.  The source stores one named
field per architectural index, each statically 32-bit or 64-bit; here the
two width classes are two maps from index to value. -/
structure CP0Registers where
  regs32 : Nat → Int
  regs64 : Nat → Int

/-- `CP0Registers::new`: all zero. -/
def CP0Registers.new : CP0Registers := { regs32 := fun _ => 0, regs64 := fun _ => 0 }

/-- `CP0Registers::is_32bits`; `none` models the `unreachable!` default arm
(hit for indices 7, 31 and anything above 31). -/
def CP0Registers.is_32bits (index : Nat) : Option Bool :=
  if index = 0 ∨ index = 1 ∨ index = 5 ∨ index = 6 ∨ index = 9 ∨ index = 11 ∨
      index = 12 ∨ index = 13 ∨ index = 15 ∨ index = 16 ∨ index = 17 ∨ index = 18 ∨
      index = 19 ∨ index = 26 ∨ index = 27 ∨ index = 28 ∨ index = 29 then some true
  else if index = 2 ∨ index = 3 ∨ index = 4 ∨ index = 8 ∨ index = 10 ∨ index = 14 ∨
      index = 20 ∨ index = 21 ∨ index = 22 ∨ index = 23 ∨ index = 24 ∨ index = 25 ∨
      index = 30 then some false
  else none

/-- Membership in the 32-bit CP0 index class (the match arms of
`get/set_by_number_32`). -/
def CP0Registers.in32 (index : Nat) : Bool :=
  index = 0 || index = 1 || index = 5 || index = 6 || index = 9 || index = 11 ||
  index = 12 || index = 13 || index = 15 || index = 16 || index = 17 || index = 18 ||
  index = 19 || index = 26 || index = 27 || index = 28 || index = 29

/-- Membership in the 64-bit CP0 index class (the match arms of
`get/set_by_number_64`). -/
def CP0Registers.in64 (index : Nat) : Bool :=
  index = 2 || index = 3 || index = 4 || index = 7 || index = 8 || index = 10 ||
  index = 14 || index = 20 || index = 21 || index = 22 || index = 23 || index = 24 ||
  index = 25 || index = 30 || index = 31

/-- `CP0Registers::get_by_number_32`; `none` models the `unreachable!`
panics (index above 31, or an index outside the 32-bit class). -/
def CP0Registers.get_by_number_32 (c : CP0Registers) (index : Nat) : Option Int :=
  if index > 31 then none
  else if CP0Registers.in32 index then some (c.regs32 index) else none

/-- `CP0Registers::set_by_number_32`; `none` models the `unreachable!`
panics. -/
def CP0Registers.set_by_number_32 (c : CP0Registers) (index : Nat) (val : Int) :
    Option CP0Registers :=
  if index > 31 then none
  else if CP0Registers.in32 index then
    some { c with regs32 := fun j => if j = index then val else c.regs32 j }
  else none

/-- `CP0Registers::get_by_number_64`; `none` models the `unreachable!`
panics. -/
def CP0Registers.get_by_number_64 (c : CP0Registers) (index : Nat) : Option Int :=
  if index > 31 then none
  else if CP0Registers.in64 index then some (c.regs64 index) else none

/-- `CP0Registers::set_by_number_64`; `none` models the `unreachable!`
panics. -/
def CP0Registers.set_by_number_64 (c : CP0Registers) (index : Nat) (val : Int) :
    Option CP0Registers :=
  if index > 31 then none
  else if CP0Registers.in64 index then
    some { c with regs64 := fun j => if j = index then val else c.regs64 j }
  else none

/-- `src/src/rdram.rs`: RDRAM is an array of `0x400000` nine-bit cells;
here a map from array index to the stored (up to nine-bit) cell value. -/
structure RDRAM where
  data : Nat → Nat

/-- `RDRAM::new`: zeroed. -/
def RDRAM.new : RDRAM := { data := fun _ => 0 }

/-- `RDRAM::read8` (`Byte::read8` returns the low byte of the cell);
`none` models the array-index panic for an address outside
`[0, 0x400000)` (the array has `0x400000` elements). -/
def RDRAM.read8 (r : RDRAM) (address : Int) : Option Nat :=
  if 0 ≤ address ∧ address < 0x400000 then some (r.data address.toNat % 256) else none

/-- `RDRAM::write8` (`Byte::write8` keeps bit 8 of the cell and replaces
the low byte); `none` models the array-index panic. -/
def RDRAM.write8 (r : RDRAM) (address : Int) (v : Nat) : Option RDRAM :=
  if 0 ≤ address ∧ address < 0x400000 then
    some { data := fun j =>
      if j = address.toNat then (r.data address.toNat &&& 0x100) ||| v
      else r.data j }
  else none

/-- `src/src/rom.rs`: cartridge ROM image plus the writable SRAM buffer. -/
structure ROM where
  data : List Nat
  ram : List Nat

/-- `ROM::read`; `none` models the `unreachable!` panic for an address in
neither cartridge window.  Missing indices read `0xFF` (`Vec::get`
returning `None`). -/
def ROM.read (rom : ROM) (address : Int) : Option Nat :=
  if 0x8000000 ≤ address ∧ address ≤ 0xFFFFFFF then
    some ((rom.ram.get? (address - 0x8000000).toNat).getD 0xFF)
  else if 0x10000000 ≤ address ∧ address ≤ 0x1FBFFFFF then
    some ((rom.data.get? (address - 0x10000000).toNat).getD 0xFF)
  else none

/-- `ROM::write`: writes into the SRAM buffer at offset
`address - 0x8000000` when in range (`Vec::get_mut` returning `None` makes
out-of-range writes silent no-ops). -/
def ROM.write (rom : ROM) (address : Int) (v : Nat) : ROM :=
  let idx := address - 0x8000000
  if 0 ≤ idx ∧ idx.toNat < rom.ram.length then
    { rom with ram := rom.ram.set idx.toNat v }
  else rom

/-- `src/src/mmu.rs`: the memory-management unit owning the backing
stores. -/
structure MMU where
  rdram : RDRAM
  rom : ROM

/-- `MMU::convert`: fixed-segment virtual-to-physical translation
(KUSEG, KSEG0, KSEG1, KSSEG, KSEG3 in source order); `none` models the
`unreachable!` panic for an address outside every segment. -/
def MMU.convert (address : Int) : Option Int :=
  if 0x00000000 ≤ address ∧ address ≤ 0x7FFFFFFF then some (address - 0x00000000)
  else if 0x80000000 ≤ address ∧ address ≤ 0x9FFFFFFF then some (address - 0x80000000)
  else if 0xA0000000 ≤ address ∧ address ≤ 0xBFFFFFFF then some (address - 0xA0000000)
  else if 0xC0000000 ≤ address ∧ address ≤ 0xDFFFFFFF then some (address - 0xC0000000)
  else if 0xE0000000 ≤ address ∧ address ≤ 0xFFFFFFFF then some (address - 0xE0000000)
  else none

/-- `MMU::read_physical_byte`: ordered dispatch over the physical device
windows, in source order. -/
def MMU.read_physical_byte (m : MMU) (address : Int) : Option Nat :=
  if 0x00000000 ≤ address ∧ address ≤ 0x003FFFFF then m.rdram.read8 address
  else if 0x00400000 ≤ address ∧ address ≤ 0x007FFFFF then m.rdram.read8 address
  else if 0x00800000 ≤ address ∧ address ≤ 0x03EFFFFF then some 0xFF
  else if 0x03F00000 ≤ address ∧ address ≤ 0x03FFFFFF then some 0
  else if 0x04000000 ≤ address ∧ address ≤ 0x04000FFF then some 0
  else if 0x04001000 ≤ address ∧ address ≤ 0x04001FFF then some 0
  else if 0x04002000 ≤ address ∧ address ≤ 0x0403FFFF then some 0
  else if 0x04040000 ≤ address ∧ address ≤ 0x040FFFFF then some 0
  else if 0x04100000 ≤ address ∧ address ≤ 0x041FFFFF then some 0
  else if 0x04200000 ≤ address ∧ address ≤ 0x042FFFFF then some 0
  else if 0x04300000 ≤ address ∧ address ≤ 0x043FFFFF then some 0
  else if 0x04400000 ≤ address ∧ address ≤ 0x044FFFFF then some 0
  else if 0x04500000 ≤ address ∧ address ≤ 0x045FFFFF then some 0
  else if 0x04600000 ≤ address ∧ address ≤ 0x046FFFFF then some 0
  else if 0x04700000 ≤ address ∧ address ≤ 0x047FFFFF then some 0
  else if 0x04800000 ≤ address ∧ address ≤ 0x048FFFFF then some 0
  else if 0x04900000 ≤ address ∧ address ≤ 0x04FFFFFF then some 0
  else if 0x05000000 ≤ address ∧ address ≤ 0x05FFFFFF then some 0
  else if 0x06000000 ≤ address ∧ address ≤ 0x07FFFFFF then some 0
  else if 0x08000000 ≤ address ∧ address ≤ 0x0FFFFFFF then m.rom.read address
  else if 0x10000000 ≤ address ∧ address ≤ 0x1FBFFFFF then m.rom.read address
  else if 0x1FC00000 ≤ address ∧ address ≤ 0x1FC007BF then some 0
  else if 0x1FC007C0 ≤ address ∧ address ≤ 0x1FC007FF then some 0
  else if 0x1FC00800 ≤ address ∧ address ≤ 0x1FCFFFFF then some 0
  else if 0x1FD00000 ≤ address ∧ address ≤ 0x7FFFFFFF then some 0
  else if 0x80000000 ≤ address ∧ address ≤ 0xFFFFFFFF then some 0
  else some 0xFF

/-- `MMU::write_physical_byte`: ordered dispatch; non-backed windows
discard the write (the source arms are empty). -/
def MMU.write_physical_byte (m : MMU) (address : Int) (v : Nat) : Option MMU :=
  if 0x00000000 ≤ address ∧ address ≤ 0x003FFFFF then
    (m.rdram.write8 address v).map (fun rd => { m with rdram := rd })
  else if 0x00400000 ≤ address ∧ address ≤ 0x007FFFFF then
    (m.rdram.write8 address v).map (fun rd => { m with rdram := rd })
  else if 0x08000000 ≤ address ∧ address ≤ 0x0FFFFFFF then
    some { m with rom := m.rom.write address v }
  else if 0x10000000 ≤ address ∧ address ≤ 0x1FBFFFFF then
    some { m with rom := m.rom.write address v }
  else some m

/-- `MMU::read_physical`: pushes `bytes` single-byte reads into a vector.
Note the source loop reads the same `address` every iteration. -/
def MMU.read_physical (m : MMU) (address : Int) : Nat → Option (List Nat)
  | 0 => some []
  | n + 1 => do
    let b ← m.read_physical_byte address
    let rest ← m.read_physical address n
    some (b :: rest)

/-- `MMU::write_physical`: one single-byte write per data byte.  Note the
source loop writes every byte to the same `address`. -/
def MMU.write_physical (m : MMU) (address : Int) : List Nat → Option MMU
  | [] => some m
  | b :: rest => do
    let m2 ← m.write_physical_byte address b
    m2.write_physical address rest

/-- `MMU::read_virtual`. -/
def MMU.read_virtual (m : MMU) (address : Int) (bytes : Nat) : Option (List Nat) := do
  let converted_address ← MMU.convert address
  m.read_physical converted_address bytes

/-- `MMU::write_virtual`. -/
def MMU.write_virtual (m : MMU) (address : Int) (data : List Nat) : Option MMU := do
  let converted_address ← MMU.convert address
  m.write_physical converted_address data

/-- `src/src/cpu.rs`: the CPU holds the GPR file and the CP0 file. -/
structure CPU where
  registers : CPURegisters
  cp0 : CP0Registers

/-- `CPU::new`. -/
def CPU.new : CPU := { registers := CPURegisters.new, cp0 := CP0Registers.new }

/-- `params_rd_rs_rt`. -/
def params_rd_rs_rt (opcode : Nat) : Nat × Nat × Nat :=
  (((opcode >>> 11) &&& 0b11111), ((opcode >>> 21) &&& 0b11111), ((opcode >>> 16) &&& 0b11111))

/-- `params_rd_rt_rs`. -/
def params_rd_rt_rs (opcode : Nat) : Nat × Nat × Nat :=
  (((opcode >>> 11) &&& 0b11111), ((opcode >>> 16) &&& 0b11111), ((opcode >>> 21) &&& 0b11111))

/-- `params_rt_rs_immediate` (the `rt` component is bits 15..11 in the
source, not 20..16). -/
def params_rt_rs_immediate (opcode : Nat) : Nat × Nat × Int :=
  (((opcode >>> 11) &&& 0b11111), ((opcode >>> 21) &&& 0b11111), toI 16 ((opcode &&& 0xFFFF : Nat) : Int))

/-- `params_rs_rt_offset` (the source returns the tuple `(rt, rs, offset)`
where `rt` was read from bits 15..11 and `rs` from bits 25..21). -/
def params_rs_rt_offset (opcode : Nat) : Nat × Nat × Int :=
  (((opcode >>> 11) &&& 0b11111), ((opcode >>> 21) &&& 0b11111), toI 16 ((opcode &&& 0xFFFF : Nat) : Int))

/-- `params_rs_offset`. -/
def params_rs_offset (opcode : Nat) : Nat × Int :=
  (((opcode >>> 21) &&& 0b11111), toI 16 ((opcode &&& 0xFFFF : Nat) : Int))

/-- `params_rs_rt` (the source returns `(rt, rs)` with `rt` from bits
15..11 and `rs` from bits 25..21). -/
def params_rs_rt (opcode : Nat) : Nat × Nat :=
  (((opcode >>> 11) &&& 0b11111), ((opcode >>> 21) &&& 0b11111))

/-- `params_rt_immediate` (`rt` from bits 20..16 here). -/
def params_rt_immediate (opcode : Nat) : Nat × Int :=
  (((opcode >>> 16) &&& 0b11111), toI 16 ((opcode &&& 0xFFFF : Nat) : Int))

/-- `params_rt_offset_base`. -/
def params_rt_offset_base (opcode : Nat) : Nat × Int × Nat :=
  (((opcode >>> 16) &&& 0b11111), toI 16 ((opcode &&& 0xFFFF : Nat) : Int), ((opcode >>> 21) &&& 0b11111))

/-- `params_rd_rt_sa`. -/
def params_rd_rt_sa (opcode : Nat) : Nat × Nat × Nat :=
  (((opcode >>> 11) &&& 0b11111), ((opcode >>> 16) &&& 0b11111), ((opcode >>> 6) &&& 0b11111))

/-- `params_rt_rd`. -/
def params_rt_rd (opcode : Nat) : Nat × Nat :=
  (((opcode >>> 16) &&& 0b11111), ((opcode >>> 11) &&& 0b11111))

/-- `params_rd`. -/
def params_rd (opcode : Nat) : Nat := (opcode >>> 11) &&& 0b11111

/-- `params_rs`. -/
def params_rs (opcode : Nat) : Nat := (opcode >>> 21) &&& 0b11111

/-- `params_target`: `(opcode & 0x3FFFFFF) as u32 as i32`. -/
def params_target (opcode : Nat) : Int := ((opcode &&& 0x3FFFFFF : Nat) : Int)

/-- `CPU::add`: 32-bit signed add; the wrapped result is written to `rd`
before the overflow check decides `Ok`/`Err`. -/
def CPU.add (c : CPU) (rd rs rt : Nat) : Option (CPU × Except Int Int) := do
  let sval ← c.registers.get_by_number rs
  let tval ← c.registers.get_by_number rt
  let s := toI 32 sval
  let t := toI 32 tval
  let result := toI 32 (s + t)
  let will_overflow := checkedAdd32 s t
  let r ← c.registers.set_by_number rd result
  let c2 : CPU := { c with registers := r }
  match will_overflow with
  | some _ => some (c2, Except.ok result)
  | none => some (c2, Except.error result)

/-- `CPU::addu`. -/
def CPU.addu (c : CPU) (rd rs rt : Nat) : Option CPU := do
  let sval ← c.registers.get_by_number rs
  let tval ← c.registers.get_by_number rt
  let s := toU 32 (toI 32 sval)
  let t := toU 32 (toI 32 tval)
  let result := (s + t) % 4294967296
  let r ← c.registers.set_by_number rd ((result : Nat) : Int)
  some { c with registers := r }

/-- `CPU::addi`. -/
def CPU.addi (c : CPU) (rt rs : Nat) (immediate : Int) : Option (CPU × Except Int Int) := do
  let sval ← c.registers.get_by_number rs
  let s := toI 32 sval
  let result := toI 32 (s + immediate)
  let will_overflow := checkedAdd32 s immediate
  let r ← c.registers.set_by_number rt result
  let c2 : CPU := { c with registers := r }
  match will_overflow with
  | some _ => some (c2, Except.ok result)
  | none => some (c2, Except.error result)

/-- `CPU::addiu`. -/
def CPU.addiu (c : CPU) (rt rs : Nat) (immediate : Int) : Option CPU := do
  let sval ← c.registers.get_by_number rs
  let s := toU 32 (toI 32 sval)
  let i := toU 32 immediate
  let result := (s + i) % 4294967296
  let r ← c.registers.set_by_number rt ((result : Nat) : Int)
  some { c with registers := r }

/-- `CPU::dadd`. -/
def CPU.dadd (c : CPU) (rd rs rt : Nat) : Option (CPU × Except Int Int) := do
  let s ← c.registers.get_by_number rs
  let t ← c.registers.get_by_number rt
  let result := toI 64 (s + t)
  let will_overflow := checkedAdd64 s t
  let r ← c.registers.set_by_number rd result
  let c2 : CPU := { c with registers := r }
  match will_overflow with
  | some _ => some (c2, Except.ok result)
  | none => some (c2, Except.error result)

/-- `CPU::daddu`. -/
def CPU.daddu (c : CPU) (rd rs rt : Nat) : Option CPU := do
  let sval ← c.registers.get_by_number rs
  let tval ← c.registers.get_by_number rt
  let s := toU 64 sval
  let t := toU 64 tval
  let result := (s + t) % 18446744073709551616
  let r ← c.registers.set_by_number rd (toI 64 ((result : Nat) : Int))
  some { c with registers := r }

/-- `CPU::daddi`. -/
def CPU.daddi (c : CPU) (rt rs : Nat) (immediate : Int) : Option (CPU × Except Int Int) := do
  let s ← c.registers.get_by_number rs
  let result := toI 64 (s + immediate)
  let will_overflow := checkedAdd64 s immediate
  let r ← c.registers.set_by_number rt result
  let c2 : CPU := { c with registers := r }
  match will_overflow with
  | some _ => some (c2, Except.ok result)
  | none => some (c2, Except.error result)

/-- `CPU::daddiu` (the immediate goes through `as u16 as u64`, i.e. is
zero-extended here, unlike `daddi`). -/
def CPU.daddiu (c : CPU) (rt rs : Nat) (immediate : Int) : Option CPU := do
  let sval ← c.registers.get_by_number rs
  let s := toU 64 sval
  let i := toU 16 immediate
  let result := (s + i) % 18446744073709551616
  let r ← c.registers.set_by_number rt (toI 64 ((result : Nat) : Int))
  some { c with registers := r }

/-- `CPU::sub`. -/
def CPU.sub (c : CPU) (rd rs rt : Nat) : Option (CPU × Except Int Int) := do
  let sval ← c.registers.get_by_number rs
  let tval ← c.registers.get_by_number rt
  let s := toI 32 sval
  let t := toI 32 tval
  let result := toI 32 (s - t)
  let will_overflow := checkedSub32 s t
  let r ← c.registers.set_by_number rd result
  let c2 : CPU := { c with registers := r }
  match will_overflow with
  | some _ => some (c2, Except.ok result)
  | none => some (c2, Except.error result)

/-- `CPU::subu`. -/
def CPU.subu (c : CPU) (rd rs rt : Nat) : Option CPU := do
  let sval ← c.registers.get_by_number rs
  let tval ← c.registers.get_by_number rt
  let s := toU 32 (toI 32 sval)
  let t := toU 32 (toI 32 tval)
  let result := toU 32 ((s : Int) - (t : Int))
  let r ← c.registers.set_by_number rd ((result : Nat) : Int)
  some { c with registers := r }

/-- `CPU::dsub`. -/
def CPU.dsub (c : CPU) (rd rs rt : Nat) : Option (CPU × Except Int Int) := do
  let s ← c.registers.get_by_number rs
  let t ← c.registers.get_by_number rt
  let result := toI 64 (s - t)
  let will_overflow := checkedSub64 s t
  let r ← c.registers.set_by_number rd result
  let c2 : CPU := { c with registers := r }
  match will_overflow with
  | some _ => some (c2, Except.ok result)
  | none => some (c2, Except.error result)

/-- `CPU::dsubu`. -/
def CPU.dsubu (c : CPU) (rd rs rt : Nat) : Option CPU := do
  let sval ← c.registers.get_by_number rs
  let tval ← c.registers.get_by_number rt
  let s := toU 64 sval
  let t := toU 64 tval
  let result := toU 64 ((s : Int) - (t : Int))
  let r ← c.registers.set_by_number rd (toI 64 ((result : Nat) : Int))
  some { c with registers := r }

/-- `CPU::div`: 32-bit `wrapping_div`/`wrapping_rem_euclid` into LO/HI;
`none` models the divide-by-zero panic of `wrapping_div`. -/
def CPU.div (c : CPU) (rs rt : Nat) : Option CPU := do
  let sval ← c.registers.get_by_number rs
  let tval ← c.registers.get_by_number rt
  let s := toI 32 sval
  let t := toI 32 tval
  if t = 0 then none
  else
    let quotient := toI 32 (Int.tdiv s t)
    let remainder := Int.emod s t
    some { c with registers := (c.registers.set_lo quotient).set_hi remainder }

/-- `CPU::ddiv`; `none` models the divide-by-zero panic. -/
def CPU.ddiv (c : CPU) (rs rt : Nat) : Option CPU := do
  let s ← c.registers.get_by_number rs
  let t ← c.registers.get_by_number rt
  if t = 0 then none
  else
    let quotient := toI 64 (Int.tdiv s t)
    let remainder := Int.emod s t
    some { c with registers := (c.registers.set_lo quotient).set_hi remainder }

/-- `CPU::divu`; `none` models the divide-by-zero panic. -/
def CPU.divu (c : CPU) (rs rt : Nat) : Option CPU := do
  let sval ← c.registers.get_by_number rs
  let tval ← c.registers.get_by_number rt
  let s := toU 32 sval
  let t := toU 32 tval
  if t = 0 then none
  else
    let quotient := s / t
    let remainder := s % t
    let regs2 := (c.registers.set_lo (toI 32 ((quotient : Nat) : Int))).set_hi (toI 32 ((remainder : Nat) : Int))
    some { c with registers := regs2 }

/-- `CPU::ddivu`; `none` models the divide-by-zero panic. -/
def CPU.ddivu (c : CPU) (rs rt : Nat) : Option CPU := do
  let sval ← c.registers.get_by_number rs
  let tval ← c.registers.get_by_number rt
  let s := toU 64 sval
  let t := toU 64 tval
  if t = 0 then none
  else
    let quotient := s / t
    let remainder := s % t
    let regs2 := (c.registers.set_lo (toI 64 ((quotient : Nat) : Int))).set_hi (toI 64 ((remainder : Nat) : Int))
    some { c with registers := regs2 }

/-- `CPU::mult` (note the source masks LO with `0x000000FFFFFF`, a 24-bit
mask, and arithmetic-shifts for HI). -/
def CPU.mult (c : CPU) (rs rt : Nat) : Option CPU := do
  let sval ← c.registers.get_by_number rs
  let tval ← c.registers.get_by_number rt
  let s := toI 32 sval
  let t := toI 32 tval
  let result := s * t
  let regs2 := (c.registers.set_lo ((toU 64 result &&& 0x000000FFFFFF : Nat) : Int)).set_hi (Int.fdiv result 4294967296)
  some { c with registers := regs2 }

/-- `CPU::dmult` (128-bit product; LO masked with the 48-bit mask
`0xFFFFFFFFFFFF` as in the source). -/
def CPU.dmult (c : CPU) (rs rt : Nat) : Option CPU := do
  let s ← c.registers.get_by_number rs
  let t ← c.registers.get_by_number rt
  let result := s * t
  let regs2 := (c.registers.set_lo ((toU 128 result &&& 0xFFFFFFFFFFFF : Nat) : Int)).set_hi (toI 64 (Int.fdiv result 18446744073709551616))
  some { c with registers := regs2 }

/-- `CPU::multu` (u64 product, wrapping; LO masked with the 24-bit mask as
in the source). -/
def CPU.multu (c : CPU) (rs rt : Nat) : Option CPU := do
  let sval ← c.registers.get_by_number rs
  let tval ← c.registers.get_by_number rt
  let s := toU 64 sval
  let t := toU 64 tval
  let result := (s * t) % 18446744073709551616
  let regs2 := (c.registers.set_lo ((result &&& 0x000000FFFFFF : Nat) : Int)).set_hi (toI 64 ((result >>> 32 : Nat) : Int))
  some { c with registers := regs2 }

/-- `CPU::dmultu` (u128 product; LO masked with the 48-bit mask). -/
def CPU.dmultu (c : CPU) (rs rt : Nat) : Option CPU := do
  let sval ← c.registers.get_by_number rs
  let tval ← c.registers.get_by_number rt
  let s := toU 64 sval
  let t := toU 64 tval
  let result := s * t
  let regs2 := (c.registers.set_lo ((result &&& 0xFFFFFFFFFFFF : Nat) : Int)).set_hi (toI 64 ((result >>> 64 : Nat) : Int))
  some { c with registers := regs2 }

/-- `CPU::and`. -/
def CPU.and (c : CPU) (rd rs rt : Nat) : Option CPU := do
  let sval ← c.registers.get_by_number rs
  let tval ← c.registers.get_by_number rt
  let r ← c.registers.set_by_number rd (landI sval tval)
  some { c with registers := r }

/-- `CPU::andi` (the 16-bit immediate goes through `immediate as i64`,
i.e. it is sign-extended). -/
def CPU.andi (c : CPU) (rt rs : Nat) (immediate : Int) : Option CPU := do
  let s ← c.registers.get_by_number rs
  let result := landI s immediate
  let r ← c.registers.set_by_number rt result
  some { c with registers := r }

/-- `CPU::or`. -/
def CPU.or (c : CPU) (rd rs rt : Nat) : Option CPU := do
  let sval ← c.registers.get_by_number rs
  let tval ← c.registers.get_by_number rt
  let r ← c.registers.set_by_number rd (lorI sval tval)
  some { c with registers := r }

/-- `CPU::ori` (sign-extended immediate, as in the source). -/
def CPU.ori (c : CPU) (rt rs : Nat) (immediate : Int) : Option CPU := do
  let s ← c.registers.get_by_number rs
  let result := lorI s immediate
  let r ← c.registers.set_by_number rt result
  some { c with registers := r }

/-- `CPU::xor`. -/
def CPU.xor (c : CPU) (rd rs rt : Nat) : Option CPU := do
  let sval ← c.registers.get_by_number rs
  let tval ← c.registers.get_by_number rt
  let r ← c.registers.set_by_number rd (xorI sval tval)
  some { c with registers := r }

/-- `CPU::xori` (sign-extended immediate, as in the source; this handler
is not reachable from `exec_opcode`). -/
def CPU.xori (c : CPU) (rt rs : Nat) (immediate : Int) : Option CPU := do
  let s ← c.registers.get_by_number rs
  let result := xorI s immediate
  let r ← c.registers.set_by_number rt result
  some { c with registers := r }

/-- `CPU::nor`. -/
def CPU.nor (c : CPU) (rd rs rt : Nat) : Option CPU := do
  let sval ← c.registers.get_by_number rs
  let tval ← c.registers.get_by_number rt
  let r ← c.registers.set_by_number rd (lnotI (lorI sval tval))
  some { c with registers := r }

/-- `CPU::slt`. -/
def CPU.slt (c : CPU) (rd rs rt : Nat) : Option CPU := do
  let sval ← c.registers.get_by_number rs
  let tval ← c.registers.get_by_number rt
  let r ← c.registers.set_by_number rd (if sval < tval then 1 else 0)
  some { c with registers := r }

/-- `CPU::sltu` (not reachable from `exec_opcode`: the SLTU arm calls
`slt`). -/
def CPU.sltu (c : CPU) (rd rs rt : Nat) : Option CPU := do
  let sval ← c.registers.get_by_number rs
  let tval ← c.registers.get_by_number rt
  let r ← c.registers.set_by_number rd (if toU 64 sval < toU 64 tval then 1 else 0)
  some { c with registers := r }

/-- `CPU::slti`. -/
def CPU.slti (c : CPU) (rt rs : Nat) (immediate : Int) : Option CPU := do
  let s ← c.registers.get_by_number rs
  let r ← c.registers.set_by_number rt (if s < immediate then 1 else 0)
  some { c with registers := r }

/-- `CPU::sltiu` (immediate zero-extended via `as u16 as u64`). -/
def CPU.sltiu (c : CPU) (rt rs : Nat) (immediate : Int) : Option CPU := do
  let sval ← c.registers.get_by_number rs
  let s := toU 64 sval
  let i := toU 16 immediate
  let r ← c.registers.set_by_number rt (if s < i then 1 else 0)
  some { c with registers := r }

/-- `CPU::lui`. -/
def CPU.lui (c : CPU) (rt : Nat) (immediate : Int) : Option CPU := do
  let shift := toU 16 immediate <<< 16
  let result := toI 32 ((shift : Nat) : Int)
  let r ← c.registers.set_by_number rt result
  some { c with registers := r }

/-- `CPU::sll` (32-bit); `none` models the shift-amount panic for
`sa ≥ 32`. -/
def CPU.sll (c : CPU) (rd rt : Nat) (sa : Nat) : Option CPU := do
  let tval ← c.registers.get_by_number rt
  let t := toI 32 tval
  if sa ≥ 32 then none
  else
    let result := toI 32 (t * 2 ^ sa)
    let r ← c.registers.set_by_number rd result
    some { c with registers := r }

/-- `CPU::srl` (the source uses `>>` on `i32`, an arithmetic shift);
`none` models the shift-amount panic. -/
def CPU.srl (c : CPU) (rd rt : Nat) (sa : Nat) : Option CPU := do
  let tval ← c.registers.get_by_number rt
  let t := toI 32 tval
  if sa ≥ 32 then none
  else
    let result := Int.fdiv t (2 ^ sa)
    let r ← c.registers.set_by_number rd result
    some { c with registers := r }

/-- `CPU::sra` (the source masks the shifted value with `0xEFFFFFFF` and
re-ors the sign bit); `none` models the shift-amount panic. -/
def CPU.sra (c : CPU) (rd rt : Nat) (sa : Nat) : Option CPU := do
  let tval ← c.registers.get_by_number rt
  let t := toI 32 tval
  if sa ≥ 32 then none
  else
    let sign := toU 32 t &&& 0x80000000
    let result := toU 32 (Int.fdiv t (2 ^ sa)) &&& 0xEFFFFFFF
    let r ← c.registers.set_by_number rd (toI 32 (((result ||| sign : Nat)) : Int))
    some { c with registers := r }

/-- `CPU::sllv` (shifts the full 64-bit register by the low five bits of
`rs`, as in the source). -/
def CPU.sllv (c : CPU) (rd rt rs : Nat) : Option CPU := do
  let t ← c.registers.get_by_number rt
  let sval ← c.registers.get_by_number rs
  let s := toU 64 sval &&& 0b11111
  let result := toI 64 (t * 2 ^ s)
  let r ← c.registers.set_by_number rd result
  some { c with registers := r }

/-- `CPU::srlv` (arithmetic shift of the 64-bit register, as in the
source). -/
def CPU.srlv (c : CPU) (rd rt rs : Nat) : Option CPU := do
  let t ← c.registers.get_by_number rt
  let sval ← c.registers.get_by_number rs
  let s := toU 64 sval &&& 0b11111
  let result := Int.fdiv t (2 ^ s)
  let r ← c.registers.set_by_number rd result
  some { c with registers := r }

/-- `CPU::srav`. -/
def CPU.srav (c : CPU) (rd rt rs : Nat) : Option CPU := do
  let t ← c.registers.get_by_number rt
  let sval ← c.registers.get_by_number rs
  let s := toU 64 sval &&& 0b11111
  let result := Int.fdiv t (2 ^ s)
  let r ← c.registers.set_by_number rd result
  some { c with registers := r }

/-- `CPU::dsll`; `none` models the shift-amount panic for `sa ≥ 64`. -/
def CPU.dsll (c : CPU) (rd rt : Nat) (sa : Nat) : Option CPU := do
  let t ← c.registers.get_by_number rt
  if sa ≥ 64 then none
  else
    let result := toI 64 (t * 2 ^ sa)
    let r ← c.registers.set_by_number rd result
    some { c with registers := r }

/-- `CPU::dsrl` (arithmetic shift via `>>` on `i64`); `none` models the
shift-amount panic. -/
def CPU.dsrl (c : CPU) (rd rt : Nat) (sa : Nat) : Option CPU := do
  let t ← c.registers.get_by_number rt
  if sa ≥ 64 then none
  else
    let result := Int.fdiv t (2 ^ sa)
    let r ← c.registers.set_by_number rd result
    some { c with registers := r }

/-- `CPU::dsra`; `none` models the shift-amount panic. -/
def CPU.dsra (c : CPU) (rd rt : Nat) (sa : Nat) : Option CPU := do
  let t ← c.registers.get_by_number rt
  if sa ≥ 64 then none
  else
    let result := Int.fdiv t (2 ^ sa)
    let r ← c.registers.set_by_number rd result
    some { c with registers := r }

/-- `CPU::dsllv`. -/
def CPU.dsllv (c : CPU) (rd rt rs : Nat) : Option CPU := do
  let t ← c.registers.get_by_number rt
  let sval ← c.registers.get_by_number rs
  let s := toU 64 sval &&& 0b111111
  let result := toI 64 (t * 2 ^ s)
  let r ← c.registers.set_by_number rd result
  some { c with registers := r }

/-- `CPU::dsrlv`. -/
def CPU.dsrlv (c : CPU) (rd rt rs : Nat) : Option CPU := do
  let t ← c.registers.get_by_number rt
  let sval ← c.registers.get_by_number rs
  let s := toU 64 sval &&& 0b111111
  let result := Int.fdiv t (2 ^ s)
  let r ← c.registers.set_by_number rd result
  some { c with registers := r }

/-- `CPU::dsrav`. -/
def CPU.dsrav (c : CPU) (rd rt rs : Nat) : Option CPU := do
  let t ← c.registers.get_by_number rt
  let sval ← c.registers.get_by_number rs
  let s := toU 64 sval &&& 0b111111
  let result := Int.fdiv t (2 ^ s)
  let r ← c.registers.set_by_number rd result
  some { c with registers := r }

/-- `CPU::dsll32`; `none` models the shift-amount panic for
`32 + sa ≥ 64`. -/
def CPU.dsll32 (c : CPU) (rd rt : Nat) (sa : Nat) : Option CPU := do
  let t ← c.registers.get_by_number rt
  if 32 + sa ≥ 64 then none
  else
    let result := toI 64 (t * 2 ^ (32 + sa))
    let r ← c.registers.set_by_number rd result
    some { c with registers := r }

/-- `CPU::dsrl32`; `none` models the shift-amount panic. -/
def CPU.dsrl32 (c : CPU) (rd rt : Nat) (sa : Nat) : Option CPU := do
  let t ← c.registers.get_by_number rt
  if 32 + sa ≥ 64 then none
  else
    let result := Int.fdiv t (2 ^ (32 + sa))
    let r ← c.registers.set_by_number rd result
    some { c with registers := r }

/-- `CPU::dsra32`; `none` models the shift-amount panic. -/
def CPU.dsra32 (c : CPU) (rd rt : Nat) (sa : Nat) : Option CPU := do
  let t ← c.registers.get_by_number rt
  if 32 + sa ≥ 64 then none
  else
    let result := Int.fdiv t (2 ^ (32 + sa))
    let r ← c.registers.set_by_number rd result
    some { c with registers := r }

/-- `CPU::mfhi`. -/
def CPU.mfhi (c : CPU) (rd : Nat) : Option CPU := do
  let r ← c.registers.set_by_number rd c.registers.get_hi
  some { c with registers := r }

/-- `CPU::mflo`. -/
def CPU.mflo (c : CPU) (rd : Nat) : Option CPU := do
  let r ← c.registers.set_by_number rd c.registers.get_lo
  some { c with registers := r }

/-- `CPU::mthi`. -/
def CPU.mthi (c : CPU) (rs : Nat) : Option CPU := do
  let s ← c.registers.get_by_number rs
  some { c with registers := c.registers.set_hi s }

/-- `CPU::mtlo`. -/
def CPU.mtlo (c : CPU) (rs : Nat) : Option CPU := do
  let s ← c.registers.get_by_number rs
  some { c with registers := c.registers.set_lo s }

/-- `CPU::mtc0`. -/
def CPU.mtc0 (c : CPU) (rt rd : Nat) : Option CPU := do
  let b ← CP0Registers.is_32bits rd
  if b then do
    let v ← c.registers.get_by_number rt
    let p ← c.cp0.set_by_number_32 rd (toI 32 v)
    some { c with cp0 := p }
  else do
    let v ← c.registers.get_by_number rt
    let p ← c.cp0.set_by_number_64 rd v
    some { c with cp0 := p }

/-- `CPU::mfc0`. -/
def CPU.mfc0 (c : CPU) (rt rd : Nat) : Option CPU := do
  let b ← CP0Registers.is_32bits rd
  if b then do
    let v ← c.cp0.get_by_number_32 rd
    let r ← c.registers.set_by_number rt v
    some { c with registers := r }
  else do
    let v ← c.cp0.get_by_number_64 rd
    let r ← c.registers.set_by_number rt v
    some { c with registers := r }

/-- `CPU::dmtc0` (same body as `mtc0` in the source). -/
def CPU.dmtc0 (c : CPU) (rt rd : Nat) : Option CPU := do
  let b ← CP0Registers.is_32bits rd
  if b then do
    let v ← c.registers.get_by_number rt
    let p ← c.cp0.set_by_number_32 rd (toI 32 v)
    some { c with cp0 := p }
  else do
    let v ← c.registers.get_by_number rt
    let p ← c.cp0.set_by_number_64 rd v
    some { c with cp0 := p }

/-- `CPU::dmfc0` (same body as `mfc0` in the source). -/
def CPU.dmfc0 (c : CPU) (rt rd : Nat) : Option CPU := do
  let b ← CP0Registers.is_32bits rd
  if b then do
    let v ← c.cp0.get_by_number_32 rd
    let r ← c.registers.set_by_number rt v
    some { c with registers := r }
  else do
    let v ← c.cp0.get_by_number_64 rd
    let r ← c.registers.set_by_number rt v
    some { c with registers := r }

/-- `CPU::lb`. -/
def CPU.lb (c : CPU) (rt : Nat) (offset : Int) (base : Nat) (m : MMU) : Option CPU := do
  let bval ← c.registers.get_by_number base
  let address := bval + offset
  let data ← m.read_virtual address 1
  let d0 ← data.get? 0
  let r ← c.registers.set_by_number rt (toI 8 ((d0 : Nat) : Int))
  some { c with registers := r }

/-- `CPU::lbu`. -/
def CPU.lbu (c : CPU) (rt : Nat) (offset : Int) (base : Nat) (m : MMU) : Option CPU := do
  let bval ← c.registers.get_by_number base
  let address := bval + offset
  let data ← m.read_virtual address 1
  let d0 ← data.get? 0
  let r ← c.registers.set_by_number rt ((d0 : Nat) : Int)
  some { c with registers := r }

/-- `CPU::lh` (big-endian halfword, sign-extended). -/
def CPU.lh (c : CPU) (rt : Nat) (offset : Int) (base : Nat) (m : MMU) : Option CPU := do
  let bval ← c.registers.get_by_number base
  let address := bval + offset
  let data ← m.read_virtual address 2
  let d0 ← data.get? 0
  let d1 ← data.get? 1
  let v := (d0 <<< 8) ||| d1
  let r ← c.registers.set_by_number rt (toI 16 ((v : Nat) : Int))
  some { c with registers := r }

/-- `CPU::lhu`. -/
def CPU.lhu (c : CPU) (rt : Nat) (offset : Int) (base : Nat) (m : MMU) : Option CPU := do
  let bval ← c.registers.get_by_number base
  let address := bval + offset
  let data ← m.read_virtual address 2
  let d0 ← data.get? 0
  let d1 ← data.get? 1
  let v := (d0 <<< 8) ||| d1
  let r ← c.registers.set_by_number rt ((v : Nat) : Int)
  some { c with registers := r }

/-- `CPU::lw` (note the source combines the last byte with `<< 8`, not
`<< 0`, mirroring the same slip as in `fetch_opcode`). -/
def CPU.lw (c : CPU) (rt : Nat) (offset : Int) (base : Nat) (m : MMU) : Option CPU := do
  let bval ← c.registers.get_by_number base
  let address := bval + offset
  let data ← m.read_virtual address 4
  let d0 ← data.get? 0
  let d1 ← data.get? 1
  let d2 ← data.get? 2
  let d3 ← data.get? 3
  let v := (d0 <<< 24) ||| (d1 <<< 16) ||| (d2 <<< 8) ||| (d3 <<< 8)
  let r ← c.registers.set_by_number rt (toI 32 ((v : Nat) : Int))
  some { c with registers := r }

/-- `CPU::lwu` (same byte-combining slip as `lw`). -/
def CPU.lwu (c : CPU) (rt : Nat) (offset : Int) (base : Nat) (m : MMU) : Option CPU := do
  let bval ← c.registers.get_by_number base
  let address := bval + offset
  let data ← m.read_virtual address 4
  let d0 ← data.get? 0
  let d1 ← data.get? 1
  let d2 ← data.get? 2
  let d3 ← data.get? 3
  let v := (d0 <<< 24) ||| (d1 <<< 16) ||| (d2 <<< 8) ||| (d3 <<< 8)
  let r ← c.registers.set_by_number rt ((v : Nat) : Int)
  some { c with registers := r }

/-- The `for byte in data` loop of `lwl`: shifts each byte into the u32
accumulator and shrinks the mask. -/
def lwlFold (data : List Nat) : Nat × Nat :=
  data.foldl (fun acc byte => ((((acc.1 <<< 8) % 4294967296) ||| byte), acc.2 >>> 8))
    (0, 0xFFFFFFFF)

/-- The `for byte in data` loop of `lwr`: same accumulator, mask grows
(wrapping in u32). -/
def lwrFold (data : List Nat) : Nat × Nat :=
  data.foldl (fun acc byte => ((((acc.1 <<< 8) % 4294967296) ||| byte), (acc.2 <<< 8) % 4294967296))
    (0, 0xFFFFFFFF)

/-- `CPU::lwl`.  `bytes_to_read = 4 - address % 4` (Rust `%` truncates
toward zero, so a negative address yields more than four bytes and the
later `4 - bytes_to_read` usize subtraction panics, modelled by `none`). -/
def CPU.lwl (c : CPU) (rt : Nat) (offset : Int) (base : Nat) (m : MMU) : Option CPU := do
  let bval ← c.registers.get_by_number base
  let address := bval + offset
  let bytes_to_read := (4 - Int.tmod address 4).toNat
  let tval ← c.registers.get_by_number rt
  let t := toU 32 tval
  let data ← m.read_virtual address bytes_to_read
  let folded := lwlFold data
  if bytes_to_read > 4 then none
  else
    let left := 4 - bytes_to_read
    let v := (t &&& folded.2) ||| ((folded.1 <<< left) % 4294967296)
    let r ← c.registers.set_by_number rt (toI 32 ((v : Nat) : Int))
    some { c with registers := r }

/-- `CPU::lwr`. -/
def CPU.lwr (c : CPU) (rt : Nat) (offset : Int) (base : Nat) (m : MMU) : Option CPU := do
  let bval ← c.registers.get_by_number base
  let address := bval + offset
  let bytes_to_read := (4 - Int.tmod address 4).toNat
  let tval ← c.registers.get_by_number rt
  let t := toU 32 tval
  let data ← m.read_virtual address bytes_to_read
  let folded := lwrFold data
  let v := (t &&& folded.2) ||| folded.1
  let r ← c.registers.set_by_number rt (toI 32 ((v : Nat) : Int))
  some { c with registers := r }

/-- `CPU::lld` (reads four bytes but indexes `data[0..7]`; the access to
`data[4]` is out of bounds, modelled by `none`). -/
def CPU.lld (c : CPU) (rt : Nat) (offset : Int) (base : Nat) (m : MMU) : Option CPU := do
  let bval ← c.registers.get_by_number base
  let address := bval + offset
  let data ← m.read_virtual address 4
  let d0 ← data.get? 0
  let d1 ← data.get? 1
  let d2 ← data.get? 2
  let d3 ← data.get? 3
  let d4 ← data.get? 4
  let d5 ← data.get? 5
  let d6 ← data.get? 6
  let d7 ← data.get? 7
  let v := (d0 <<< 56) ||| (d1 <<< 48) ||| (d2 <<< 40) ||| (d3 <<< 32) |||
           (d4 <<< 24) ||| (d5 <<< 16) ||| (d6 <<< 8) ||| d7
  let cv ← MMU.convert address
  let p ← c.cp0.set_by_number_32 17 (toI 32 cv)
  let regs2 := c.registers.set_load_link true
  let r ← regs2.set_by_number rt (toI 64 ((v : Nat) : Int))
  some { registers := r, cp0 := p }

/-- `CPU::sb`. -/
def CPU.sb (c : CPU) (rt : Nat) (offset : Int) (base : Nat) (m : MMU) : Option MMU := do
  let bval ← c.registers.get_by_number base
  let address := bval + offset
  let tval ← c.registers.get_by_number rt
  m.write_virtual address (be_bytes 1 tval)

/-- `CPU::sh`. -/
def CPU.sh (c : CPU) (rt : Nat) (offset : Int) (base : Nat) (m : MMU) : Option MMU := do
  let bval ← c.registers.get_by_number base
  let address := bval + offset
  let tval ← c.registers.get_by_number rt
  m.write_virtual address (be_bytes 2 tval)

/-- `CPU::sw`. -/
def CPU.sw (c : CPU) (rt : Nat) (offset : Int) (base : Nat) (m : MMU) : Option MMU := do
  let bval ← c.registers.get_by_number base
  let address := bval + offset
  let tval ← c.registers.get_by_number rt
  m.write_virtual address (be_bytes 4 tval)

/-- `CPU::swl` (`bytes_shift = address & 3`; the register is shifted right
by that many BYTES as in the source, then stored as a 32-bit word). -/
def CPU.swl (c : CPU) (rt : Nat) (offset : Int) (base : Nat) (m : MMU) : Option MMU := do
  let bval ← c.registers.get_by_number base
  let address := bval + offset
  let bytes_shift := toU 64 address &&& 0x3
  let tval ← c.registers.get_by_number rt
  let t := Int.fdiv tval (2 ^ (8 * bytes_shift))
  m.write_virtual address (be_bytes 4 t)

/-- `CPU::swr` (stores the shifted doubleword at `address + 4`). -/
def CPU.swr (c : CPU) (rt : Nat) (offset : Int) (base : Nat) (m : MMU) : Option MMU := do
  let bval ← c.registers.get_by_number base
  let address := bval + offset
  let bytes_shift := toU 64 address &&& 0x3
  let tval ← c.registers.get_by_number rt
  let t := toI 64 (tval * 2 ^ (8 * bytes_shift))
  m.write_virtual (address + 4) (be_bytes 8 t)

/-- `CPU::sd`. -/
def CPU.sd (c : CPU) (rt : Nat) (offset : Int) (base : Nat) (m : MMU) : Option MMU := do
  let bval ← c.registers.get_by_number base
  let address := bval + offset
  let tval ← c.registers.get_by_number rt
  m.write_virtual address (be_bytes 8 tval)

/-- `CPU::sc`: if the load-linked flag is set, store the low word of `rt`;
otherwise write 0 to `rt` and perform no store. -/
def CPU.sc (c : CPU) (rt : Nat) (offset : Int) (base : Nat) (m : MMU) : Option (CPU × MMU) :=
  if c.registers.get_load_link then do
    let bval ← c.registers.get_by_number base
    let address := bval + offset
    let tval ← c.registers.get_by_number rt
    let m2 ← m.write_virtual address (be_bytes 4 tval)
    some (c, m2)
  else do
    let r ← c.registers.set_by_number rt 0
    some ({ c with registers := r }, m)

/-- `CPU::scd`: doubleword variant of `sc`. -/
def CPU.scd (c : CPU) (rt : Nat) (offset : Int) (base : Nat) (m : MMU) : Option (CPU × MMU) :=
  if c.registers.get_load_link then do
    let bval ← c.registers.get_by_number base
    let address := bval + offset
    let tval ← c.registers.get_by_number rt
    let m2 ← m.write_virtual address (be_bytes 8 tval)
    some (c, m2)
  else do
    let r ← c.registers.set_by_number rt 0
    some ({ c with registers := r }, m)

/-- `CPU::j`: keeps bits 63..29 of the current (already advanced) PC and
ors in `target << 2`. -/
def CPU.j (c : CPU) (target : Int) : CPU :=
  let pc := toU 64 c.registers.get_program_counter
  let npc := toI 64 (((pc &&& 0xFFFFFFFFE0000000) ||| ((toU 64 target <<< 2) % 18446744073709551616) : Nat) : Int)
  { c with registers := c.registers.set_next_program_counter npc }

/-- `CPU::jal`: writes `pc + 8` (the already advanced PC) to register 31,
then the same target computation as `j`. -/
def CPU.jal (c : CPU) (target : Int) : Option CPU := do
  let pc := c.registers.get_program_counter
  let r ← c.registers.set_by_number 31 (toI 64 (pc + 8))
  let npc := toI 64 (((toU 64 pc &&& 0xFFFFFFFFE0000000) ||| ((toU 64 target <<< 2) % 18446744073709551616) : Nat) : Int)
  some { c with registers := r.set_next_program_counter npc }

/-- `CPU::jalr`. -/
def CPU.jalr (c : CPU) (rd rs : Nat) : Option CPU := do
  let s ← c.registers.get_by_number rs
  let pc := c.registers.get_program_counter
  let r ← c.registers.set_by_number rd (toI 64 (pc + 8))
  some { c with registers := r.set_next_program_counter s }

/-- `CPU::jr`. -/
def CPU.jr (c : CPU) (rs : Nat) : Option CPU := do
  let s ← c.registers.get_by_number rs
  some { c with registers := c.registers.set_next_program_counter s }

/-- The branch displacement computed by every conditional branch handler:
`(((offset << 2) as u64) as i64) | ((((offset as u16) & 0x8000) as i16) as i64)`. -/
def branchOffset (offset : Int) : Int :=
  let sh := toI 16 (offset * 4)
  let signTerm := toI 16 ((toU 16 offset &&& 0x8000 : Nat) : Int)
  toI 64 ((toU 64 sh ||| toU 64 signTerm : Nat) : Int)

/-- `CPU::beq`. -/
def CPU.beq (c : CPU) (rs rt : Nat) (offset : Int) : Option CPU := do
  let s ← c.registers.get_by_number rs
  let t ← c.registers.get_by_number rt
  if s = t then
    some { c with registers := c.registers.increment_next_program_counter (branchOffset offset) }
  else
    some c

/-- `CPU::beql` (not reachable from `exec_opcode`); the not-taken arm only
prints a diagnostic. -/
def CPU.beql (c : CPU) (rs rt : Nat) (offset : Int) : Option CPU := do
  let s ← c.registers.get_by_number rs
  let t ← c.registers.get_by_number rt
  if s = t then
    some { c with registers := c.registers.increment_next_program_counter (branchOffset offset) }
  else
    some c

/-- `CPU::bgez`. -/
def CPU.bgez (c : CPU) (rs : Nat) (offset : Int) : Option CPU := do
  let s ← c.registers.get_by_number rs
  if 0 ≤ s then
    some { c with registers := c.registers.increment_next_program_counter (branchOffset offset) }
  else
    some c

/-- `CPU::bgezal` (always links `pc + 8` into register 31). -/
def CPU.bgezal (c : CPU) (rs : Nat) (offset : Int) : Option CPU := do
  let s ← c.registers.get_by_number rs
  let pc := c.registers.get_program_counter
  let r ← c.registers.set_by_number 31 (toI 64 (pc + 8))
  if 0 ≤ s then
    some { c with registers := r.increment_next_program_counter (branchOffset offset) }
  else
    some { c with registers := r }

/-- `CPU::bgezall` (likely form; the not-taken arm only prints a
diagnostic, the link is still written). -/
def CPU.bgezall (c : CPU) (rs : Nat) (offset : Int) : Option CPU := do
  let s ← c.registers.get_by_number rs
  let pc := c.registers.get_program_counter
  let r ← c.registers.set_by_number 31 (toI 64 (pc + 8))
  if 0 ≤ s then
    some { c with registers := r.increment_next_program_counter (branchOffset offset) }
  else
    some { c with registers := r }

/-- `CPU::bgezl` (likely form; the not-taken arm only prints a
diagnostic). -/
def CPU.bgezl (c : CPU) (rs : Nat) (offset : Int) : Option CPU := do
  let s ← c.registers.get_by_number rs
  if 0 ≤ s then
    some { c with registers := c.registers.increment_next_program_counter (branchOffset offset) }
  else
    some c

/-- `CPU::bgtz`. -/
def CPU.bgtz (c : CPU) (rs : Nat) (offset : Int) : Option CPU := do
  let s ← c.registers.get_by_number rs
  if 0 < s then
    some { c with registers := c.registers.increment_next_program_counter (branchOffset offset) }
  else
    some c

/-- `CPU::bgtzl` (likely form; no nullification, only a diagnostic). -/
def CPU.bgtzl (c : CPU) (rs : Nat) (offset : Int) : Option CPU := do
  let s ← c.registers.get_by_number rs
  if 0 < s then
    some { c with registers := c.registers.increment_next_program_counter (branchOffset offset) }
  else
    some c

/-- `CPU::blez`. -/
def CPU.blez (c : CPU) (rs : Nat) (offset : Int) : Option CPU := do
  let s ← c.registers.get_by_number rs
  if s ≤ 0 then
    some { c with registers := c.registers.increment_next_program_counter (branchOffset offset) }
  else
    some c

/-- `CPU::blezl` (likely form; no nullification, only a diagnostic). -/
def CPU.blezl (c : CPU) (rs : Nat) (offset : Int) : Option CPU := do
  let s ← c.registers.get_by_number rs
  if s ≤ 0 then
    some { c with registers := c.registers.increment_next_program_counter (branchOffset offset) }
  else
    some c

/-- `CPU::bltz`. -/
def CPU.bltz (c : CPU) (rs : Nat) (offset : Int) : Option CPU := do
  let s ← c.registers.get_by_number rs
  if s < 0 then
    some { c with registers := c.registers.increment_next_program_counter (branchOffset offset) }
  else
    some c

/-- `CPU::bltzal`. -/
def CPU.bltzal (c : CPU) (rs : Nat) (offset : Int) : Option CPU := do
  let s ← c.registers.get_by_number rs
  let pc := c.registers.get_program_counter
  let r ← c.registers.set_by_number 31 (toI 64 (pc + 8))
  if s < 0 then
    some { c with registers := r.increment_next_program_counter (branchOffset offset) }
  else
    some { c with registers := r }

/-- `CPU::bltzall` (likely form; no nullification, link still written). -/
def CPU.bltzall (c : CPU) (rs : Nat) (offset : Int) : Option CPU := do
  let s ← c.registers.get_by_number rs
  let pc := c.registers.get_program_counter
  let r ← c.registers.set_by_number 31 (toI 64 (pc + 8))
  if s < 0 then
    some { c with registers := r.increment_next_program_counter (branchOffset offset) }
  else
    some { c with registers := r }

/-- `CPU::bltzl` (likely form; no nullification, only a diagnostic). -/
def CPU.bltzl (c : CPU) (rs : Nat) (offset : Int) : Option CPU := do
  let s ← c.registers.get_by_number rs
  if s < 0 then
    some { c with registers := c.registers.increment_next_program_counter (branchOffset offset) }
  else
    some c

/-- `CPU::bne`. -/
def CPU.bne (c : CPU) (rs rt : Nat) (offset : Int) : Option CPU := do
  let s ← c.registers.get_by_number rs
  let t ← c.registers.get_by_number rt
  if s ≠ t then
    some { c with registers := c.registers.increment_next_program_counter (branchOffset offset) }
  else
    some c

/-- `CPU::bnel` (likely form; the not-taken arm only prints a diagnostic,
the delay slot is NOT nullified). -/
def CPU.bnel (c : CPU) (rs rt : Nat) (offset : Int) : Option CPU := do
  let s ← c.registers.get_by_number rs
  let t ← c.registers.get_by_number rt
  if s ≠ t then
    some { c with registers := c.registers.increment_next_program_counter (branchOffset offset) }
  else
    some c

/-- Dispatch glue for the fallible-arithmetic arms: the source checks the
handler result and hits a `todo!` (process abort, modelled `none`) when the
handler signalled overflow. -/
def execArith (res : Option (CPU × Except Int Int)) (m : MMU) : Option (CPU × MMU) :=
  match res with
  | some (c2, Except.ok _) => some (c2, m)
  | some (_, Except.error _) => none
  | none => none

/-- The SPECIAL (primary opcode 0) dispatch of `CPU::exec_opcode`, keyed on
the low six function bits.  `none` models `todo!`/`unimplemented!` panics;
for ADD/DADD/SUB/DSUB an `Err` handler result hits a `todo!` (abort), so
those arms return `none` on overflow -- after the register write already
happened in the handler. -/
def CPU.exec_special (opcode : Nat) (c : CPU) (m : MMU) : Option (CPU × MMU) :=
  if opcode &&& 0b111111 = 0b100000 then
    execArith (CPU.add c (params_rd_rs_rt opcode).1 (params_rd_rs_rt opcode).2.1 (params_rd_rs_rt opcode).2.2) m
  else if opcode &&& 0b111111 = 0b100001 then
    (CPU.addu c (params_rd_rs_rt opcode).1 (params_rd_rs_rt opcode).2.1 (params_rd_rs_rt opcode).2.2).map (fun c2 => (c2, m))
  else if opcode &&& 0b111111 = 0b100100 then
    (CPU.and c (params_rd_rs_rt opcode).1 (params_rd_rs_rt opcode).2.1 (params_rd_rs_rt opcode).2.2).map (fun c2 => (c2, m))
  else if opcode &&& 0b111111 = 0b001101 then none
  else if opcode &&& 0b111111 = 0b101100 then
    execArith (CPU.dadd c (params_rd_rs_rt opcode).1 (params_rd_rs_rt opcode).2.1 (params_rd_rs_rt opcode).2.2) m
  else if opcode &&& 0b111111 = 0b101101 then
    (CPU.daddu c (params_rd_rs_rt opcode).1 (params_rd_rs_rt opcode).2.1 (params_rd_rs_rt opcode).2.2).map (fun c2 => (c2, m))
  else if opcode &&& 0b111111 = 0b011110 then
    (CPU.ddiv c (params_rs_rt opcode).1 (params_rs_rt opcode).2).map (fun c2 => (c2, m))
  else if opcode &&& 0b111111 = 0b011111 then
    (CPU.ddivu c (params_rs_rt opcode).1 (params_rs_rt opcode).2).map (fun c2 => (c2, m))
  else if opcode &&& 0b111111 = 0b011010 then
    (CPU.div c (params_rs_rt opcode).1 (params_rs_rt opcode).2).map (fun c2 => (c2, m))
  else if opcode &&& 0b111111 = 0b011011 then
    (CPU.divu c (params_rs_rt opcode).1 (params_rs_rt opcode).2).map (fun c2 => (c2, m))
  else if opcode &&& 0b111111 = 0b011100 then
    (CPU.dmult c (params_rs_rt opcode).1 (params_rs_rt opcode).2).map (fun c2 => (c2, m))
  else if opcode &&& 0b111111 = 0b011101 then
    (CPU.dmultu c (params_rs_rt opcode).1 (params_rs_rt opcode).2).map (fun c2 => (c2, m))
  else if opcode &&& 0b111111 = 0b111000 then
    (CPU.dsll c (params_rd_rt_sa opcode).1 (params_rd_rt_sa opcode).2.1 (params_rd_rt_sa opcode).2.2).map (fun c2 => (c2, m))
  else if opcode &&& 0b111111 = 0b010100 then
    (CPU.dsllv c (params_rd_rt_rs opcode).1 (params_rd_rt_rs opcode).2.1 (params_rd_rt_rs opcode).2.2).map (fun c2 => (c2, m))
  else if opcode &&& 0b111111 = 0b111100 then
    (CPU.dsll32 c (params_rd_rt_sa opcode).1 (params_rd_rt_sa opcode).2.1 (params_rd_rt_sa opcode).2.2).map (fun c2 => (c2, m))
  else if opcode &&& 0b111111 = 0b111011 then
    (CPU.dsra c (params_rd_rt_rs opcode).1 (params_rd_rt_rs opcode).2.1 (params_rd_rt_rs opcode).2.2).map (fun c2 => (c2, m))
  else if opcode &&& 0b111111 = 0b010111 then
    (CPU.dsrav c (params_rd_rt_rs opcode).1 (params_rd_rt_rs opcode).2.1 (params_rd_rt_rs opcode).2.2).map (fun c2 => (c2, m))
  else if opcode &&& 0b111111 = 0b111111 then
    (CPU.dsra32 c (params_rd_rt_sa opcode).1 (params_rd_rt_sa opcode).2.1 (params_rd_rt_sa opcode).2.2).map (fun c2 => (c2, m))
  else if opcode &&& 0b111111 = 0b111010 then
    (CPU.dsrl c (params_rd_rt_sa opcode).1 (params_rd_rt_sa opcode).2.1 (params_rd_rt_sa opcode).2.2).map (fun c2 => (c2, m))
  else if opcode &&& 0b111111 = 0b010110 then
    (CPU.dsrlv c (params_rd_rt_rs opcode).1 (params_rd_rt_rs opcode).2.1 (params_rd_rt_rs opcode).2.2).map (fun c2 => (c2, m))
  else if opcode &&& 0b111111 = 0b111110 then
    (CPU.dsrl32 c (params_rd_rt_sa opcode).1 (params_rd_rt_sa opcode).2.1 (params_rd_rt_sa opcode).2.2).map (fun c2 => (c2, m))
  else if opcode &&& 0b111111 = 0b101110 then
    execArith (CPU.dsub c (params_rd_rs_rt opcode).1 (params_rd_rs_rt opcode).2.1 (params_rd_rs_rt opcode).2.2) m
  else if opcode &&& 0b111111 = 0b101111 then
    (CPU.dsubu c (params_rd_rs_rt opcode).1 (params_rd_rs_rt opcode).2.1 (params_rd_rs_rt opcode).2.2).map (fun c2 => (c2, m))
  else if opcode &&& 0b111111 = 0b001001 then
    (CPU.jalr c ((opcode >>> 10) &&& 0x7FF) ((opcode >>> 21) &&& 0x7FF)).map (fun c2 => (c2, m))
  else if opcode &&& 0b111111 = 0b001000 then
    (CPU.jr c ((opcode >>> 21) &&& 0x7FF)).map (fun c2 => (c2, m))
  else if opcode &&& 0b111111 = 0b010000 then (CPU.mfhi c (params_rd opcode)).map (fun c2 => (c2, m))
  else if opcode &&& 0b111111 = 0b010010 then (CPU.mflo c (params_rd opcode)).map (fun c2 => (c2, m))
  else if opcode &&& 0b111111 = 0b010001 then (CPU.mthi c (params_rs opcode)).map (fun c2 => (c2, m))
  else if opcode &&& 0b111111 = 0b010011 then (CPU.mtlo c (params_rs opcode)).map (fun c2 => (c2, m))
  else if opcode &&& 0b111111 = 0b011000 then
    (CPU.mult c (params_rs_rt opcode).1 (params_rs_rt opcode).2).map (fun c2 => (c2, m))
  else if opcode &&& 0b111111 = 0b011001 then
    (CPU.multu c (params_rs_rt opcode).1 (params_rs_rt opcode).2).map (fun c2 => (c2, m))
  else if opcode &&& 0b111111 = 0b100111 then
    (CPU.nor c (params_rd_rs_rt opcode).1 (params_rd_rs_rt opcode).2.1 (params_rd_rs_rt opcode).2.2).map (fun c2 => (c2, m))
  else if opcode &&& 0b111111 = 0b100101 then
    (CPU.or c (params_rd_rs_rt opcode).1 (params_rd_rs_rt opcode).2.1 (params_rd_rs_rt opcode).2.2).map (fun c2 => (c2, m))
  else if opcode &&& 0b111111 = 0b000000 then
    (CPU.sll c (params_rd_rt_sa opcode).1 (params_rd_rt_sa opcode).2.1 (params_rd_rt_sa opcode).2.2).map (fun c2 => (c2, m))
  else if opcode &&& 0b111111 = 0b000100 then
    (CPU.sllv c (params_rd_rt_rs opcode).1 (params_rd_rt_rs opcode).2.1 (params_rd_rt_rs opcode).2.2).map (fun c2 => (c2, m))
  else if opcode &&& 0b111111 = 0b101010 then
    (CPU.slt c (params_rd_rs_rt opcode).1 (params_rd_rs_rt opcode).2.1 (params_rd_rs_rt opcode).2.2).map (fun c2 => (c2, m))
  else if opcode &&& 0b111111 = 0b101011 then
    (CPU.slt c (params_rd_rs_rt opcode).1 (params_rd_rs_rt opcode).2.1 (params_rd_rs_rt opcode).2.2).map (fun c2 => (c2, m))
  else if opcode &&& 0b111111 = 0b000011 then
    (CPU.sra c (params_rd_rt_sa opcode).1 (params_rd_rt_sa opcode).2.1 (params_rd_rt_sa opcode).2.2).map (fun c2 => (c2, m))
  else if opcode &&& 0b111111 = 0b000111 then
    (CPU.srav c (params_rd_rt_rs opcode).1 (params_rd_rt_rs opcode).2.1 (params_rd_rt_rs opcode).2.2).map (fun c2 => (c2, m))
  else if opcode &&& 0b111111 = 0b000010 then
    (CPU.srl c (params_rd_rt_sa opcode).1 (params_rd_rt_sa opcode).2.1 (params_rd_rt_sa opcode).2.2).map (fun c2 => (c2, m))
  else if opcode &&& 0b111111 = 0b000110 then
    (CPU.srlv c (params_rd_rt_sa opcode).1 (params_rd_rt_sa opcode).2.1 (params_rd_rt_sa opcode).2.2).map (fun c2 => (c2, m))
  else if opcode &&& 0b111111 = 0b100010 then
    execArith (CPU.sub c (params_rd_rs_rt opcode).1 (params_rd_rs_rt opcode).2.1 (params_rd_rs_rt opcode).2.2) m
  else if opcode &&& 0b111111 = 0b100011 then
    (CPU.subu c (params_rd_rs_rt opcode).1 (params_rd_rs_rt opcode).2.1 (params_rd_rs_rt opcode).2.2).map (fun c2 => (c2, m))
  else if opcode &&& 0b111111 = 0b001111 then some (c, m)
  else if opcode &&& 0b111111 = 0b001100 then some (c, m)
  else if opcode &&& 0b111111 = 0b110100 then some (c, m)
  else if opcode &&& 0b111111 = 0b110000 then some (c, m)
  else if opcode &&& 0b111111 = 0b110001 then some (c, m)
  else if opcode &&& 0b111111 = 0b110010 then some (c, m)
  else if opcode &&& 0b111111 = 0b110011 then some (c, m)
  else if opcode &&& 0b111111 = 0b110110 then some (c, m)
  else if opcode &&& 0b111111 = 0b100110 then
    (CPU.xor c (params_rd_rs_rt opcode).1 (params_rd_rs_rt opcode).2.1 (params_rd_rs_rt opcode).2.2).map (fun c2 => (c2, m))
  else none

/-- The REGIMM (primary opcode 1) dispatch, keyed on bits 20..16; the trap
arms are empty in the source. -/
def CPU.exec_regimm (opcode : Nat) (c : CPU) (m : MMU) : Option (CPU × MMU) :=
  if (opcode >>> 16) &&& 0b11111 = 0b00001 then
    (CPU.bgez c (params_rs_offset opcode).1 (params_rs_offset opcode).2).map (fun c2 => (c2, m))
  else if (opcode >>> 16) &&& 0b11111 = 0b10001 then
    (CPU.bgezal c (params_rs_offset opcode).1 (params_rs_offset opcode).2).map (fun c2 => (c2, m))
  else if (opcode >>> 16) &&& 0b11111 = 0b10011 then
    (CPU.bgezall c (params_rs_offset opcode).1 (params_rs_offset opcode).2).map (fun c2 => (c2, m))
  else if (opcode >>> 16) &&& 0b11111 = 0b00011 then
    (CPU.bgezl c (params_rs_offset opcode).1 (params_rs_offset opcode).2).map (fun c2 => (c2, m))
  else if (opcode >>> 16) &&& 0b11111 = 0b00000 then
    (CPU.bltz c (params_rs_offset opcode).1 (params_rs_offset opcode).2).map (fun c2 => (c2, m))
  else if (opcode >>> 16) &&& 0b11111 = 0b10000 then
    (CPU.bltzal c (params_rs_offset opcode).1 (params_rs_offset opcode).2).map (fun c2 => (c2, m))
  else if (opcode >>> 16) &&& 0b11111 = 0b10010 then
    (CPU.bltzall c (params_rs_offset opcode).1 (params_rs_offset opcode).2).map (fun c2 => (c2, m))
  else if (opcode >>> 16) &&& 0b11111 = 0b00010 then
    (CPU.bltzl c (params_rs_offset opcode).1 (params_rs_offset opcode).2).map (fun c2 => (c2, m))
  else if (opcode >>> 16) &&& 0b11111 = 0b01100 then some (c, m)
  else if (opcode >>> 16) &&& 0b11111 = 0b01000 then some (c, m)
  else if (opcode >>> 16) &&& 0b11111 = 0b01001 then some (c, m)
  else if (opcode >>> 16) &&& 0b11111 = 0b01010 then some (c, m)
  else if (opcode >>> 16) &&& 0b11111 = 0b01011 then some (c, m)
  else if (opcode >>> 16) &&& 0b11111 = 0b01110 then some (c, m)
  else none

/-- The COP0 (primary opcode 16) dispatch, keyed on bits 25..21, falling
back to the low six function bits; ERET/TLB arms are empty in the
source. -/
def CPU.exec_cop0 (opcode : Nat) (c : CPU) (m : MMU) : Option (CPU × MMU) :=
  if (opcode >>> 21) &&& 0b11111 = 0b00001 then
    (CPU.dmfc0 c (params_rt_rd opcode).1 (params_rt_rd opcode).2).map (fun c2 => (c2, m))
  else if (opcode >>> 21) &&& 0b11111 = 0b00101 then
    (CPU.dmtc0 c (params_rt_rd opcode).1 (params_rt_rd opcode).2).map (fun c2 => (c2, m))
  else if (opcode >>> 21) &&& 0b11111 = 0b00000 then
    (CPU.mfc0 c (params_rt_rd opcode).1 (params_rt_rd opcode).2).map (fun c2 => (c2, m))
  else if (opcode >>> 21) &&& 0b11111 = 0b00100 then
    (CPU.mtc0 c (params_rt_rd opcode).1 (params_rt_rd opcode).2).map (fun c2 => (c2, m))
  else
    if opcode &&& 0b111111 = 0b011000 then some (c, m)
    else if opcode &&& 0b111111 = 0b001000 then some (c, m)
    else if opcode &&& 0b111111 = 0b000001 then some (c, m)
    else if opcode &&& 0b111111 = 0b000010 then some (c, m)
    else if opcode &&& 0b111111 = 0b000110 then some (c, m)
    else none

/-- `CPU::exec_opcode`: primary dispatch on the top six bits
(`to_be_bytes()[0] >> 2`).  `none` models the `unimplemented!` panic of the
default arm. -/
def CPU.exec_opcode (opcode : Nat) (c : CPU) (m : MMU) : Option (CPU × MMU) :=
  if ((opcode >>> 24) &&& 0xFF) >>> 2 = 0b000000 then CPU.exec_special opcode c m
  else if ((opcode >>> 24) &&& 0xFF) >>> 2 = 0b000001 then CPU.exec_regimm opcode c m
  else if ((opcode >>> 24) &&& 0xFF) >>> 2 = 0b011000 then
    execArith (CPU.daddi c (params_rt_rs_immediate opcode).1 (params_rt_rs_immediate opcode).2.1 (params_rt_rs_immediate opcode).2.2) m
  else if ((opcode >>> 24) &&& 0xFF) >>> 2 = 0b011001 then
    (CPU.daddiu c (params_rt_rs_immediate opcode).1 (params_rt_rs_immediate opcode).2.1 (params_rt_rs_immediate opcode).2.2).map (fun c2 => (c2, m))
  else if ((opcode >>> 24) &&& 0xFF) >>> 2 = 0b001000 then
    execArith (CPU.addi c (params_rt_rs_immediate opcode).1 (params_rt_rs_immediate opcode).2.1 (params_rt_rs_immediate opcode).2.2) m
  else if ((opcode >>> 24) &&& 0xFF) >>> 2 = 0b001001 then
    (CPU.addiu c (params_rt_rs_immediate opcode).1 (params_rt_rs_immediate opcode).2.1 (params_rt_rs_immediate opcode).2.2).map (fun c2 => (c2, m))
  else if ((opcode >>> 24) &&& 0xFF) >>> 2 = 0b001100 then
    (CPU.andi c (params_rt_rs_immediate opcode).1 (params_rt_rs_immediate opcode).2.1 (params_rt_rs_immediate opcode).2.2).map (fun c2 => (c2, m))
  else if ((opcode >>> 24) &&& 0xFF) >>> 2 = 0b001101 then
    (CPU.ori c (params_rt_rs_immediate opcode).1 (params_rt_rs_immediate opcode).2.1 (params_rt_rs_immediate opcode).2.2).map (fun c2 => (c2, m))
  else if ((opcode >>> 24) &&& 0xFF) >>> 2 = 0b001010 then
    (CPU.slti c (params_rt_rs_immediate opcode).1 (params_rt_rs_immediate opcode).2.1 (params_rt_rs_immediate opcode).2.2).map (fun c2 => (c2, m))
  else if ((opcode >>> 24) &&& 0xFF) >>> 2 = 0b001011 then
    (CPU.sltiu c (params_rt_rs_immediate opcode).1 (params_rt_rs_immediate opcode).2.1 (params_rt_rs_immediate opcode).2.2).map (fun c2 => (c2, m))
  else if ((opcode >>> 24) &&& 0xFF) >>> 2 = 0b001111 then
    (CPU.lui c (params_rt_immediate opcode).1 (params_rt_immediate opcode).2).map (fun c2 => (c2, m))
  else if ((opcode >>> 24) &&& 0xFF) >>> 2 = 0b010000 then CPU.exec_cop0 opcode c m
  else if ((opcode >>> 24) &&& 0xFF) >>> 2 = 0b100000 then
    (CPU.lb c (params_rt_offset_base opcode).1 (params_rt_offset_base opcode).2.1 (params_rt_offset_base opcode).2.2 m).map (fun c2 => (c2, m))
  else if ((opcode >>> 24) &&& 0xFF) >>> 2 = 0b100100 then
    (CPU.lbu c (params_rt_offset_base opcode).1 (params_rt_offset_base opcode).2.1 (params_rt_offset_base opcode).2.2 m).map (fun c2 => (c2, m))
  else if ((opcode >>> 24) &&& 0xFF) >>> 2 = 0b100001 then
    (CPU.lh c (params_rt_offset_base opcode).1 (params_rt_offset_base opcode).2.1 (params_rt_offset_base opcode).2.2 m).map (fun c2 => (c2, m))
  else if ((opcode >>> 24) &&& 0xFF) >>> 2 = 0b100101 then
    (CPU.lhu c (params_rt_offset_base opcode).1 (params_rt_offset_base opcode).2.1 (params_rt_offset_base opcode).2.2 m).map (fun c2 => (c2, m))
  else if ((opcode >>> 24) &&& 0xFF) >>> 2 = 0b100011 then
    (CPU.lw c (params_rt_offset_base opcode).1 (params_rt_offset_base opcode).2.1 (params_rt_offset_base opcode).2.2 m).map (fun c2 => (c2, m))
  else if ((opcode >>> 24) &&& 0xFF) >>> 2 = 0b100010 then
    (CPU.lwl c (params_rt_offset_base opcode).1 (params_rt_offset_base opcode).2.1 (params_rt_offset_base opcode).2.2 m).map (fun c2 => (c2, m))
  else if ((opcode >>> 24) &&& 0xFF) >>> 2 = 0b100110 then
    (CPU.lwr c (params_rt_offset_base opcode).1 (params_rt_offset_base opcode).2.1 (params_rt_offset_base opcode).2.2 m).map (fun c2 => (c2, m))
  else if ((opcode >>> 24) &&& 0xFF) >>> 2 = 0b101000 then
    (CPU.sb c (params_rt_offset_base opcode).1 (params_rt_offset_base opcode).2.1 (params_rt_offset_base opcode).2.2 m).map (fun m2 => (c, m2))
  else if ((opcode >>> 24) &&& 0xFF) >>> 2 = 0b101001 then
    (CPU.sh c (params_rt_offset_base opcode).1 (params_rt_offset_base opcode).2.1 (params_rt_offset_base opcode).2.2 m).map (fun m2 => (c, m2))
  else if ((opcode >>> 24) &&& 0xFF) >>> 2 = 0b101011 then
    (CPU.sw c (params_rt_offset_base opcode).1 (params_rt_offset_base opcode).2.1 (params_rt_offset_base opcode).2.2 m).map (fun m2 => (c, m2))
  else if ((opcode >>> 24) &&& 0xFF) >>> 2 = 0b101010 then
    (CPU.swl c (params_rt_offset_base opcode).1 (params_rt_offset_base opcode).2.1 (params_rt_offset_base opcode).2.2 m).map (fun m2 => (c, m2))
  else if ((opcode >>> 24) &&& 0xFF) >>> 2 = 0b101100 then
    (CPU.swr c (params_rt_offset_base opcode).1 (params_rt_offset_base opcode).2.1 (params_rt_offset_base opcode).2.2 m).map (fun m2 => (c, m2))
  else if ((opcode >>> 24) &&& 0xFF) >>> 2 = 0b110100 then
    (CPU.lld c (params_rt_offset_base opcode).1 (params_rt_offset_base opcode).2.1 (params_rt_offset_base opcode).2.2 m).map (fun c2 => (c2, m))
  else if ((opcode >>> 24) &&& 0xFF) >>> 2 = 0b100111 then
    (CPU.lwu c (params_rt_offset_base opcode).1 (params_rt_offset_base opcode).2.1 (params_rt_offset_base opcode).2.2 m).map (fun c2 => (c2, m))
  else if ((opcode >>> 24) &&& 0xFF) >>> 2 = 0b111000 then
    CPU.sc c (params_rt_offset_base opcode).1 (params_rt_offset_base opcode).2.1 (params_rt_offset_base opcode).2.2 m
  else if ((opcode >>> 24) &&& 0xFF) >>> 2 = 0b111100 then
    CPU.scd c (params_rt_offset_base opcode).1 (params_rt_offset_base opcode).2.1 (params_rt_offset_base opcode).2.2 m
  else if ((opcode >>> 24) &&& 0xFF) >>> 2 = 0b111111 then
    (CPU.sd c (params_rt_offset_base opcode).1 (params_rt_offset_base opcode).2.1 (params_rt_offset_base opcode).2.2 m).map (fun m2 => (c, m2))
  else if ((opcode >>> 24) &&& 0xFF) >>> 2 = 0b000010 then some (CPU.j c (params_target opcode), m)
  else if ((opcode >>> 24) &&& 0xFF) >>> 2 = 0b001110 then (CPU.jal c (params_target opcode)).map (fun c2 => (c2, m))
  else if ((opcode >>> 24) &&& 0xFF) >>> 2 = 0b000100 then
    (CPU.beq c (params_rs_rt_offset opcode).1 (params_rs_rt_offset opcode).2.1 (params_rs_rt_offset opcode).2.2).map (fun c2 => (c2, m))
  else if ((opcode >>> 24) &&& 0xFF) >>> 2 = 0b000111 then
    (CPU.bgtz c (params_rs_offset opcode).1 (params_rs_offset opcode).2).map (fun c2 => (c2, m))
  else if ((opcode >>> 24) &&& 0xFF) >>> 2 = 0b010111 then
    (CPU.bgtzl c (params_rs_offset opcode).1 (params_rs_offset opcode).2).map (fun c2 => (c2, m))
  else if ((opcode >>> 24) &&& 0xFF) >>> 2 = 0b000110 then
    (CPU.blez c (params_rs_offset opcode).1 (params_rs_offset opcode).2).map (fun c2 => (c2, m))
  else if ((opcode >>> 24) &&& 0xFF) >>> 2 = 0b010110 then
    (CPU.blezl c (params_rs_offset opcode).1 (params_rs_offset opcode).2).map (fun c2 => (c2, m))
  else if ((opcode >>> 24) &&& 0xFF) >>> 2 = 0b000101 then
    (CPU.bne c (params_rs_rt_offset opcode).1 (params_rs_rt_offset opcode).2.1 (params_rs_rt_offset opcode).2.2).map (fun c2 => (c2, m))
  else if ((opcode >>> 24) &&& 0xFF) >>> 2 = 0b010101 then
    (CPU.bnel c (params_rs_rt_offset opcode).1 (params_rs_rt_offset opcode).2.1 (params_rs_rt_offset opcode).2.2).map (fun c2 => (c2, m))
  else none

/-- `CPU::fetch_opcode`: reads four bytes at the address and combines them
big-endian -- except that the source shifts the last byte by 8 instead of
0, so the low byte of every fetched word is zero. -/
def CPU.fetch_opcode (address : Int) (m : MMU) : Option Nat := do
  let data ← m.read_virtual address 4
  let d0 ← data.get? 0
  let d1 ← data.get? 1
  let d2 ← data.get? 2
  let d3 ← data.get? 3
  some ((d0 <<< 24) ||| (d1 <<< 16) ||| (d2 <<< 8) ||| (d3 <<< 8))

/-- `CPU::fetch_and_exec_opcode`: fetch at the old PC, advance
`PC <- next-PC; next-PC <- next-PC + 4` (wrapping), then execute. -/
def CPU.fetch_and_exec (c : CPU) (m : MMU) : Option (CPU × MMU) := do
  let opcode ← CPU.fetch_opcode c.registers.get_program_counter m
  let next_pc := c.registers.get_next_program_counter
  let regs2 := (c.registers.set_program_counter next_pc).set_next_program_counter
    (toI 64 (next_pc + 4))
  CPU.exec_opcode opcode { c with registers := regs2 } m

/-- The REGIMM rows (bits 20..16) whose handlers are branches: BLTZ,
BGEZ, BLTZL, BGEZL, BLTZAL, BGEZAL, BLTZALL, BGEZALL. -/
def isRegimmBranchRow (r : Nat) : Bool :=
  r = 0 || r = 1 || r = 2 || r = 3 || r = 16 || r = 17 || r = 18 || r = 19

/-- Decode-level classification continued: true exactly on the arms whose
handler writes `next-PC`. -/
def isBranchOpcode (opcode : Nat) : Bool :=
  let inst := ((opcode >>> 24) &&& 0xFF) >>> 2
  if inst = 0 then
    opcode &&& 0b111111 = 0b001000 || opcode &&& 0b111111 = 0b001001
  else if inst = 1 then
    isRegimmBranchRow ((opcode >>> 16) &&& 0b11111)
  else
    inst = 2 || inst = 14 || inst = 4 || inst = 5 || inst = 6 || inst = 7 ||
    inst = 21 || inst = 22 || inst = 23

/-- Range lemma: a value already in the signed 64-bit range is fixed by
the 64-bit wrap. -/
theorem toI64_eq_self {x : Int} (h1 : -9223372036854775808 ≤ x)
    (h2 : x < 9223372036854775808) : toI 64 x = x := by
  unfold toI toU
  norm_num
  rw [show Int.emod x 18446744073709551616 = x % 18446744073709551616 from rfl]
  split <;> omega

/-- Frame: register slot 0 and the program counter agree between two
register files. -/
def PcFrame (a b : CPURegisters) : Prop :=
  b.registers 0 = a.registers 0 ∧ b.program_counter = a.program_counter

/-- Frame: slot 0, the program counter and the next program counter all
agree. -/
def RegFrame (a b : CPURegisters) : Prop :=
  PcFrame a b ∧ b.next_program_counter = a.next_program_counter

theorem PcFrame.pcRefl (a : CPURegisters) : PcFrame a a := ⟨rfl, rfl⟩

theorem RegFrame.rfRefl (a : CPURegisters) : RegFrame a a := ⟨PcFrame.pcRefl a, rfl⟩

theorem RegFrame.pcFrame {a b : CPURegisters} (h : RegFrame a b) : PcFrame a b := h.1

theorem RegFrame.rfTrans {a b c : CPURegisters} (h1 : RegFrame a b) (h2 : RegFrame b c) :
    RegFrame a c :=
  ⟨⟨h2.1.1.trans h1.1.1, h2.1.2.trans h1.1.2⟩, h2.2.trans h1.2⟩

theorem RegFrame.setRegister (a : CPURegisters) (i : Nat) (v : Int) :
    RegFrame a (a.setRegister i v) := by
  unfold CPURegisters.setRegister
  split
  · exact RegFrame.rfRefl a
  · next hne =>
    refine ⟨⟨?_, rfl⟩, rfl⟩
    show (if (0 : Nat) = i then v else a.registers 0) = a.registers 0
    rw [if_neg (by omega)]

theorem RegFrame.set_lo (a : CPURegisters) (v : Int) : RegFrame a (a.set_lo v) :=
  ⟨⟨rfl, rfl⟩, rfl⟩

theorem RegFrame.set_hi (a : CPURegisters) (v : Int) : RegFrame a (a.set_hi v) :=
  ⟨⟨rfl, rfl⟩, rfl⟩

theorem RegFrame.set_load_link (a : CPURegisters) (v : Bool) : RegFrame a (a.set_load_link v) :=
  ⟨⟨rfl, rfl⟩, rfl⟩

theorem PcFrame.pcTrans {a b c : CPURegisters} (h1 : PcFrame a b) (h2 : PcFrame b c) :
    PcFrame a c :=
  ⟨h2.1.trans h1.1, h2.2.trans h1.2⟩

theorem PcFrame.set_next_program_counter (a : CPURegisters) (v : Int) :
    PcFrame a (a.set_next_program_counter v) := ⟨rfl, rfl⟩

theorem PcFrame.increment_next_program_counter (a : CPURegisters) (v : Int) :
    PcFrame a (a.increment_next_program_counter v) := ⟨rfl, rfl⟩

/-- Inversion for a successful `get_by_number`. -/
theorem get_by_number_some {r : CPURegisters} {i : Nat} {v : Int}
    (h : r.get_by_number i = some v) : v = r.registers i ∧ i ≤ 31 := by
  unfold CPURegisters.get_by_number at h
  split at h
  · exact absurd h (by simp)
  · next hle => exact ⟨(Option.some.inj h).symm, by omega⟩

/-- Inversion for a successful `set_by_number`. -/
theorem set_by_number_some {r r2 : CPURegisters} {i : Nat} {v : Int}
    (h : r.set_by_number i v = some r2) : r2 = r.setRegister i v ∧ i ≤ 31 := by
  unfold CPURegisters.set_by_number at h
  split at h
  · exact absurd h (by simp)
  · next hle => exact ⟨(Option.some.inj h).symm, by omega⟩

theorem addu_frame {c : CPU} {rd rs rt : Nat} {c2 : CPU}
    (h : CPU.addu c rd rs rt = some c2) : RegFrame c.registers c2.registers := by
  simp only [CPU.addu] at h
  obtain ⟨v0, hv0, h⟩ := Option.bind_eq_some.mp h
  obtain ⟨v1, hv1, h⟩ := Option.bind_eq_some.mp h
  obtain ⟨r, hr, h⟩ := Option.bind_eq_some.mp h
  obtain ⟨hr2, -⟩ := set_by_number_some hr
  subst hr2
  injection h with h2
  subst h2
  exact RegFrame.setRegister c.registers _ _

theorem daddu_frame {c : CPU} {rd rs rt : Nat} {c2 : CPU}
    (h : CPU.daddu c rd rs rt = some c2) : RegFrame c.registers c2.registers := by
  simp only [CPU.daddu] at h
  obtain ⟨v0, hv0, h⟩ := Option.bind_eq_some.mp h
  obtain ⟨v1, hv1, h⟩ := Option.bind_eq_some.mp h
  obtain ⟨r, hr, h⟩ := Option.bind_eq_some.mp h
  obtain ⟨hr2, -⟩ := set_by_number_some hr
  subst hr2
  injection h with h2
  subst h2
  exact RegFrame.setRegister c.registers _ _

theorem subu_frame {c : CPU} {rd rs rt : Nat} {c2 : CPU}
    (h : CPU.subu c rd rs rt = some c2) : RegFrame c.registers c2.registers := by
  simp only [CPU.subu] at h
  obtain ⟨v0, hv0, h⟩ := Option.bind_eq_some.mp h
  obtain ⟨v1, hv1, h⟩ := Option.bind_eq_some.mp h
  obtain ⟨r, hr, h⟩ := Option.bind_eq_some.mp h
  obtain ⟨hr2, -⟩ := set_by_number_some hr
  subst hr2
  injection h with h2
  subst h2
  exact RegFrame.setRegister c.registers _ _

theorem dsubu_frame {c : CPU} {rd rs rt : Nat} {c2 : CPU}
    (h : CPU.dsubu c rd rs rt = some c2) : RegFrame c.registers c2.registers := by
  simp only [CPU.dsubu] at h
  obtain ⟨v0, hv0, h⟩ := Option.bind_eq_some.mp h
  obtain ⟨v1, hv1, h⟩ := Option.bind_eq_some.mp h
  obtain ⟨r, hr, h⟩ := Option.bind_eq_some.mp h
  obtain ⟨hr2, -⟩ := set_by_number_some hr
  subst hr2
  injection h with h2
  subst h2
  exact RegFrame.setRegister c.registers _ _

theorem and_frame {c : CPU} {rd rs rt : Nat} {c2 : CPU}
    (h : CPU.and c rd rs rt = some c2) : RegFrame c.registers c2.registers := by
  simp only [CPU.and] at h
  obtain ⟨v0, hv0, h⟩ := Option.bind_eq_some.mp h
  obtain ⟨v1, hv1, h⟩ := Option.bind_eq_some.mp h
  obtain ⟨r, hr, h⟩ := Option.bind_eq_some.mp h
  obtain ⟨hr2, -⟩ := set_by_number_some hr
  subst hr2
  injection h with h2
  subst h2
  exact RegFrame.setRegister c.registers _ _

theorem or_frame {c : CPU} {rd rs rt : Nat} {c2 : CPU}
    (h : CPU.or c rd rs rt = some c2) : RegFrame c.registers c2.registers := by
  simp only [CPU.or] at h
  obtain ⟨v0, hv0, h⟩ := Option.bind_eq_some.mp h
  obtain ⟨v1, hv1, h⟩ := Option.bind_eq_some.mp h
  obtain ⟨r, hr, h⟩ := Option.bind_eq_some.mp h
  obtain ⟨hr2, -⟩ := set_by_number_some hr
  subst hr2
  injection h with h2
  subst h2
  exact RegFrame.setRegister c.registers _ _

theorem xor_frame {c : CPU} {rd rs rt : Nat} {c2 : CPU}
    (h : CPU.xor c rd rs rt = some c2) : RegFrame c.registers c2.registers := by
  simp only [CPU.xor] at h
  obtain ⟨v0, hv0, h⟩ := Option.bind_eq_some.mp h
  obtain ⟨v1, hv1, h⟩ := Option.bind_eq_some.mp h
  obtain ⟨r, hr, h⟩ := Option.bind_eq_some.mp h
  obtain ⟨hr2, -⟩ := set_by_number_some hr
  subst hr2
  injection h with h2
  subst h2
  exact RegFrame.setRegister c.registers _ _

theorem nor_frame {c : CPU} {rd rs rt : Nat} {c2 : CPU}
    (h : CPU.nor c rd rs rt = some c2) : RegFrame c.registers c2.registers := by
  simp only [CPU.nor] at h
  obtain ⟨v0, hv0, h⟩ := Option.bind_eq_some.mp h
  obtain ⟨v1, hv1, h⟩ := Option.bind_eq_some.mp h
  obtain ⟨r, hr, h⟩ := Option.bind_eq_some.mp h
  obtain ⟨hr2, -⟩ := set_by_number_some hr
  subst hr2
  injection h with h2
  subst h2
  exact RegFrame.setRegister c.registers _ _

theorem slt_frame {c : CPU} {rd rs rt : Nat} {c2 : CPU}
    (h : CPU.slt c rd rs rt = some c2) : RegFrame c.registers c2.registers := by
  simp only [CPU.slt] at h
  obtain ⟨v0, hv0, h⟩ := Option.bind_eq_some.mp h
  obtain ⟨v1, hv1, h⟩ := Option.bind_eq_some.mp h
  obtain ⟨r, hr, h⟩ := Option.bind_eq_some.mp h
  obtain ⟨hr2, -⟩ := set_by_number_some hr
  subst hr2
  injection h with h2
  subst h2
  exact RegFrame.setRegister c.registers _ _

theorem addiu_frame {c : CPU} {rt rs : Nat} {immediate : Int} {c2 : CPU}
    (h : CPU.addiu c rt rs immediate = some c2) : RegFrame c.registers c2.registers := by
  simp only [CPU.addiu] at h
  obtain ⟨v0, hv0, h⟩ := Option.bind_eq_some.mp h
  obtain ⟨r, hr, h⟩ := Option.bind_eq_some.mp h
  obtain ⟨hr2, -⟩ := set_by_number_some hr
  subst hr2
  injection h with h2
  subst h2
  exact RegFrame.setRegister c.registers _ _

theorem daddiu_frame {c : CPU} {rt rs : Nat} {immediate : Int} {c2 : CPU}
    (h : CPU.daddiu c rt rs immediate = some c2) : RegFrame c.registers c2.registers := by
  simp only [CPU.daddiu] at h
  obtain ⟨v0, hv0, h⟩ := Option.bind_eq_some.mp h
  obtain ⟨r, hr, h⟩ := Option.bind_eq_some.mp h
  obtain ⟨hr2, -⟩ := set_by_number_some hr
  subst hr2
  injection h with h2
  subst h2
  exact RegFrame.setRegister c.registers _ _

theorem andi_frame {c : CPU} {rt rs : Nat} {immediate : Int} {c2 : CPU}
    (h : CPU.andi c rt rs immediate = some c2) : RegFrame c.registers c2.registers := by
  simp only [CPU.andi] at h
  obtain ⟨v0, hv0, h⟩ := Option.bind_eq_some.mp h
  obtain ⟨r, hr, h⟩ := Option.bind_eq_some.mp h
  obtain ⟨hr2, -⟩ := set_by_number_some hr
  subst hr2
  injection h with h2
  subst h2
  exact RegFrame.setRegister c.registers _ _

theorem ori_frame {c : CPU} {rt rs : Nat} {immediate : Int} {c2 : CPU}
    (h : CPU.ori c rt rs immediate = some c2) : RegFrame c.registers c2.registers := by
  simp only [CPU.ori] at h
  obtain ⟨v0, hv0, h⟩ := Option.bind_eq_some.mp h
  obtain ⟨r, hr, h⟩ := Option.bind_eq_some.mp h
  obtain ⟨hr2, -⟩ := set_by_number_some hr
  subst hr2
  injection h with h2
  subst h2
  exact RegFrame.setRegister c.registers _ _

theorem slti_frame {c : CPU} {rt rs : Nat} {immediate : Int} {c2 : CPU}
    (h : CPU.slti c rt rs immediate = some c2) : RegFrame c.registers c2.registers := by
  simp only [CPU.slti] at h
  obtain ⟨v0, hv0, h⟩ := Option.bind_eq_some.mp h
  obtain ⟨r, hr, h⟩ := Option.bind_eq_some.mp h
  obtain ⟨hr2, -⟩ := set_by_number_some hr
  subst hr2
  injection h with h2
  subst h2
  exact RegFrame.setRegister c.registers _ _

theorem sltiu_frame {c : CPU} {rt rs : Nat} {immediate : Int} {c2 : CPU}
    (h : CPU.sltiu c rt rs immediate = some c2) : RegFrame c.registers c2.registers := by
  simp only [CPU.sltiu] at h
  obtain ⟨v0, hv0, h⟩ := Option.bind_eq_some.mp h
  obtain ⟨r, hr, h⟩ := Option.bind_eq_some.mp h
  obtain ⟨hr2, -⟩ := set_by_number_some hr
  subst hr2
  injection h with h2
  subst h2
  exact RegFrame.setRegister c.registers _ _

theorem xori_frame {c : CPU} {rt rs : Nat} {immediate : Int} {c2 : CPU}
    (h : CPU.xori c rt rs immediate = some c2) : RegFrame c.registers c2.registers := by
  simp only [CPU.xori] at h
  obtain ⟨v0, hv0, h⟩ := Option.bind_eq_some.mp h
  obtain ⟨r, hr, h⟩ := Option.bind_eq_some.mp h
  obtain ⟨hr2, -⟩ := set_by_number_some hr
  subst hr2
  injection h with h2
  subst h2
  exact RegFrame.setRegister c.registers _ _

theorem mfhi_frame {c : CPU} {rd : Nat} {c2 : CPU}
    (h : CPU.mfhi c rd = some c2) : RegFrame c.registers c2.registers := by
  simp only [CPU.mfhi] at h

  obtain ⟨r, hr, h⟩ := Option.bind_eq_some.mp h
  obtain ⟨hr2, -⟩ := set_by_number_some hr
  subst hr2
  injection h with h2
  subst h2
  exact RegFrame.setRegister c.registers _ _

theorem mflo_frame {c : CPU} {rd : Nat} {c2 : CPU}
    (h : CPU.mflo c rd = some c2) : RegFrame c.registers c2.registers := by
  simp only [CPU.mflo] at h

  obtain ⟨r, hr, h⟩ := Option.bind_eq_some.mp h
  obtain ⟨hr2, -⟩ := set_by_number_some hr
  subst hr2
  injection h with h2
  subst h2
  exact RegFrame.setRegister c.registers _ _

theorem lui_frame {c : CPU} {rt : Nat} {immediate : Int} {c2 : CPU}
    (h : CPU.lui c rt immediate = some c2) : RegFrame c.registers c2.registers := by
  simp only [CPU.lui] at h

  obtain ⟨r, hr, h⟩ := Option.bind_eq_some.mp h
  obtain ⟨hr2, -⟩ := set_by_number_some hr
  subst hr2
  injection h with h2
  subst h2
  exact RegFrame.setRegister c.registers _ _

theorem mthi_frame {c : CPU} {rs : Nat} {c2 : CPU}
    (h : CPU.mthi c rs = some c2) : RegFrame c.registers c2.registers := by
  simp only [CPU.mthi] at h
  obtain ⟨v0, hv0, h⟩ := Option.bind_eq_some.mp h
  injection h with h2
  subst h2
  exact RegFrame.set_hi _ _

theorem mtlo_frame {c : CPU} {rs : Nat} {c2 : CPU}
    (h : CPU.mtlo c rs = some c2) : RegFrame c.registers c2.registers := by
  simp only [CPU.mtlo] at h
  obtain ⟨v0, hv0, h⟩ := Option.bind_eq_some.mp h
  injection h with h2
  subst h2
  exact RegFrame.set_lo _ _

theorem add_frame {c : CPU} {rd rs rt : Nat} {p : CPU × Except Int Int}
    (h : CPU.add c rd rs rt = some p) : RegFrame c.registers p.1.registers := by
  simp only [CPU.add] at h
  obtain ⟨v0, hv0, h⟩ := Option.bind_eq_some.mp h
  obtain ⟨v1, hv1, h⟩ := Option.bind_eq_some.mp h
  obtain ⟨r, hr, h⟩ := Option.bind_eq_some.mp h
  obtain ⟨hr2, -⟩ := set_by_number_some hr
  subst hr2
  split at h <;> (injection h with h2; subst h2; exact RegFrame.setRegister c.registers _ _)

theorem sub_frame {c : CPU} {rd rs rt : Nat} {p : CPU × Except Int Int}
    (h : CPU.sub c rd rs rt = some p) : RegFrame c.registers p.1.registers := by
  simp only [CPU.sub] at h
  obtain ⟨v0, hv0, h⟩ := Option.bind_eq_some.mp h
  obtain ⟨v1, hv1, h⟩ := Option.bind_eq_some.mp h
  obtain ⟨r, hr, h⟩ := Option.bind_eq_some.mp h
  obtain ⟨hr2, -⟩ := set_by_number_some hr
  subst hr2
  split at h <;> (injection h with h2; subst h2; exact RegFrame.setRegister c.registers _ _)

theorem dadd_frame {c : CPU} {rd rs rt : Nat} {p : CPU × Except Int Int}
    (h : CPU.dadd c rd rs rt = some p) : RegFrame c.registers p.1.registers := by
  simp only [CPU.dadd] at h
  obtain ⟨v0, hv0, h⟩ := Option.bind_eq_some.mp h
  obtain ⟨v1, hv1, h⟩ := Option.bind_eq_some.mp h
  obtain ⟨r, hr, h⟩ := Option.bind_eq_some.mp h
  obtain ⟨hr2, -⟩ := set_by_number_some hr
  subst hr2
  split at h <;> (injection h with h2; subst h2; exact RegFrame.setRegister c.registers _ _)

theorem dsub_frame {c : CPU} {rd rs rt : Nat} {p : CPU × Except Int Int}
    (h : CPU.dsub c rd rs rt = some p) : RegFrame c.registers p.1.registers := by
  simp only [CPU.dsub] at h
  obtain ⟨v0, hv0, h⟩ := Option.bind_eq_some.mp h
  obtain ⟨v1, hv1, h⟩ := Option.bind_eq_some.mp h
  obtain ⟨r, hr, h⟩ := Option.bind_eq_some.mp h
  obtain ⟨hr2, -⟩ := set_by_number_some hr
  subst hr2
  split at h <;> (injection h with h2; subst h2; exact RegFrame.setRegister c.registers _ _)

theorem addi_frame {c : CPU} {rt rs : Nat} {immediate : Int} {p : CPU × Except Int Int}
    (h : CPU.addi c rt rs immediate = some p) : RegFrame c.registers p.1.registers := by
  simp only [CPU.addi] at h
  obtain ⟨v0, hv0, h⟩ := Option.bind_eq_some.mp h
  obtain ⟨r, hr, h⟩ := Option.bind_eq_some.mp h
  obtain ⟨hr2, -⟩ := set_by_number_some hr
  subst hr2
  split at h <;> (injection h with h2; subst h2; exact RegFrame.setRegister c.registers _ _)

theorem daddi_frame {c : CPU} {rt rs : Nat} {immediate : Int} {p : CPU × Except Int Int}
    (h : CPU.daddi c rt rs immediate = some p) : RegFrame c.registers p.1.registers := by
  simp only [CPU.daddi] at h
  obtain ⟨v0, hv0, h⟩ := Option.bind_eq_some.mp h
  obtain ⟨r, hr, h⟩ := Option.bind_eq_some.mp h
  obtain ⟨hr2, -⟩ := set_by_number_some hr
  subst hr2
  split at h <;> (injection h with h2; subst h2; exact RegFrame.setRegister c.registers _ _)

theorem div_frame {c : CPU} {rs rt : Nat} {c2 : CPU}
    (h : CPU.div c rs rt = some c2) : RegFrame c.registers c2.registers := by
  simp only [CPU.div] at h
  obtain ⟨v0, hv0, h⟩ := Option.bind_eq_some.mp h
  obtain ⟨v1, hv1, h⟩ := Option.bind_eq_some.mp h
  split at h
  · exact absurd h (by simp)
  · injection h with h2
    subst h2
    exact RegFrame.rfTrans (RegFrame.set_lo _ _) (RegFrame.set_hi _ _)

theorem divu_frame {c : CPU} {rs rt : Nat} {c2 : CPU}
    (h : CPU.divu c rs rt = some c2) : RegFrame c.registers c2.registers := by
  simp only [CPU.divu] at h
  obtain ⟨v0, hv0, h⟩ := Option.bind_eq_some.mp h
  obtain ⟨v1, hv1, h⟩ := Option.bind_eq_some.mp h
  split at h
  · exact absurd h (by simp)
  · injection h with h2
    subst h2
    exact RegFrame.rfTrans (RegFrame.set_lo _ _) (RegFrame.set_hi _ _)

theorem ddiv_frame {c : CPU} {rs rt : Nat} {c2 : CPU}
    (h : CPU.ddiv c rs rt = some c2) : RegFrame c.registers c2.registers := by
  simp only [CPU.ddiv] at h
  obtain ⟨v0, hv0, h⟩ := Option.bind_eq_some.mp h
  obtain ⟨v1, hv1, h⟩ := Option.bind_eq_some.mp h
  split at h
  · exact absurd h (by simp)
  · injection h with h2
    subst h2
    exact RegFrame.rfTrans (RegFrame.set_lo _ _) (RegFrame.set_hi _ _)

theorem ddivu_frame {c : CPU} {rs rt : Nat} {c2 : CPU}
    (h : CPU.ddivu c rs rt = some c2) : RegFrame c.registers c2.registers := by
  simp only [CPU.ddivu] at h
  obtain ⟨v0, hv0, h⟩ := Option.bind_eq_some.mp h
  obtain ⟨v1, hv1, h⟩ := Option.bind_eq_some.mp h
  split at h
  · exact absurd h (by simp)
  · injection h with h2
    subst h2
    exact RegFrame.rfTrans (RegFrame.set_lo _ _) (RegFrame.set_hi _ _)

theorem mult_frame {c : CPU} {rs rt : Nat} {c2 : CPU}
    (h : CPU.mult c rs rt = some c2) : RegFrame c.registers c2.registers := by
  simp only [CPU.mult] at h
  obtain ⟨v0, hv0, h⟩ := Option.bind_eq_some.mp h
  obtain ⟨v1, hv1, h⟩ := Option.bind_eq_some.mp h
  injection h with h2
  subst h2
  exact RegFrame.rfTrans (RegFrame.set_lo _ _) (RegFrame.set_hi _ _)

theorem multu_frame {c : CPU} {rs rt : Nat} {c2 : CPU}
    (h : CPU.multu c rs rt = some c2) : RegFrame c.registers c2.registers := by
  simp only [CPU.multu] at h
  obtain ⟨v0, hv0, h⟩ := Option.bind_eq_some.mp h
  obtain ⟨v1, hv1, h⟩ := Option.bind_eq_some.mp h
  injection h with h2
  subst h2
  exact RegFrame.rfTrans (RegFrame.set_lo _ _) (RegFrame.set_hi _ _)

theorem dmult_frame {c : CPU} {rs rt : Nat} {c2 : CPU}
    (h : CPU.dmult c rs rt = some c2) : RegFrame c.registers c2.registers := by
  simp only [CPU.dmult] at h
  obtain ⟨v0, hv0, h⟩ := Option.bind_eq_some.mp h
  obtain ⟨v1, hv1, h⟩ := Option.bind_eq_some.mp h
  injection h with h2
  subst h2
  exact RegFrame.rfTrans (RegFrame.set_lo _ _) (RegFrame.set_hi _ _)

theorem dmultu_frame {c : CPU} {rs rt : Nat} {c2 : CPU}
    (h : CPU.dmultu c rs rt = some c2) : RegFrame c.registers c2.registers := by
  simp only [CPU.dmultu] at h
  obtain ⟨v0, hv0, h⟩ := Option.bind_eq_some.mp h
  obtain ⟨v1, hv1, h⟩ := Option.bind_eq_some.mp h
  injection h with h2
  subst h2
  exact RegFrame.rfTrans (RegFrame.set_lo _ _) (RegFrame.set_hi _ _)

theorem sll_frame {c : CPU} {rd rt sa : Nat} {c2 : CPU}
    (h : CPU.sll c rd rt sa = some c2) : RegFrame c.registers c2.registers := by
  simp only [CPU.sll] at h
  obtain ⟨v0, hv0, h⟩ := Option.bind_eq_some.mp h
  split at h
  · exact absurd h (by simp)
  · obtain ⟨r, hr, h⟩ := Option.bind_eq_some.mp h
    obtain ⟨hr2, -⟩ := set_by_number_some hr
    subst hr2
    injection h with h2
    subst h2
    exact RegFrame.setRegister c.registers _ _

theorem srl_frame {c : CPU} {rd rt sa : Nat} {c2 : CPU}
    (h : CPU.srl c rd rt sa = some c2) : RegFrame c.registers c2.registers := by
  simp only [CPU.srl] at h
  obtain ⟨v0, hv0, h⟩ := Option.bind_eq_some.mp h
  split at h
  · exact absurd h (by simp)
  · obtain ⟨r, hr, h⟩ := Option.bind_eq_some.mp h
    obtain ⟨hr2, -⟩ := set_by_number_some hr
    subst hr2
    injection h with h2
    subst h2
    exact RegFrame.setRegister c.registers _ _

theorem sra_frame {c : CPU} {rd rt sa : Nat} {c2 : CPU}
    (h : CPU.sra c rd rt sa = some c2) : RegFrame c.registers c2.registers := by
  simp only [CPU.sra] at h
  obtain ⟨v0, hv0, h⟩ := Option.bind_eq_some.mp h
  split at h
  · exact absurd h (by simp)
  · obtain ⟨r, hr, h⟩ := Option.bind_eq_some.mp h
    obtain ⟨hr2, -⟩ := set_by_number_some hr
    subst hr2
    injection h with h2
    subst h2
    exact RegFrame.setRegister c.registers _ _

theorem dsll_frame {c : CPU} {rd rt sa : Nat} {c2 : CPU}
    (h : CPU.dsll c rd rt sa = some c2) : RegFrame c.registers c2.registers := by
  simp only [CPU.dsll] at h
  obtain ⟨v0, hv0, h⟩ := Option.bind_eq_some.mp h
  split at h
  · exact absurd h (by simp)
  · obtain ⟨r, hr, h⟩ := Option.bind_eq_some.mp h
    obtain ⟨hr2, -⟩ := set_by_number_some hr
    subst hr2
    injection h with h2
    subst h2
    exact RegFrame.setRegister c.registers _ _

theorem dsrl_frame {c : CPU} {rd rt sa : Nat} {c2 : CPU}
    (h : CPU.dsrl c rd rt sa = some c2) : RegFrame c.registers c2.registers := by
  simp only [CPU.dsrl] at h
  obtain ⟨v0, hv0, h⟩ := Option.bind_eq_some.mp h
  split at h
  · exact absurd h (by simp)
  · obtain ⟨r, hr, h⟩ := Option.bind_eq_some.mp h
    obtain ⟨hr2, -⟩ := set_by_number_some hr
    subst hr2
    injection h with h2
    subst h2
    exact RegFrame.setRegister c.registers _ _

theorem dsra_frame {c : CPU} {rd rt sa : Nat} {c2 : CPU}
    (h : CPU.dsra c rd rt sa = some c2) : RegFrame c.registers c2.registers := by
  simp only [CPU.dsra] at h
  obtain ⟨v0, hv0, h⟩ := Option.bind_eq_some.mp h
  split at h
  · exact absurd h (by simp)
  · obtain ⟨r, hr, h⟩ := Option.bind_eq_some.mp h
    obtain ⟨hr2, -⟩ := set_by_number_some hr
    subst hr2
    injection h with h2
    subst h2
    exact RegFrame.setRegister c.registers _ _

theorem dsll32_frame {c : CPU} {rd rt sa : Nat} {c2 : CPU}
    (h : CPU.dsll32 c rd rt sa = some c2) : RegFrame c.registers c2.registers := by
  simp only [CPU.dsll32] at h
  obtain ⟨v0, hv0, h⟩ := Option.bind_eq_some.mp h
  split at h
  · exact absurd h (by simp)
  · obtain ⟨r, hr, h⟩ := Option.bind_eq_some.mp h
    obtain ⟨hr2, -⟩ := set_by_number_some hr
    subst hr2
    injection h with h2
    subst h2
    exact RegFrame.setRegister c.registers _ _

theorem dsrl32_frame {c : CPU} {rd rt sa : Nat} {c2 : CPU}
    (h : CPU.dsrl32 c rd rt sa = some c2) : RegFrame c.registers c2.registers := by
  simp only [CPU.dsrl32] at h
  obtain ⟨v0, hv0, h⟩ := Option.bind_eq_some.mp h
  split at h
  · exact absurd h (by simp)
  · obtain ⟨r, hr, h⟩ := Option.bind_eq_some.mp h
    obtain ⟨hr2, -⟩ := set_by_number_some hr
    subst hr2
    injection h with h2
    subst h2
    exact RegFrame.setRegister c.registers _ _

theorem dsra32_frame {c : CPU} {rd rt sa : Nat} {c2 : CPU}
    (h : CPU.dsra32 c rd rt sa = some c2) : RegFrame c.registers c2.registers := by
  simp only [CPU.dsra32] at h
  obtain ⟨v0, hv0, h⟩ := Option.bind_eq_some.mp h
  split at h
  · exact absurd h (by simp)
  · obtain ⟨r, hr, h⟩ := Option.bind_eq_some.mp h
    obtain ⟨hr2, -⟩ := set_by_number_some hr
    subst hr2
    injection h with h2
    subst h2
    exact RegFrame.setRegister c.registers _ _

theorem sllv_frame {c : CPU} {rd rt rs : Nat} {c2 : CPU}
    (h : CPU.sllv c rd rt rs = some c2) : RegFrame c.registers c2.registers := by
  simp only [CPU.sllv] at h
  obtain ⟨v0, hv0, h⟩ := Option.bind_eq_some.mp h
  obtain ⟨v1, hv1, h⟩ := Option.bind_eq_some.mp h
  obtain ⟨r, hr, h⟩ := Option.bind_eq_some.mp h
  obtain ⟨hr2, -⟩ := set_by_number_some hr
  subst hr2
  injection h with h2
  subst h2
  exact RegFrame.setRegister c.registers _ _

theorem srlv_frame {c : CPU} {rd rt rs : Nat} {c2 : CPU}
    (h : CPU.srlv c rd rt rs = some c2) : RegFrame c.registers c2.registers := by
  simp only [CPU.srlv] at h
  obtain ⟨v0, hv0, h⟩ := Option.bind_eq_some.mp h
  obtain ⟨v1, hv1, h⟩ := Option.bind_eq_some.mp h
  obtain ⟨r, hr, h⟩ := Option.bind_eq_some.mp h
  obtain ⟨hr2, -⟩ := set_by_number_some hr
  subst hr2
  injection h with h2
  subst h2
  exact RegFrame.setRegister c.registers _ _

theorem srav_frame {c : CPU} {rd rt rs : Nat} {c2 : CPU}
    (h : CPU.srav c rd rt rs = some c2) : RegFrame c.registers c2.registers := by
  simp only [CPU.srav] at h
  obtain ⟨v0, hv0, h⟩ := Option.bind_eq_some.mp h
  obtain ⟨v1, hv1, h⟩ := Option.bind_eq_some.mp h
  obtain ⟨r, hr, h⟩ := Option.bind_eq_some.mp h
  obtain ⟨hr2, -⟩ := set_by_number_some hr
  subst hr2
  injection h with h2
  subst h2
  exact RegFrame.setRegister c.registers _ _

theorem dsllv_frame {c : CPU} {rd rt rs : Nat} {c2 : CPU}
    (h : CPU.dsllv c rd rt rs = some c2) : RegFrame c.registers c2.registers := by
  simp only [CPU.dsllv] at h
  obtain ⟨v0, hv0, h⟩ := Option.bind_eq_some.mp h
  obtain ⟨v1, hv1, h⟩ := Option.bind_eq_some.mp h
  obtain ⟨r, hr, h⟩ := Option.bind_eq_some.mp h
  obtain ⟨hr2, -⟩ := set_by_number_some hr
  subst hr2
  injection h with h2
  subst h2
  exact RegFrame.setRegister c.registers _ _

theorem dsrlv_frame {c : CPU} {rd rt rs : Nat} {c2 : CPU}
    (h : CPU.dsrlv c rd rt rs = some c2) : RegFrame c.registers c2.registers := by
  simp only [CPU.dsrlv] at h
  obtain ⟨v0, hv0, h⟩ := Option.bind_eq_some.mp h
  obtain ⟨v1, hv1, h⟩ := Option.bind_eq_some.mp h
  obtain ⟨r, hr, h⟩ := Option.bind_eq_some.mp h
  obtain ⟨hr2, -⟩ := set_by_number_some hr
  subst hr2
  injection h with h2
  subst h2
  exact RegFrame.setRegister c.registers _ _

theorem dsrav_frame {c : CPU} {rd rt rs : Nat} {c2 : CPU}
    (h : CPU.dsrav c rd rt rs = some c2) : RegFrame c.registers c2.registers := by
  simp only [CPU.dsrav] at h
  obtain ⟨v0, hv0, h⟩ := Option.bind_eq_some.mp h
  obtain ⟨v1, hv1, h⟩ := Option.bind_eq_some.mp h
  obtain ⟨r, hr, h⟩ := Option.bind_eq_some.mp h
  obtain ⟨hr2, -⟩ := set_by_number_some hr
  subst hr2
  injection h with h2
  subst h2
  exact RegFrame.setRegister c.registers _ _

theorem mtc0_frame {c : CPU} {rt rd : Nat} {c2 : CPU}
    (h : CPU.mtc0 c rt rd = some c2) : RegFrame c.registers c2.registers := by
  simp only [CPU.mtc0] at h
  obtain ⟨b, hb, h⟩ := Option.bind_eq_some.mp h
  split at h
  all_goals
    obtain ⟨v, hv, h⟩ := Option.bind_eq_some.mp h
    obtain ⟨p2, hp2, h⟩ := Option.bind_eq_some.mp h
    injection h with h2
    subst h2
    exact RegFrame.rfRefl _

theorem dmtc0_frame {c : CPU} {rt rd : Nat} {c2 : CPU}
    (h : CPU.dmtc0 c rt rd = some c2) : RegFrame c.registers c2.registers := by
  simp only [CPU.dmtc0] at h
  obtain ⟨b, hb, h⟩ := Option.bind_eq_some.mp h
  split at h
  all_goals
    obtain ⟨v, hv, h⟩ := Option.bind_eq_some.mp h
    obtain ⟨p2, hp2, h⟩ := Option.bind_eq_some.mp h
    injection h with h2
    subst h2
    exact RegFrame.rfRefl _

theorem mfc0_frame {c : CPU} {rt rd : Nat} {c2 : CPU}
    (h : CPU.mfc0 c rt rd = some c2) : RegFrame c.registers c2.registers := by
  simp only [CPU.mfc0] at h
  obtain ⟨b, hb, h⟩ := Option.bind_eq_some.mp h
  split at h
  all_goals
    obtain ⟨v, hv, h⟩ := Option.bind_eq_some.mp h
    obtain ⟨r, hr, h⟩ := Option.bind_eq_some.mp h
    obtain ⟨hr2, -⟩ := set_by_number_some hr
    subst hr2
    injection h with h2
    subst h2
    exact RegFrame.setRegister c.registers _ _

theorem dmfc0_frame {c : CPU} {rt rd : Nat} {c2 : CPU}
    (h : CPU.dmfc0 c rt rd = some c2) : RegFrame c.registers c2.registers := by
  simp only [CPU.dmfc0] at h
  obtain ⟨b, hb, h⟩ := Option.bind_eq_some.mp h
  split at h
  all_goals
    obtain ⟨v, hv, h⟩ := Option.bind_eq_some.mp h
    obtain ⟨r, hr, h⟩ := Option.bind_eq_some.mp h
    obtain ⟨hr2, -⟩ := set_by_number_some hr
    subst hr2
    injection h with h2
    subst h2
    exact RegFrame.setRegister c.registers _ _

theorem lb_frame {c : CPU} {rt : Nat} {offset : Int} {base : Nat} {m : MMU} {c2 : CPU}
    (h : CPU.lb c rt offset base m = some c2) : RegFrame c.registers c2.registers := by
  simp only [CPU.lb] at h
  obtain ⟨v0, hv0, h⟩ := Option.bind_eq_some.mp h
  obtain ⟨v1, hv1, h⟩ := Option.bind_eq_some.mp h
  obtain ⟨v2, hv2, h⟩ := Option.bind_eq_some.mp h
  obtain ⟨r, hr, h⟩ := Option.bind_eq_some.mp h
  obtain ⟨hr2, -⟩ := set_by_number_some hr
  subst hr2
  injection h with h2
  subst h2
  exact RegFrame.setRegister c.registers _ _

theorem lbu_frame {c : CPU} {rt : Nat} {offset : Int} {base : Nat} {m : MMU} {c2 : CPU}
    (h : CPU.lbu c rt offset base m = some c2) : RegFrame c.registers c2.registers := by
  simp only [CPU.lbu] at h
  obtain ⟨v0, hv0, h⟩ := Option.bind_eq_some.mp h
  obtain ⟨v1, hv1, h⟩ := Option.bind_eq_some.mp h
  obtain ⟨v2, hv2, h⟩ := Option.bind_eq_some.mp h
  obtain ⟨r, hr, h⟩ := Option.bind_eq_some.mp h
  obtain ⟨hr2, -⟩ := set_by_number_some hr
  subst hr2
  injection h with h2
  subst h2
  exact RegFrame.setRegister c.registers _ _

theorem lh_frame {c : CPU} {rt : Nat} {offset : Int} {base : Nat} {m : MMU} {c2 : CPU}
    (h : CPU.lh c rt offset base m = some c2) : RegFrame c.registers c2.registers := by
  simp only [CPU.lh] at h
  obtain ⟨v0, hv0, h⟩ := Option.bind_eq_some.mp h
  obtain ⟨v1, hv1, h⟩ := Option.bind_eq_some.mp h
  obtain ⟨v2, hv2, h⟩ := Option.bind_eq_some.mp h
  obtain ⟨v3, hv3, h⟩ := Option.bind_eq_some.mp h
  obtain ⟨r, hr, h⟩ := Option.bind_eq_some.mp h
  obtain ⟨hr2, -⟩ := set_by_number_some hr
  subst hr2
  injection h with h2
  subst h2
  exact RegFrame.setRegister c.registers _ _

theorem lhu_frame {c : CPU} {rt : Nat} {offset : Int} {base : Nat} {m : MMU} {c2 : CPU}
    (h : CPU.lhu c rt offset base m = some c2) : RegFrame c.registers c2.registers := by
  simp only [CPU.lhu] at h
  obtain ⟨v0, hv0, h⟩ := Option.bind_eq_some.mp h
  obtain ⟨v1, hv1, h⟩ := Option.bind_eq_some.mp h
  obtain ⟨v2, hv2, h⟩ := Option.bind_eq_some.mp h
  obtain ⟨v3, hv3, h⟩ := Option.bind_eq_some.mp h
  obtain ⟨r, hr, h⟩ := Option.bind_eq_some.mp h
  obtain ⟨hr2, -⟩ := set_by_number_some hr
  subst hr2
  injection h with h2
  subst h2
  exact RegFrame.setRegister c.registers _ _

theorem lw_frame {c : CPU} {rt : Nat} {offset : Int} {base : Nat} {m : MMU} {c2 : CPU}
    (h : CPU.lw c rt offset base m = some c2) : RegFrame c.registers c2.registers := by
  simp only [CPU.lw] at h
  obtain ⟨v0, hv0, h⟩ := Option.bind_eq_some.mp h
  obtain ⟨v1, hv1, h⟩ := Option.bind_eq_some.mp h
  obtain ⟨v2, hv2, h⟩ := Option.bind_eq_some.mp h
  obtain ⟨v3, hv3, h⟩ := Option.bind_eq_some.mp h
  obtain ⟨v4, hv4, h⟩ := Option.bind_eq_some.mp h
  obtain ⟨v5, hv5, h⟩ := Option.bind_eq_some.mp h
  obtain ⟨r, hr, h⟩ := Option.bind_eq_some.mp h
  obtain ⟨hr2, -⟩ := set_by_number_some hr
  subst hr2
  injection h with h2
  subst h2
  exact RegFrame.setRegister c.registers _ _

theorem lwu_frame {c : CPU} {rt : Nat} {offset : Int} {base : Nat} {m : MMU} {c2 : CPU}
    (h : CPU.lwu c rt offset base m = some c2) : RegFrame c.registers c2.registers := by
  simp only [CPU.lwu] at h
  obtain ⟨v0, hv0, h⟩ := Option.bind_eq_some.mp h
  obtain ⟨v1, hv1, h⟩ := Option.bind_eq_some.mp h
  obtain ⟨v2, hv2, h⟩ := Option.bind_eq_some.mp h
  obtain ⟨v3, hv3, h⟩ := Option.bind_eq_some.mp h
  obtain ⟨v4, hv4, h⟩ := Option.bind_eq_some.mp h
  obtain ⟨v5, hv5, h⟩ := Option.bind_eq_some.mp h
  obtain ⟨r, hr, h⟩ := Option.bind_eq_some.mp h
  obtain ⟨hr2, -⟩ := set_by_number_some hr
  subst hr2
  injection h with h2
  subst h2
  exact RegFrame.setRegister c.registers _ _

theorem lwr_frame {c : CPU} {rt : Nat} {offset : Int} {base : Nat} {m : MMU} {c2 : CPU}
    (h : CPU.lwr c rt offset base m = some c2) : RegFrame c.registers c2.registers := by
  simp only [CPU.lwr] at h
  obtain ⟨v0, hv0, h⟩ := Option.bind_eq_some.mp h
  obtain ⟨v1, hv1, h⟩ := Option.bind_eq_some.mp h
  obtain ⟨v2, hv2, h⟩ := Option.bind_eq_some.mp h
  obtain ⟨r, hr, h⟩ := Option.bind_eq_some.mp h
  obtain ⟨hr2, -⟩ := set_by_number_some hr
  subst hr2
  injection h with h2
  subst h2
  exact RegFrame.setRegister c.registers _ _

theorem lwl_frame {c : CPU} {rt : Nat} {offset : Int} {base : Nat} {m : MMU} {c2 : CPU}
    (h : CPU.lwl c rt offset base m = some c2) : RegFrame c.registers c2.registers := by
  simp only [CPU.lwl] at h
  obtain ⟨v0, hv0, h⟩ := Option.bind_eq_some.mp h
  obtain ⟨v1, hv1, h⟩ := Option.bind_eq_some.mp h
  obtain ⟨v2, hv2, h⟩ := Option.bind_eq_some.mp h
  split at h
  · exact absurd h (by simp)
  · obtain ⟨r, hr, h⟩ := Option.bind_eq_some.mp h
    obtain ⟨hr2, -⟩ := set_by_number_some hr
    subst hr2
    injection h with h2
    subst h2
    exact RegFrame.setRegister c.registers _ _

theorem lld_frame {c : CPU} {rt : Nat} {offset : Int} {base : Nat} {m : MMU} {c2 : CPU}
    (h : CPU.lld c rt offset base m = some c2) : RegFrame c.registers c2.registers := by
  simp only [CPU.lld] at h
  obtain ⟨v0, hv0, h⟩ := Option.bind_eq_some.mp h
  obtain ⟨v1, hv1, h⟩ := Option.bind_eq_some.mp h
  obtain ⟨v2, hv2, h⟩ := Option.bind_eq_some.mp h
  obtain ⟨v3, hv3, h⟩ := Option.bind_eq_some.mp h
  obtain ⟨v4, hv4, h⟩ := Option.bind_eq_some.mp h
  obtain ⟨v5, hv5, h⟩ := Option.bind_eq_some.mp h
  obtain ⟨v6, hv6, h⟩ := Option.bind_eq_some.mp h
  obtain ⟨v7, hv7, h⟩ := Option.bind_eq_some.mp h
  obtain ⟨v8, hv8, h⟩ := Option.bind_eq_some.mp h
  obtain ⟨v9, hv9, h⟩ := Option.bind_eq_some.mp h
  obtain ⟨v10, hv10, h⟩ := Option.bind_eq_some.mp h
  obtain ⟨v11, hv11, h⟩ := Option.bind_eq_some.mp h
  obtain ⟨r, hr, h⟩ := Option.bind_eq_some.mp h
  obtain ⟨hr2, -⟩ := set_by_number_some hr
  subst hr2
  injection h with h2
  subst h2
  exact RegFrame.rfTrans (RegFrame.set_load_link _ _) (RegFrame.setRegister _ _ _)

theorem sc_frame {c : CPU} {rt : Nat} {offset : Int} {base : Nat} {m : MMU} {p : CPU × MMU}
    (h : CPU.sc c rt offset base m = some p) : RegFrame c.registers p.1.registers := by
  simp only [CPU.sc] at h
  split at h
  · obtain ⟨bval, hb, h⟩ := Option.bind_eq_some.mp h
    obtain ⟨tval, ht, h⟩ := Option.bind_eq_some.mp h
    obtain ⟨m2, hm, h⟩ := Option.bind_eq_some.mp h
    injection h with h2
    subst h2
    exact RegFrame.rfRefl _
  · obtain ⟨r, hr, h⟩ := Option.bind_eq_some.mp h
    obtain ⟨hr2, -⟩ := set_by_number_some hr
    subst hr2
    injection h with h2
    subst h2
    exact RegFrame.setRegister c.registers _ _

theorem scd_frame {c : CPU} {rt : Nat} {offset : Int} {base : Nat} {m : MMU} {p : CPU × MMU}
    (h : CPU.scd c rt offset base m = some p) : RegFrame c.registers p.1.registers := by
  simp only [CPU.scd] at h
  split at h
  · obtain ⟨bval, hb, h⟩ := Option.bind_eq_some.mp h
    obtain ⟨tval, ht, h⟩ := Option.bind_eq_some.mp h
    obtain ⟨m2, hm, h⟩ := Option.bind_eq_some.mp h
    injection h with h2
    subst h2
    exact RegFrame.rfRefl _
  · obtain ⟨r, hr, h⟩ := Option.bind_eq_some.mp h
    obtain ⟨hr2, -⟩ := set_by_number_some hr
    subst hr2
    injection h with h2
    subst h2
    exact RegFrame.setRegister c.registers _ _

theorem beq_frame {c : CPU} {rs rt : Nat} {offset : Int} {c2 : CPU}
    (h : CPU.beq c rs rt offset = some c2) : PcFrame c.registers c2.registers := by
  simp only [CPU.beq] at h
  obtain ⟨v0, hv0, h⟩ := Option.bind_eq_some.mp h
  obtain ⟨v1, hv1, h⟩ := Option.bind_eq_some.mp h
  split at h
  all_goals (injection h with h2; subst h2)
  · exact PcFrame.increment_next_program_counter _ _
  · exact PcFrame.pcRefl _

theorem bne_frame {c : CPU} {rs rt : Nat} {offset : Int} {c2 : CPU}
    (h : CPU.bne c rs rt offset = some c2) : PcFrame c.registers c2.registers := by
  simp only [CPU.bne] at h
  obtain ⟨v0, hv0, h⟩ := Option.bind_eq_some.mp h
  obtain ⟨v1, hv1, h⟩ := Option.bind_eq_some.mp h
  split at h
  all_goals (injection h with h2; subst h2)
  · exact PcFrame.increment_next_program_counter _ _
  · exact PcFrame.pcRefl _

theorem bnel_frame {c : CPU} {rs rt : Nat} {offset : Int} {c2 : CPU}
    (h : CPU.bnel c rs rt offset = some c2) : PcFrame c.registers c2.registers := by
  simp only [CPU.bnel] at h
  obtain ⟨v0, hv0, h⟩ := Option.bind_eq_some.mp h
  obtain ⟨v1, hv1, h⟩ := Option.bind_eq_some.mp h
  split at h
  all_goals (injection h with h2; subst h2)
  · exact PcFrame.increment_next_program_counter _ _
  · exact PcFrame.pcRefl _

theorem bgez_frame {c : CPU} {rs : Nat} {offset : Int} {c2 : CPU}
    (h : CPU.bgez c rs offset = some c2) : PcFrame c.registers c2.registers := by
  simp only [CPU.bgez] at h
  obtain ⟨v0, hv0, h⟩ := Option.bind_eq_some.mp h
  split at h
  all_goals (injection h with h2; subst h2)
  · exact PcFrame.increment_next_program_counter _ _
  · exact PcFrame.pcRefl _

theorem bgezl_frame {c : CPU} {rs : Nat} {offset : Int} {c2 : CPU}
    (h : CPU.bgezl c rs offset = some c2) : PcFrame c.registers c2.registers := by
  simp only [CPU.bgezl] at h
  obtain ⟨v0, hv0, h⟩ := Option.bind_eq_some.mp h
  split at h
  all_goals (injection h with h2; subst h2)
  · exact PcFrame.increment_next_program_counter _ _
  · exact PcFrame.pcRefl _

theorem bgtz_frame {c : CPU} {rs : Nat} {offset : Int} {c2 : CPU}
    (h : CPU.bgtz c rs offset = some c2) : PcFrame c.registers c2.registers := by
  simp only [CPU.bgtz] at h
  obtain ⟨v0, hv0, h⟩ := Option.bind_eq_some.mp h
  split at h
  all_goals (injection h with h2; subst h2)
  · exact PcFrame.increment_next_program_counter _ _
  · exact PcFrame.pcRefl _

theorem bgtzl_frame {c : CPU} {rs : Nat} {offset : Int} {c2 : CPU}
    (h : CPU.bgtzl c rs offset = some c2) : PcFrame c.registers c2.registers := by
  simp only [CPU.bgtzl] at h
  obtain ⟨v0, hv0, h⟩ := Option.bind_eq_some.mp h
  split at h
  all_goals (injection h with h2; subst h2)
  · exact PcFrame.increment_next_program_counter _ _
  · exact PcFrame.pcRefl _

theorem blez_frame {c : CPU} {rs : Nat} {offset : Int} {c2 : CPU}
    (h : CPU.blez c rs offset = some c2) : PcFrame c.registers c2.registers := by
  simp only [CPU.blez] at h
  obtain ⟨v0, hv0, h⟩ := Option.bind_eq_some.mp h
  split at h
  all_goals (injection h with h2; subst h2)
  · exact PcFrame.increment_next_program_counter _ _
  · exact PcFrame.pcRefl _

theorem blezl_frame {c : CPU} {rs : Nat} {offset : Int} {c2 : CPU}
    (h : CPU.blezl c rs offset = some c2) : PcFrame c.registers c2.registers := by
  simp only [CPU.blezl] at h
  obtain ⟨v0, hv0, h⟩ := Option.bind_eq_some.mp h
  split at h
  all_goals (injection h with h2; subst h2)
  · exact PcFrame.increment_next_program_counter _ _
  · exact PcFrame.pcRefl _

theorem bltz_frame {c : CPU} {rs : Nat} {offset : Int} {c2 : CPU}
    (h : CPU.bltz c rs offset = some c2) : PcFrame c.registers c2.registers := by
  simp only [CPU.bltz] at h
  obtain ⟨v0, hv0, h⟩ := Option.bind_eq_some.mp h
  split at h
  all_goals (injection h with h2; subst h2)
  · exact PcFrame.increment_next_program_counter _ _
  · exact PcFrame.pcRefl _

theorem bltzl_frame {c : CPU} {rs : Nat} {offset : Int} {c2 : CPU}
    (h : CPU.bltzl c rs offset = some c2) : PcFrame c.registers c2.registers := by
  simp only [CPU.bltzl] at h
  obtain ⟨v0, hv0, h⟩ := Option.bind_eq_some.mp h
  split at h
  all_goals (injection h with h2; subst h2)
  · exact PcFrame.increment_next_program_counter _ _
  · exact PcFrame.pcRefl _

theorem bgezal_frame {c : CPU} {rs : Nat} {offset : Int} {c2 : CPU}
    (h : CPU.bgezal c rs offset = some c2) : PcFrame c.registers c2.registers := by
  simp only [CPU.bgezal] at h
  obtain ⟨v0, hv0, h⟩ := Option.bind_eq_some.mp h
  obtain ⟨r, hr, h⟩ := Option.bind_eq_some.mp h
  obtain ⟨hr2, -⟩ := set_by_number_some hr
  subst hr2
  split at h
  all_goals (injection h with h2; subst h2)
  · exact PcFrame.pcTrans ((RegFrame.setRegister c.registers 31 _).pcFrame)
      (PcFrame.increment_next_program_counter _ _)
  · exact (RegFrame.setRegister c.registers 31 _).pcFrame

theorem bgezall_frame {c : CPU} {rs : Nat} {offset : Int} {c2 : CPU}
    (h : CPU.bgezall c rs offset = some c2) : PcFrame c.registers c2.registers := by
  simp only [CPU.bgezall] at h
  obtain ⟨v0, hv0, h⟩ := Option.bind_eq_some.mp h
  obtain ⟨r, hr, h⟩ := Option.bind_eq_some.mp h
  obtain ⟨hr2, -⟩ := set_by_number_some hr
  subst hr2
  split at h
  all_goals (injection h with h2; subst h2)
  · exact PcFrame.pcTrans ((RegFrame.setRegister c.registers 31 _).pcFrame)
      (PcFrame.increment_next_program_counter _ _)
  · exact (RegFrame.setRegister c.registers 31 _).pcFrame

theorem bltzal_frame {c : CPU} {rs : Nat} {offset : Int} {c2 : CPU}
    (h : CPU.bltzal c rs offset = some c2) : PcFrame c.registers c2.registers := by
  simp only [CPU.bltzal] at h
  obtain ⟨v0, hv0, h⟩ := Option.bind_eq_some.mp h
  obtain ⟨r, hr, h⟩ := Option.bind_eq_some.mp h
  obtain ⟨hr2, -⟩ := set_by_number_some hr
  subst hr2
  split at h
  all_goals (injection h with h2; subst h2)
  · exact PcFrame.pcTrans ((RegFrame.setRegister c.registers 31 _).pcFrame)
      (PcFrame.increment_next_program_counter _ _)
  · exact (RegFrame.setRegister c.registers 31 _).pcFrame

theorem bltzall_frame {c : CPU} {rs : Nat} {offset : Int} {c2 : CPU}
    (h : CPU.bltzall c rs offset = some c2) : PcFrame c.registers c2.registers := by
  simp only [CPU.bltzall] at h
  obtain ⟨v0, hv0, h⟩ := Option.bind_eq_some.mp h
  obtain ⟨r, hr, h⟩ := Option.bind_eq_some.mp h
  obtain ⟨hr2, -⟩ := set_by_number_some hr
  subst hr2
  split at h
  all_goals (injection h with h2; subst h2)
  · exact PcFrame.pcTrans ((RegFrame.setRegister c.registers 31 _).pcFrame)
      (PcFrame.increment_next_program_counter _ _)
  · exact (RegFrame.setRegister c.registers 31 _).pcFrame

theorem j_frame (c : CPU) (target : Int) :
    PcFrame c.registers (CPU.j c target).registers := ⟨rfl, rfl⟩

theorem jal_frame {c : CPU} {target : Int} {c2 : CPU}
    (h : CPU.jal c target = some c2) : PcFrame c.registers c2.registers := by
  simp only [CPU.jal] at h
  obtain ⟨r, hr, h⟩ := Option.bind_eq_some.mp h
  obtain ⟨hr2, -⟩ := set_by_number_some hr
  subst hr2
  injection h with h2
  subst h2
  exact PcFrame.pcTrans ((RegFrame.setRegister c.registers 31 _).pcFrame)
    (PcFrame.set_next_program_counter _ _)

theorem jalr_frame {c : CPU} {rd rs : Nat} {c2 : CPU}
    (h : CPU.jalr c rd rs = some c2) : PcFrame c.registers c2.registers := by
  simp only [CPU.jalr] at h
  obtain ⟨v0, hv0, h⟩ := Option.bind_eq_some.mp h
  obtain ⟨r, hr, h⟩ := Option.bind_eq_some.mp h
  obtain ⟨hr2, -⟩ := set_by_number_some hr
  subst hr2
  injection h with h2
  subst h2
  exact PcFrame.pcTrans ((RegFrame.setRegister c.registers rd _).pcFrame)
    (PcFrame.set_next_program_counter _ _)

theorem jr_frame {c : CPU} {rs : Nat} {c2 : CPU}
    (h : CPU.jr c rs = some c2) : PcFrame c.registers c2.registers := by
  simp only [CPU.jr] at h
  obtain ⟨v0, hv0, h⟩ := Option.bind_eq_some.mp h
  injection h with h2
  subst h2
  exact PcFrame.set_next_program_counter _ _

theorem execArith_inv {res : Option (CPU × Except Int Int)} {m : MMU} {p : CPU × MMU}
    (h : execArith res m = some p) : ∃ e, res = some (p.1, e) ∧ p.2 = m := by
  rcases res with _ | ⟨c2, e⟩
  · simp [execArith] at h
  · rcases e with v | v
    · simp [execArith] at h
    · simp only [execArith] at h
      injection h with h2
      subst h2
      exact ⟨Except.ok v, rfl, rfl⟩
set_option maxHeartbeats 2000000 in
theorem exec_special_pc {opcode : Nat} {c : CPU} {m : MMU} {p : CPU × MMU}
    (h : CPU.exec_special opcode c m = some p) :
    PcFrame c.registers p.1.registers := by
  unfold CPU.exec_special at h
  by_cases k0 : opcode &&& 0b111111 = 32
  · rw [if_pos k0] at h
    obtain ⟨e2, hres, hm2⟩ := execArith_inv h
    exact (add_frame hres).1
  · rw [if_neg k0] at h
    by_cases k1 : opcode &&& 0b111111 = 33
    · rw [if_pos k1] at h
      obtain ⟨c2, hc, hp⟩ := Option.map_eq_some'.mp h
      subst hp
      exact (addu_frame hc).1
    · rw [if_neg k1] at h
      by_cases k2 : opcode &&& 0b111111 = 36
      · rw [if_pos k2] at h
        obtain ⟨c2, hc, hp⟩ := Option.map_eq_some'.mp h
        subst hp
        exact (and_frame hc).1
      · rw [if_neg k2] at h
        by_cases k3 : opcode &&& 0b111111 = 13
        · rw [if_pos k3] at h
          exact Option.noConfusion h
        · rw [if_neg k3] at h
          by_cases k4 : opcode &&& 0b111111 = 44
          · rw [if_pos k4] at h
            obtain ⟨e2, hres, hm2⟩ := execArith_inv h
            exact (dadd_frame hres).1
          · rw [if_neg k4] at h
            by_cases k5 : opcode &&& 0b111111 = 45
            · rw [if_pos k5] at h
              obtain ⟨c2, hc, hp⟩ := Option.map_eq_some'.mp h
              subst hp
              exact (daddu_frame hc).1
            · rw [if_neg k5] at h
              by_cases k6 : opcode &&& 0b111111 = 30
              · rw [if_pos k6] at h
                obtain ⟨c2, hc, hp⟩ := Option.map_eq_some'.mp h
                subst hp
                exact (ddiv_frame hc).1
              · rw [if_neg k6] at h
                by_cases k7 : opcode &&& 0b111111 = 31
                · rw [if_pos k7] at h
                  obtain ⟨c2, hc, hp⟩ := Option.map_eq_some'.mp h
                  subst hp
                  exact (ddivu_frame hc).1
                · rw [if_neg k7] at h
                  by_cases k8 : opcode &&& 0b111111 = 26
                  · rw [if_pos k8] at h
                    obtain ⟨c2, hc, hp⟩ := Option.map_eq_some'.mp h
                    subst hp
                    exact (div_frame hc).1
                  · rw [if_neg k8] at h
                    by_cases k9 : opcode &&& 0b111111 = 27
                    · rw [if_pos k9] at h
                      obtain ⟨c2, hc, hp⟩ := Option.map_eq_some'.mp h
                      subst hp
                      exact (divu_frame hc).1
                    · rw [if_neg k9] at h
                      by_cases k10 : opcode &&& 0b111111 = 28
                      · rw [if_pos k10] at h
                        obtain ⟨c2, hc, hp⟩ := Option.map_eq_some'.mp h
                        subst hp
                        exact (dmult_frame hc).1
                      · rw [if_neg k10] at h
                        by_cases k11 : opcode &&& 0b111111 = 29
                        · rw [if_pos k11] at h
                          obtain ⟨c2, hc, hp⟩ := Option.map_eq_some'.mp h
                          subst hp
                          exact (dmultu_frame hc).1
                        · rw [if_neg k11] at h
                          by_cases k12 : opcode &&& 0b111111 = 56
                          · rw [if_pos k12] at h
                            obtain ⟨c2, hc, hp⟩ := Option.map_eq_some'.mp h
                            subst hp
                            exact (dsll_frame hc).1
                          · rw [if_neg k12] at h
                            by_cases k13 : opcode &&& 0b111111 = 20
                            · rw [if_pos k13] at h
                              obtain ⟨c2, hc, hp⟩ := Option.map_eq_some'.mp h
                              subst hp
                              exact (dsllv_frame hc).1
                            · rw [if_neg k13] at h
                              by_cases k14 : opcode &&& 0b111111 = 60
                              · rw [if_pos k14] at h
                                obtain ⟨c2, hc, hp⟩ := Option.map_eq_some'.mp h
                                subst hp
                                exact (dsll32_frame hc).1
                              · rw [if_neg k14] at h
                                by_cases k15 : opcode &&& 0b111111 = 59
                                · rw [if_pos k15] at h
                                  obtain ⟨c2, hc, hp⟩ := Option.map_eq_some'.mp h
                                  subst hp
                                  exact (dsra_frame hc).1
                                · rw [if_neg k15] at h
                                  by_cases k16 : opcode &&& 0b111111 = 23
                                  · rw [if_pos k16] at h
                                    obtain ⟨c2, hc, hp⟩ := Option.map_eq_some'.mp h
                                    subst hp
                                    exact (dsrav_frame hc).1
                                  · rw [if_neg k16] at h
                                    by_cases k17 : opcode &&& 0b111111 = 63
                                    · rw [if_pos k17] at h
                                      obtain ⟨c2, hc, hp⟩ := Option.map_eq_some'.mp h
                                      subst hp
                                      exact (dsra32_frame hc).1
                                    · rw [if_neg k17] at h
                                      by_cases k18 : opcode &&& 0b111111 = 58
                                      · rw [if_pos k18] at h
                                        obtain ⟨c2, hc, hp⟩ := Option.map_eq_some'.mp h
                                        subst hp
                                        exact (dsrl_frame hc).1
                                      · rw [if_neg k18] at h
                                        by_cases k19 : opcode &&& 0b111111 = 22
                                        · rw [if_pos k19] at h
                                          obtain ⟨c2, hc, hp⟩ := Option.map_eq_some'.mp h
                                          subst hp
                                          exact (dsrlv_frame hc).1
                                        · rw [if_neg k19] at h
                                          by_cases k20 : opcode &&& 0b111111 = 62
                                          · rw [if_pos k20] at h
                                            obtain ⟨c2, hc, hp⟩ := Option.map_eq_some'.mp h
                                            subst hp
                                            exact (dsrl32_frame hc).1
                                          · rw [if_neg k20] at h
                                            by_cases k21 : opcode &&& 0b111111 = 46
                                            · rw [if_pos k21] at h
                                              obtain ⟨e2, hres, hm2⟩ := execArith_inv h
                                              exact (dsub_frame hres).1
                                            · rw [if_neg k21] at h
                                              by_cases k22 : opcode &&& 0b111111 = 47
                                              · rw [if_pos k22] at h
                                                obtain ⟨c2, hc, hp⟩ := Option.map_eq_some'.mp h
                                                subst hp
                                                exact (dsubu_frame hc).1
                                              · rw [if_neg k22] at h
                                                by_cases k23 : opcode &&& 0b111111 = 9
                                                · rw [if_pos k23] at h
                                                  obtain ⟨c2, hc, hp⟩ := Option.map_eq_some'.mp h
                                                  subst hp
                                                  exact jalr_frame hc
                                                · rw [if_neg k23] at h
                                                  by_cases k24 : opcode &&& 0b111111 = 8
                                                  · rw [if_pos k24] at h
                                                    obtain ⟨c2, hc, hp⟩ := Option.map_eq_some'.mp h
                                                    subst hp
                                                    exact jr_frame hc
                                                  · rw [if_neg k24] at h
                                                    by_cases k25 : opcode &&& 0b111111 = 16
                                                    · rw [if_pos k25] at h
                                                      obtain ⟨c2, hc, hp⟩ := Option.map_eq_some'.mp h
                                                      subst hp
                                                      exact (mfhi_frame hc).1
                                                    · rw [if_neg k25] at h
                                                      by_cases k26 : opcode &&& 0b111111 = 18
                                                      · rw [if_pos k26] at h
                                                        obtain ⟨c2, hc, hp⟩ := Option.map_eq_some'.mp h
                                                        subst hp
                                                        exact (mflo_frame hc).1
                                                      · rw [if_neg k26] at h
                                                        by_cases k27 : opcode &&& 0b111111 = 17
                                                        · rw [if_pos k27] at h
                                                          obtain ⟨c2, hc, hp⟩ := Option.map_eq_some'.mp h
                                                          subst hp
                                                          exact (mthi_frame hc).1
                                                        · rw [if_neg k27] at h
                                                          by_cases k28 : opcode &&& 0b111111 = 19
                                                          · rw [if_pos k28] at h
                                                            obtain ⟨c2, hc, hp⟩ := Option.map_eq_some'.mp h
                                                            subst hp
                                                            exact (mtlo_frame hc).1
                                                          · rw [if_neg k28] at h
                                                            by_cases k29 : opcode &&& 0b111111 = 24
                                                            · rw [if_pos k29] at h
                                                              obtain ⟨c2, hc, hp⟩ := Option.map_eq_some'.mp h
                                                              subst hp
                                                              exact (mult_frame hc).1
                                                            · rw [if_neg k29] at h
                                                              by_cases k30 : opcode &&& 0b111111 = 25
                                                              · rw [if_pos k30] at h
                                                                obtain ⟨c2, hc, hp⟩ := Option.map_eq_some'.mp h
                                                                subst hp
                                                                exact (multu_frame hc).1
                                                              · rw [if_neg k30] at h
                                                                by_cases k31 : opcode &&& 0b111111 = 39
                                                                · rw [if_pos k31] at h
                                                                  obtain ⟨c2, hc, hp⟩ := Option.map_eq_some'.mp h
                                                                  subst hp
                                                                  exact (nor_frame hc).1
                                                                · rw [if_neg k31] at h
                                                                  by_cases k32 : opcode &&& 0b111111 = 37
                                                                  · rw [if_pos k32] at h
                                                                    obtain ⟨c2, hc, hp⟩ := Option.map_eq_some'.mp h
                                                                    subst hp
                                                                    exact (or_frame hc).1
                                                                  · rw [if_neg k32] at h
                                                                    by_cases k33 : opcode &&& 0b111111 = 0
                                                                    · rw [if_pos k33] at h
                                                                      obtain ⟨c2, hc, hp⟩ := Option.map_eq_some'.mp h
                                                                      subst hp
                                                                      exact (sll_frame hc).1
                                                                    · rw [if_neg k33] at h
                                                                      by_cases k34 : opcode &&& 0b111111 = 4
                                                                      · rw [if_pos k34] at h
                                                                        obtain ⟨c2, hc, hp⟩ := Option.map_eq_some'.mp h
                                                                        subst hp
                                                                        exact (sllv_frame hc).1
                                                                      · rw [if_neg k34] at h
                                                                        by_cases k35 : opcode &&& 0b111111 = 42
                                                                        · rw [if_pos k35] at h
                                                                          obtain ⟨c2, hc, hp⟩ := Option.map_eq_some'.mp h
                                                                          subst hp
                                                                          exact (slt_frame hc).1
                                                                        · rw [if_neg k35] at h
                                                                          by_cases k36 : opcode &&& 0b111111 = 43
                                                                          · rw [if_pos k36] at h
                                                                            obtain ⟨c2, hc, hp⟩ := Option.map_eq_some'.mp h
                                                                            subst hp
                                                                            exact (slt_frame hc).1
                                                                          · rw [if_neg k36] at h
                                                                            by_cases k37 : opcode &&& 0b111111 = 3
                                                                            · rw [if_pos k37] at h
                                                                              obtain ⟨c2, hc, hp⟩ := Option.map_eq_some'.mp h
                                                                              subst hp
                                                                              exact (sra_frame hc).1
                                                                            · rw [if_neg k37] at h
                                                                              by_cases k38 : opcode &&& 0b111111 = 7
                                                                              · rw [if_pos k38] at h
                                                                                obtain ⟨c2, hc, hp⟩ := Option.map_eq_some'.mp h
                                                                                subst hp
                                                                                exact (srav_frame hc).1
                                                                              · rw [if_neg k38] at h
                                                                                by_cases k39 : opcode &&& 0b111111 = 2
                                                                                · rw [if_pos k39] at h
                                                                                  obtain ⟨c2, hc, hp⟩ := Option.map_eq_some'.mp h
                                                                                  subst hp
                                                                                  exact (srl_frame hc).1
                                                                                · rw [if_neg k39] at h
                                                                                  by_cases k40 : opcode &&& 0b111111 = 6
                                                                                  · rw [if_pos k40] at h
                                                                                    obtain ⟨c2, hc, hp⟩ := Option.map_eq_some'.mp h
                                                                                    subst hp
                                                                                    exact (srlv_frame hc).1
                                                                                  · rw [if_neg k40] at h
                                                                                    by_cases k41 : opcode &&& 0b111111 = 34
                                                                                    · rw [if_pos k41] at h
                                                                                      obtain ⟨e2, hres, hm2⟩ := execArith_inv h
                                                                                      exact (sub_frame hres).1
                                                                                    · rw [if_neg k41] at h
                                                                                      by_cases k42 : opcode &&& 0b111111 = 35
                                                                                      · rw [if_pos k42] at h
                                                                                        obtain ⟨c2, hc, hp⟩ := Option.map_eq_some'.mp h
                                                                                        subst hp
                                                                                        exact (subu_frame hc).1
                                                                                      · rw [if_neg k42] at h
                                                                                        by_cases k43 : opcode &&& 0b111111 = 15
                                                                                        · rw [if_pos k43] at h
                                                                                          injection h with h2
                                                                                          subst h2
                                                                                          exact PcFrame.pcRefl _
                                                                                        · rw [if_neg k43] at h
                                                                                          by_cases k44 : opcode &&& 0b111111 = 12
                                                                                          · rw [if_pos k44] at h
                                                                                            injection h with h2
                                                                                            subst h2
                                                                                            exact PcFrame.pcRefl _
                                                                                          · rw [if_neg k44] at h
                                                                                            by_cases k45 : opcode &&& 0b111111 = 52
                                                                                            · rw [if_pos k45] at h
                                                                                              injection h with h2
                                                                                              subst h2
                                                                                              exact PcFrame.pcRefl _
                                                                                            · rw [if_neg k45] at h
                                                                                              by_cases k46 : opcode &&& 0b111111 = 48
                                                                                              · rw [if_pos k46] at h
                                                                                                injection h with h2
                                                                                                subst h2
                                                                                                exact PcFrame.pcRefl _
                                                                                              · rw [if_neg k46] at h
                                                                                                by_cases k47 : opcode &&& 0b111111 = 49
                                                                                                · rw [if_pos k47] at h
                                                                                                  injection h with h2
                                                                                                  subst h2
                                                                                                  exact PcFrame.pcRefl _
                                                                                                · rw [if_neg k47] at h
                                                                                                  by_cases k48 : opcode &&& 0b111111 = 50
                                                                                                  · rw [if_pos k48] at h
                                                                                                    injection h with h2
                                                                                                    subst h2
                                                                                                    exact PcFrame.pcRefl _
                                                                                                  · rw [if_neg k48] at h
                                                                                                    by_cases k49 : opcode &&& 0b111111 = 51
                                                                                                    · rw [if_pos k49] at h
                                                                                                      injection h with h2
                                                                                                      subst h2
                                                                                                      exact PcFrame.pcRefl _
                                                                                                    · rw [if_neg k49] at h
                                                                                                      by_cases k50 : opcode &&& 0b111111 = 54
                                                                                                      · rw [if_pos k50] at h
                                                                                                        injection h with h2
                                                                                                        subst h2
                                                                                                        exact PcFrame.pcRefl _
                                                                                                      · rw [if_neg k50] at h
                                                                                                        by_cases k51 : opcode &&& 0b111111 = 38
                                                                                                        · rw [if_pos k51] at h
                                                                                                          obtain ⟨c2, hc, hp⟩ := Option.map_eq_some'.mp h
                                                                                                          subst hp
                                                                                                          exact (xor_frame hc).1
                                                                                                        · rw [if_neg k51] at h
                                                                                                          exact Option.noConfusion h

set_option maxHeartbeats 2000000 in
theorem exec_special_npc {opcode : Nat} {c : CPU} {m : MMU} {p : CPU × MMU}
    (hb8 : ¬(opcode &&& 0b111111 = 8)) (hb9 : ¬(opcode &&& 0b111111 = 9))
    (h : CPU.exec_special opcode c m = some p) :
    p.1.registers.next_program_counter = c.registers.next_program_counter := by
  unfold CPU.exec_special at h
  by_cases k0 : opcode &&& 0b111111 = 32
  · rw [if_pos k0] at h
    obtain ⟨e2, hres, hm2⟩ := execArith_inv h
    exact (add_frame hres).2
  · rw [if_neg k0] at h
    by_cases k1 : opcode &&& 0b111111 = 33
    · rw [if_pos k1] at h
      obtain ⟨c2, hc, hp⟩ := Option.map_eq_some'.mp h
      subst hp
      exact (addu_frame hc).2
    · rw [if_neg k1] at h
      by_cases k2 : opcode &&& 0b111111 = 36
      · rw [if_pos k2] at h
        obtain ⟨c2, hc, hp⟩ := Option.map_eq_some'.mp h
        subst hp
        exact (and_frame hc).2
      · rw [if_neg k2] at h
        by_cases k3 : opcode &&& 0b111111 = 13
        · rw [if_pos k3] at h
          exact Option.noConfusion h
        · rw [if_neg k3] at h
          by_cases k4 : opcode &&& 0b111111 = 44
          · rw [if_pos k4] at h
            obtain ⟨e2, hres, hm2⟩ := execArith_inv h
            exact (dadd_frame hres).2
          · rw [if_neg k4] at h
            by_cases k5 : opcode &&& 0b111111 = 45
            · rw [if_pos k5] at h
              obtain ⟨c2, hc, hp⟩ := Option.map_eq_some'.mp h
              subst hp
              exact (daddu_frame hc).2
            · rw [if_neg k5] at h
              by_cases k6 : opcode &&& 0b111111 = 30
              · rw [if_pos k6] at h
                obtain ⟨c2, hc, hp⟩ := Option.map_eq_some'.mp h
                subst hp
                exact (ddiv_frame hc).2
              · rw [if_neg k6] at h
                by_cases k7 : opcode &&& 0b111111 = 31
                · rw [if_pos k7] at h
                  obtain ⟨c2, hc, hp⟩ := Option.map_eq_some'.mp h
                  subst hp
                  exact (ddivu_frame hc).2
                · rw [if_neg k7] at h
                  by_cases k8 : opcode &&& 0b111111 = 26
                  · rw [if_pos k8] at h
                    obtain ⟨c2, hc, hp⟩ := Option.map_eq_some'.mp h
                    subst hp
                    exact (div_frame hc).2
                  · rw [if_neg k8] at h
                    by_cases k9 : opcode &&& 0b111111 = 27
                    · rw [if_pos k9] at h
                      obtain ⟨c2, hc, hp⟩ := Option.map_eq_some'.mp h
                      subst hp
                      exact (divu_frame hc).2
                    · rw [if_neg k9] at h
                      by_cases k10 : opcode &&& 0b111111 = 28
                      · rw [if_pos k10] at h
                        obtain ⟨c2, hc, hp⟩ := Option.map_eq_some'.mp h
                        subst hp
                        exact (dmult_frame hc).2
                      · rw [if_neg k10] at h
                        by_cases k11 : opcode &&& 0b111111 = 29
                        · rw [if_pos k11] at h
                          obtain ⟨c2, hc, hp⟩ := Option.map_eq_some'.mp h
                          subst hp
                          exact (dmultu_frame hc).2
                        · rw [if_neg k11] at h
                          by_cases k12 : opcode &&& 0b111111 = 56
                          · rw [if_pos k12] at h
                            obtain ⟨c2, hc, hp⟩ := Option.map_eq_some'.mp h
                            subst hp
                            exact (dsll_frame hc).2
                          · rw [if_neg k12] at h
                            by_cases k13 : opcode &&& 0b111111 = 20
                            · rw [if_pos k13] at h
                              obtain ⟨c2, hc, hp⟩ := Option.map_eq_some'.mp h
                              subst hp
                              exact (dsllv_frame hc).2
                            · rw [if_neg k13] at h
                              by_cases k14 : opcode &&& 0b111111 = 60
                              · rw [if_pos k14] at h
                                obtain ⟨c2, hc, hp⟩ := Option.map_eq_some'.mp h
                                subst hp
                                exact (dsll32_frame hc).2
                              · rw [if_neg k14] at h
                                by_cases k15 : opcode &&& 0b111111 = 59
                                · rw [if_pos k15] at h
                                  obtain ⟨c2, hc, hp⟩ := Option.map_eq_some'.mp h
                                  subst hp
                                  exact (dsra_frame hc).2
                                · rw [if_neg k15] at h
                                  by_cases k16 : opcode &&& 0b111111 = 23
                                  · rw [if_pos k16] at h
                                    obtain ⟨c2, hc, hp⟩ := Option.map_eq_some'.mp h
                                    subst hp
                                    exact (dsrav_frame hc).2
                                  · rw [if_neg k16] at h
                                    by_cases k17 : opcode &&& 0b111111 = 63
                                    · rw [if_pos k17] at h
                                      obtain ⟨c2, hc, hp⟩ := Option.map_eq_some'.mp h
                                      subst hp
                                      exact (dsra32_frame hc).2
                                    · rw [if_neg k17] at h
                                      by_cases k18 : opcode &&& 0b111111 = 58
                                      · rw [if_pos k18] at h
                                        obtain ⟨c2, hc, hp⟩ := Option.map_eq_some'.mp h
                                        subst hp
                                        exact (dsrl_frame hc).2
                                      · rw [if_neg k18] at h
                                        by_cases k19 : opcode &&& 0b111111 = 22
                                        · rw [if_pos k19] at h
                                          obtain ⟨c2, hc, hp⟩ := Option.map_eq_some'.mp h
                                          subst hp
                                          exact (dsrlv_frame hc).2
                                        · rw [if_neg k19] at h
                                          by_cases k20 : opcode &&& 0b111111 = 62
                                          · rw [if_pos k20] at h
                                            obtain ⟨c2, hc, hp⟩ := Option.map_eq_some'.mp h
                                            subst hp
                                            exact (dsrl32_frame hc).2
                                          · rw [if_neg k20] at h
                                            by_cases k21 : opcode &&& 0b111111 = 46
                                            · rw [if_pos k21] at h
                                              obtain ⟨e2, hres, hm2⟩ := execArith_inv h
                                              exact (dsub_frame hres).2
                                            · rw [if_neg k21] at h
                                              by_cases k22 : opcode &&& 0b111111 = 47
                                              · rw [if_pos k22] at h
                                                obtain ⟨c2, hc, hp⟩ := Option.map_eq_some'.mp h
                                                subst hp
                                                exact (dsubu_frame hc).2
                                              · rw [if_neg k22] at h
                                                by_cases k23 : opcode &&& 0b111111 = 9
                                                · rw [if_pos k23] at h
                                                  exact absurd k23 hb9
                                                · rw [if_neg k23] at h
                                                  by_cases k24 : opcode &&& 0b111111 = 8
                                                  · rw [if_pos k24] at h
                                                    exact absurd k24 hb8
                                                  · rw [if_neg k24] at h
                                                    by_cases k25 : opcode &&& 0b111111 = 16
                                                    · rw [if_pos k25] at h
                                                      obtain ⟨c2, hc, hp⟩ := Option.map_eq_some'.mp h
                                                      subst hp
                                                      exact (mfhi_frame hc).2
                                                    · rw [if_neg k25] at h
                                                      by_cases k26 : opcode &&& 0b111111 = 18
                                                      · rw [if_pos k26] at h
                                                        obtain ⟨c2, hc, hp⟩ := Option.map_eq_some'.mp h
                                                        subst hp
                                                        exact (mflo_frame hc).2
                                                      · rw [if_neg k26] at h
                                                        by_cases k27 : opcode &&& 0b111111 = 17
                                                        · rw [if_pos k27] at h
                                                          obtain ⟨c2, hc, hp⟩ := Option.map_eq_some'.mp h
                                                          subst hp
                                                          exact (mthi_frame hc).2
                                                        · rw [if_neg k27] at h
                                                          by_cases k28 : opcode &&& 0b111111 = 19
                                                          · rw [if_pos k28] at h
                                                            obtain ⟨c2, hc, hp⟩ := Option.map_eq_some'.mp h
                                                            subst hp
                                                            exact (mtlo_frame hc).2
                                                          · rw [if_neg k28] at h
                                                            by_cases k29 : opcode &&& 0b111111 = 24
                                                            · rw [if_pos k29] at h
                                                              obtain ⟨c2, hc, hp⟩ := Option.map_eq_some'.mp h
                                                              subst hp
                                                              exact (mult_frame hc).2
                                                            · rw [if_neg k29] at h
                                                              by_cases k30 : opcode &&& 0b111111 = 25
                                                              · rw [if_pos k30] at h
                                                                obtain ⟨c2, hc, hp⟩ := Option.map_eq_some'.mp h
                                                                subst hp
                                                                exact (multu_frame hc).2
                                                              · rw [if_neg k30] at h
                                                                by_cases k31 : opcode &&& 0b111111 = 39
                                                                · rw [if_pos k31] at h
                                                                  obtain ⟨c2, hc, hp⟩ := Option.map_eq_some'.mp h
                                                                  subst hp
                                                                  exact (nor_frame hc).2
                                                                · rw [if_neg k31] at h
                                                                  by_cases k32 : opcode &&& 0b111111 = 37
                                                                  · rw [if_pos k32] at h
                                                                    obtain ⟨c2, hc, hp⟩ := Option.map_eq_some'.mp h
                                                                    subst hp
                                                                    exact (or_frame hc).2
                                                                  · rw [if_neg k32] at h
                                                                    by_cases k33 : opcode &&& 0b111111 = 0
                                                                    · rw [if_pos k33] at h
                                                                      obtain ⟨c2, hc, hp⟩ := Option.map_eq_some'.mp h
                                                                      subst hp
                                                                      exact (sll_frame hc).2
                                                                    · rw [if_neg k33] at h
                                                                      by_cases k34 : opcode &&& 0b111111 = 4
                                                                      · rw [if_pos k34] at h
                                                                        obtain ⟨c2, hc, hp⟩ := Option.map_eq_some'.mp h
                                                                        subst hp
                                                                        exact (sllv_frame hc).2
                                                                      · rw [if_neg k34] at h
                                                                        by_cases k35 : opcode &&& 0b111111 = 42
                                                                        · rw [if_pos k35] at h
                                                                          obtain ⟨c2, hc, hp⟩ := Option.map_eq_some'.mp h
                                                                          subst hp
                                                                          exact (slt_frame hc).2
                                                                        · rw [if_neg k35] at h
                                                                          by_cases k36 : opcode &&& 0b111111 = 43
                                                                          · rw [if_pos k36] at h
                                                                            obtain ⟨c2, hc, hp⟩ := Option.map_eq_some'.mp h
                                                                            subst hp
                                                                            exact (slt_frame hc).2
                                                                          · rw [if_neg k36] at h
                                                                            by_cases k37 : opcode &&& 0b111111 = 3
                                                                            · rw [if_pos k37] at h
                                                                              obtain ⟨c2, hc, hp⟩ := Option.map_eq_some'.mp h
                                                                              subst hp
                                                                              exact (sra_frame hc).2
                                                                            · rw [if_neg k37] at h
                                                                              by_cases k38 : opcode &&& 0b111111 = 7
                                                                              · rw [if_pos k38] at h
                                                                                obtain ⟨c2, hc, hp⟩ := Option.map_eq_some'.mp h
                                                                                subst hp
                                                                                exact (srav_frame hc).2
                                                                              · rw [if_neg k38] at h
                                                                                by_cases k39 : opcode &&& 0b111111 = 2
                                                                                · rw [if_pos k39] at h
                                                                                  obtain ⟨c2, hc, hp⟩ := Option.map_eq_some'.mp h
                                                                                  subst hp
                                                                                  exact (srl_frame hc).2
                                                                                · rw [if_neg k39] at h
                                                                                  by_cases k40 : opcode &&& 0b111111 = 6
                                                                                  · rw [if_pos k40] at h
                                                                                    obtain ⟨c2, hc, hp⟩ := Option.map_eq_some'.mp h
                                                                                    subst hp
                                                                                    exact (srlv_frame hc).2
                                                                                  · rw [if_neg k40] at h
                                                                                    by_cases k41 : opcode &&& 0b111111 = 34
                                                                                    · rw [if_pos k41] at h
                                                                                      obtain ⟨e2, hres, hm2⟩ := execArith_inv h
                                                                                      exact (sub_frame hres).2
                                                                                    · rw [if_neg k41] at h
                                                                                      by_cases k42 : opcode &&& 0b111111 = 35
                                                                                      · rw [if_pos k42] at h
                                                                                        obtain ⟨c2, hc, hp⟩ := Option.map_eq_some'.mp h
                                                                                        subst hp
                                                                                        exact (subu_frame hc).2
                                                                                      · rw [if_neg k42] at h
                                                                                        by_cases k43 : opcode &&& 0b111111 = 15
                                                                                        · rw [if_pos k43] at h
                                                                                          injection h with h2
                                                                                          subst h2
                                                                                          rfl
                                                                                        · rw [if_neg k43] at h
                                                                                          by_cases k44 : opcode &&& 0b111111 = 12
                                                                                          · rw [if_pos k44] at h
                                                                                            injection h with h2
                                                                                            subst h2
                                                                                            rfl
                                                                                          · rw [if_neg k44] at h
                                                                                            by_cases k45 : opcode &&& 0b111111 = 52
                                                                                            · rw [if_pos k45] at h
                                                                                              injection h with h2
                                                                                              subst h2
                                                                                              rfl
                                                                                            · rw [if_neg k45] at h
                                                                                              by_cases k46 : opcode &&& 0b111111 = 48
                                                                                              · rw [if_pos k46] at h
                                                                                                injection h with h2
                                                                                                subst h2
                                                                                                rfl
                                                                                              · rw [if_neg k46] at h
                                                                                                by_cases k47 : opcode &&& 0b111111 = 49
                                                                                                · rw [if_pos k47] at h
                                                                                                  injection h with h2
                                                                                                  subst h2
                                                                                                  rfl
                                                                                                · rw [if_neg k47] at h
                                                                                                  by_cases k48 : opcode &&& 0b111111 = 50
                                                                                                  · rw [if_pos k48] at h
                                                                                                    injection h with h2
                                                                                                    subst h2
                                                                                                    rfl
                                                                                                  · rw [if_neg k48] at h
                                                                                                    by_cases k49 : opcode &&& 0b111111 = 51
                                                                                                    · rw [if_pos k49] at h
                                                                                                      injection h with h2
                                                                                                      subst h2
                                                                                                      rfl
                                                                                                    · rw [if_neg k49] at h
                                                                                                      by_cases k50 : opcode &&& 0b111111 = 54
                                                                                                      · rw [if_pos k50] at h
                                                                                                        injection h with h2
                                                                                                        subst h2
                                                                                                        rfl
                                                                                                      · rw [if_neg k50] at h
                                                                                                        by_cases k51 : opcode &&& 0b111111 = 38
                                                                                                        · rw [if_pos k51] at h
                                                                                                          obtain ⟨c2, hc, hp⟩ := Option.map_eq_some'.mp h
                                                                                                          subst hp
                                                                                                          exact (xor_frame hc).2
                                                                                                        · rw [if_neg k51] at h
                                                                                                          exact Option.noConfusion h

set_option maxHeartbeats 2000000 in
theorem exec_regimm_pc {opcode : Nat} {c : CPU} {m : MMU} {p : CPU × MMU}
    (h : CPU.exec_regimm opcode c m = some p) :
    PcFrame c.registers p.1.registers := by
  unfold CPU.exec_regimm at h
  by_cases k0 : (opcode >>> 16) &&& 0b11111 = 1
  · rw [if_pos k0] at h
    obtain ⟨c2, hc, hp⟩ := Option.map_eq_some'.mp h
    subst hp
    exact bgez_frame hc
  · rw [if_neg k0] at h
    by_cases k1 : (opcode >>> 16) &&& 0b11111 = 17
    · rw [if_pos k1] at h
      obtain ⟨c2, hc, hp⟩ := Option.map_eq_some'.mp h
      subst hp
      exact bgezal_frame hc
    · rw [if_neg k1] at h
      by_cases k2 : (opcode >>> 16) &&& 0b11111 = 19
      · rw [if_pos k2] at h
        obtain ⟨c2, hc, hp⟩ := Option.map_eq_some'.mp h
        subst hp
        exact bgezall_frame hc
      · rw [if_neg k2] at h
        by_cases k3 : (opcode >>> 16) &&& 0b11111 = 3
        · rw [if_pos k3] at h
          obtain ⟨c2, hc, hp⟩ := Option.map_eq_some'.mp h
          subst hp
          exact bgezl_frame hc
        · rw [if_neg k3] at h
          by_cases k4 : (opcode >>> 16) &&& 0b11111 = 0
          · rw [if_pos k4] at h
            obtain ⟨c2, hc, hp⟩ := Option.map_eq_some'.mp h
            subst hp
            exact bltz_frame hc
          · rw [if_neg k4] at h
            by_cases k5 : (opcode >>> 16) &&& 0b11111 = 16
            · rw [if_pos k5] at h
              obtain ⟨c2, hc, hp⟩ := Option.map_eq_some'.mp h
              subst hp
              exact bltzal_frame hc
            · rw [if_neg k5] at h
              by_cases k6 : (opcode >>> 16) &&& 0b11111 = 18
              · rw [if_pos k6] at h
                obtain ⟨c2, hc, hp⟩ := Option.map_eq_some'.mp h
                subst hp
                exact bltzall_frame hc
              · rw [if_neg k6] at h
                by_cases k7 : (opcode >>> 16) &&& 0b11111 = 2
                · rw [if_pos k7] at h
                  obtain ⟨c2, hc, hp⟩ := Option.map_eq_some'.mp h
                  subst hp
                  exact bltzl_frame hc
                · rw [if_neg k7] at h
                  by_cases k8 : (opcode >>> 16) &&& 0b11111 = 12
                  · rw [if_pos k8] at h
                    injection h with h2
                    subst h2
                    exact PcFrame.pcRefl _
                  · rw [if_neg k8] at h
                    by_cases k9 : (opcode >>> 16) &&& 0b11111 = 8
                    · rw [if_pos k9] at h
                      injection h with h2
                      subst h2
                      exact PcFrame.pcRefl _
                    · rw [if_neg k9] at h
                      by_cases k10 : (opcode >>> 16) &&& 0b11111 = 9
                      · rw [if_pos k10] at h
                        injection h with h2
                        subst h2
                        exact PcFrame.pcRefl _
                      · rw [if_neg k10] at h
                        by_cases k11 : (opcode >>> 16) &&& 0b11111 = 10
                        · rw [if_pos k11] at h
                          injection h with h2
                          subst h2
                          exact PcFrame.pcRefl _
                        · rw [if_neg k11] at h
                          by_cases k12 : (opcode >>> 16) &&& 0b11111 = 11
                          · rw [if_pos k12] at h
                            injection h with h2
                            subst h2
                            exact PcFrame.pcRefl _
                          · rw [if_neg k12] at h
                            by_cases k13 : (opcode >>> 16) &&& 0b11111 = 14
                            · rw [if_pos k13] at h
                              injection h with h2
                              subst h2
                              exact PcFrame.pcRefl _
                            · rw [if_neg k13] at h
                              exact Option.noConfusion h

set_option maxHeartbeats 2000000 in
theorem exec_regimm_npc {opcode : Nat} {c : CPU} {m : MMU} {p : CPU × MMU}
    (hb : isRegimmBranchRow ((opcode >>> 16) &&& 0b11111) = false)
    (h : CPU.exec_regimm opcode c m = some p) :
    p.1.registers.next_program_counter = c.registers.next_program_counter := by
  unfold CPU.exec_regimm at h
  by_cases k0 : (opcode >>> 16) &&& 0b11111 = 1
  · rw [if_pos k0] at h
    rw [k0] at hb
    exact absurd hb (by decide)
  · rw [if_neg k0] at h
    by_cases k1 : (opcode >>> 16) &&& 0b11111 = 17
    · rw [if_pos k1] at h
      rw [k1] at hb
      exact absurd hb (by decide)
    · rw [if_neg k1] at h
      by_cases k2 : (opcode >>> 16) &&& 0b11111 = 19
      · rw [if_pos k2] at h
        rw [k2] at hb
        exact absurd hb (by decide)
      · rw [if_neg k2] at h
        by_cases k3 : (opcode >>> 16) &&& 0b11111 = 3
        · rw [if_pos k3] at h
          rw [k3] at hb
          exact absurd hb (by decide)
        · rw [if_neg k3] at h
          by_cases k4 : (opcode >>> 16) &&& 0b11111 = 0
          · rw [if_pos k4] at h
            rw [k4] at hb
            exact absurd hb (by decide)
          · rw [if_neg k4] at h
            by_cases k5 : (opcode >>> 16) &&& 0b11111 = 16
            · rw [if_pos k5] at h
              rw [k5] at hb
              exact absurd hb (by decide)
            · rw [if_neg k5] at h
              by_cases k6 : (opcode >>> 16) &&& 0b11111 = 18
              · rw [if_pos k6] at h
                rw [k6] at hb
                exact absurd hb (by decide)
              · rw [if_neg k6] at h
                by_cases k7 : (opcode >>> 16) &&& 0b11111 = 2
                · rw [if_pos k7] at h
                  rw [k7] at hb
                  exact absurd hb (by decide)
                · rw [if_neg k7] at h
                  by_cases k8 : (opcode >>> 16) &&& 0b11111 = 12
                  · rw [if_pos k8] at h
                    injection h with h2
                    subst h2
                    rfl
                  · rw [if_neg k8] at h
                    by_cases k9 : (opcode >>> 16) &&& 0b11111 = 8
                    · rw [if_pos k9] at h
                      injection h with h2
                      subst h2
                      rfl
                    · rw [if_neg k9] at h
                      by_cases k10 : (opcode >>> 16) &&& 0b11111 = 9
                      · rw [if_pos k10] at h
                        injection h with h2
                        subst h2
                        rfl
                      · rw [if_neg k10] at h
                        by_cases k11 : (opcode >>> 16) &&& 0b11111 = 10
                        · rw [if_pos k11] at h
                          injection h with h2
                          subst h2
                          rfl
                        · rw [if_neg k11] at h
                          by_cases k12 : (opcode >>> 16) &&& 0b11111 = 11
                          · rw [if_pos k12] at h
                            injection h with h2
                            subst h2
                            rfl
                          · rw [if_neg k12] at h
                            by_cases k13 : (opcode >>> 16) &&& 0b11111 = 14
                            · rw [if_pos k13] at h
                              injection h with h2
                              subst h2
                              rfl
                            · rw [if_neg k13] at h
                              exact Option.noConfusion h

set_option maxHeartbeats 2000000 in
theorem exec_cop0_frame {opcode : Nat} {c : CPU} {m : MMU} {p : CPU × MMU}
    (h : CPU.exec_cop0 opcode c m = some p) :
    RegFrame c.registers p.1.registers := by
  unfold CPU.exec_cop0 at h
  by_cases k0 : (opcode >>> 21) &&& 0b11111 = 1
  · rw [if_pos k0] at h
    obtain ⟨c2, hc, hp⟩ := Option.map_eq_some'.mp h
    subst hp
    exact dmfc0_frame hc
  · rw [if_neg k0] at h
    by_cases k1 : (opcode >>> 21) &&& 0b11111 = 5
    · rw [if_pos k1] at h
      obtain ⟨c2, hc, hp⟩ := Option.map_eq_some'.mp h
      subst hp
      exact dmtc0_frame hc
    · rw [if_neg k1] at h
      by_cases k2 : (opcode >>> 21) &&& 0b11111 = 0
      · rw [if_pos k2] at h
        obtain ⟨c2, hc, hp⟩ := Option.map_eq_some'.mp h
        subst hp
        exact mfc0_frame hc
      · rw [if_neg k2] at h
        by_cases k3 : (opcode >>> 21) &&& 0b11111 = 4
        · rw [if_pos k3] at h
          obtain ⟨c2, hc, hp⟩ := Option.map_eq_some'.mp h
          subst hp
          exact mtc0_frame hc
        · rw [if_neg k3] at h
          by_cases k4 : opcode &&& 0b111111 = 24
          · rw [if_pos k4] at h
            injection h with h2
            subst h2
            exact RegFrame.rfRefl _
          · rw [if_neg k4] at h
            by_cases k5 : opcode &&& 0b111111 = 8
            · rw [if_pos k5] at h
              injection h with h2
              subst h2
              exact RegFrame.rfRefl _
            · rw [if_neg k5] at h
              by_cases k6 : opcode &&& 0b111111 = 1
              · rw [if_pos k6] at h
                injection h with h2
                subst h2
                exact RegFrame.rfRefl _
              · rw [if_neg k6] at h
                by_cases k7 : opcode &&& 0b111111 = 2
                · rw [if_pos k7] at h
                  injection h with h2
                  subst h2
                  exact RegFrame.rfRefl _
                · rw [if_neg k7] at h
                  by_cases k8 : opcode &&& 0b111111 = 6
                  · rw [if_pos k8] at h
                    injection h with h2
                    subst h2
                    exact RegFrame.rfRefl _
                  · rw [if_neg k8] at h
                    exact Option.noConfusion h

set_option maxHeartbeats 4000000 in
theorem exec_opcode_pc {opcode : Nat} {c : CPU} {m : MMU} {p : CPU × MMU}
    (h : CPU.exec_opcode opcode c m = some p) :
    PcFrame c.registers p.1.registers := by
  unfold CPU.exec_opcode at h
  by_cases k0 : ((opcode >>> 24) &&& 0xFF) >>> 2 = 0
  · rw [if_pos k0] at h
    exact exec_special_pc h
  · rw [if_neg k0] at h
    by_cases k1 : ((opcode >>> 24) &&& 0xFF) >>> 2 = 1
    · rw [if_pos k1] at h
      exact exec_regimm_pc h
    · rw [if_neg k1] at h
      by_cases k2 : ((opcode >>> 24) &&& 0xFF) >>> 2 = 24
      · rw [if_pos k2] at h
        obtain ⟨e2, hres, hm2⟩ := execArith_inv h
        exact (daddi_frame hres).1
      · rw [if_neg k2] at h
        by_cases k3 : ((opcode >>> 24) &&& 0xFF) >>> 2 = 25
        · rw [if_pos k3] at h
          obtain ⟨c2, hc, hp⟩ := Option.map_eq_some'.mp h
          subst hp
          exact (daddiu_frame hc).1
        · rw [if_neg k3] at h
          by_cases k4 : ((opcode >>> 24) &&& 0xFF) >>> 2 = 8
          · rw [if_pos k4] at h
            obtain ⟨e2, hres, hm2⟩ := execArith_inv h
            exact (addi_frame hres).1
          · rw [if_neg k4] at h
            by_cases k5 : ((opcode >>> 24) &&& 0xFF) >>> 2 = 9
            · rw [if_pos k5] at h
              obtain ⟨c2, hc, hp⟩ := Option.map_eq_some'.mp h
              subst hp
              exact (addiu_frame hc).1
            · rw [if_neg k5] at h
              by_cases k6 : ((opcode >>> 24) &&& 0xFF) >>> 2 = 12
              · rw [if_pos k6] at h
                obtain ⟨c2, hc, hp⟩ := Option.map_eq_some'.mp h
                subst hp
                exact (andi_frame hc).1
              · rw [if_neg k6] at h
                by_cases k7 : ((opcode >>> 24) &&& 0xFF) >>> 2 = 13
                · rw [if_pos k7] at h
                  obtain ⟨c2, hc, hp⟩ := Option.map_eq_some'.mp h
                  subst hp
                  exact (ori_frame hc).1
                · rw [if_neg k7] at h
                  by_cases k8 : ((opcode >>> 24) &&& 0xFF) >>> 2 = 10
                  · rw [if_pos k8] at h
                    obtain ⟨c2, hc, hp⟩ := Option.map_eq_some'.mp h
                    subst hp
                    exact (slti_frame hc).1
                  · rw [if_neg k8] at h
                    by_cases k9 : ((opcode >>> 24) &&& 0xFF) >>> 2 = 11
                    · rw [if_pos k9] at h
                      obtain ⟨c2, hc, hp⟩ := Option.map_eq_some'.mp h
                      subst hp
                      exact (sltiu_frame hc).1
                    · rw [if_neg k9] at h
                      by_cases k10 : ((opcode >>> 24) &&& 0xFF) >>> 2 = 15
                      · rw [if_pos k10] at h
                        obtain ⟨c2, hc, hp⟩ := Option.map_eq_some'.mp h
                        subst hp
                        exact (lui_frame hc).1
                      · rw [if_neg k10] at h
                        by_cases k11 : ((opcode >>> 24) &&& 0xFF) >>> 2 = 16
                        · rw [if_pos k11] at h
                          exact (exec_cop0_frame h).1
                        · rw [if_neg k11] at h
                          by_cases k12 : ((opcode >>> 24) &&& 0xFF) >>> 2 = 32
                          · rw [if_pos k12] at h
                            obtain ⟨c2, hc, hp⟩ := Option.map_eq_some'.mp h
                            subst hp
                            exact (lb_frame hc).1
                          · rw [if_neg k12] at h
                            by_cases k13 : ((opcode >>> 24) &&& 0xFF) >>> 2 = 36
                            · rw [if_pos k13] at h
                              obtain ⟨c2, hc, hp⟩ := Option.map_eq_some'.mp h
                              subst hp
                              exact (lbu_frame hc).1
                            · rw [if_neg k13] at h
                              by_cases k14 : ((opcode >>> 24) &&& 0xFF) >>> 2 = 33
                              · rw [if_pos k14] at h
                                obtain ⟨c2, hc, hp⟩ := Option.map_eq_some'.mp h
                                subst hp
                                exact (lh_frame hc).1
                              · rw [if_neg k14] at h
                                by_cases k15 : ((opcode >>> 24) &&& 0xFF) >>> 2 = 37
                                · rw [if_pos k15] at h
                                  obtain ⟨c2, hc, hp⟩ := Option.map_eq_some'.mp h
                                  subst hp
                                  exact (lhu_frame hc).1
                                · rw [if_neg k15] at h
                                  by_cases k16 : ((opcode >>> 24) &&& 0xFF) >>> 2 = 35
                                  · rw [if_pos k16] at h
                                    obtain ⟨c2, hc, hp⟩ := Option.map_eq_some'.mp h
                                    subst hp
                                    exact (lw_frame hc).1
                                  · rw [if_neg k16] at h
                                    by_cases k17 : ((opcode >>> 24) &&& 0xFF) >>> 2 = 34
                                    · rw [if_pos k17] at h
                                      obtain ⟨c2, hc, hp⟩ := Option.map_eq_some'.mp h
                                      subst hp
                                      exact (lwl_frame hc).1
                                    · rw [if_neg k17] at h
                                      by_cases k18 : ((opcode >>> 24) &&& 0xFF) >>> 2 = 38
                                      · rw [if_pos k18] at h
                                        obtain ⟨c2, hc, hp⟩ := Option.map_eq_some'.mp h
                                        subst hp
                                        exact (lwr_frame hc).1
                                      · rw [if_neg k18] at h
                                        by_cases k19 : ((opcode >>> 24) &&& 0xFF) >>> 2 = 40
                                        · rw [if_pos k19] at h
                                          obtain ⟨m2x, hc, hp⟩ := Option.map_eq_some'.mp h
                                          subst hp
                                          exact PcFrame.pcRefl _
                                        · rw [if_neg k19] at h
                                          by_cases k20 : ((opcode >>> 24) &&& 0xFF) >>> 2 = 41
                                          · rw [if_pos k20] at h
                                            obtain ⟨m2x, hc, hp⟩ := Option.map_eq_some'.mp h
                                            subst hp
                                            exact PcFrame.pcRefl _
                                          · rw [if_neg k20] at h
                                            by_cases k21 : ((opcode >>> 24) &&& 0xFF) >>> 2 = 43
                                            · rw [if_pos k21] at h
                                              obtain ⟨m2x, hc, hp⟩ := Option.map_eq_some'.mp h
                                              subst hp
                                              exact PcFrame.pcRefl _
                                            · rw [if_neg k21] at h
                                              by_cases k22 : ((opcode >>> 24) &&& 0xFF) >>> 2 = 42
                                              · rw [if_pos k22] at h
                                                obtain ⟨m2x, hc, hp⟩ := Option.map_eq_some'.mp h
                                                subst hp
                                                exact PcFrame.pcRefl _
                                              · rw [if_neg k22] at h
                                                by_cases k23 : ((opcode >>> 24) &&& 0xFF) >>> 2 = 44
                                                · rw [if_pos k23] at h
                                                  obtain ⟨m2x, hc, hp⟩ := Option.map_eq_some'.mp h
                                                  subst hp
                                                  exact PcFrame.pcRefl _
                                                · rw [if_neg k23] at h
                                                  by_cases k24 : ((opcode >>> 24) &&& 0xFF) >>> 2 = 52
                                                  · rw [if_pos k24] at h
                                                    obtain ⟨c2, hc, hp⟩ := Option.map_eq_some'.mp h
                                                    subst hp
                                                    exact (lld_frame hc).1
                                                  · rw [if_neg k24] at h
                                                    by_cases k25 : ((opcode >>> 24) &&& 0xFF) >>> 2 = 39
                                                    · rw [if_pos k25] at h
                                                      obtain ⟨c2, hc, hp⟩ := Option.map_eq_some'.mp h
                                                      subst hp
                                                      exact (lwu_frame hc).1
                                                    · rw [if_neg k25] at h
                                                      by_cases k26 : ((opcode >>> 24) &&& 0xFF) >>> 2 = 56
                                                      · rw [if_pos k26] at h
                                                        exact (sc_frame h).1
                                                      · rw [if_neg k26] at h
                                                        by_cases k27 : ((opcode >>> 24) &&& 0xFF) >>> 2 = 60
                                                        · rw [if_pos k27] at h
                                                          exact (scd_frame h).1
                                                        · rw [if_neg k27] at h
                                                          by_cases k28 : ((opcode >>> 24) &&& 0xFF) >>> 2 = 63
                                                          · rw [if_pos k28] at h
                                                            obtain ⟨m2x, hc, hp⟩ := Option.map_eq_some'.mp h
                                                            subst hp
                                                            exact PcFrame.pcRefl _
                                                          · rw [if_neg k28] at h
                                                            by_cases k29 : ((opcode >>> 24) &&& 0xFF) >>> 2 = 2
                                                            · rw [if_pos k29] at h
                                                              injection h with h2
                                                              subst h2
                                                              exact j_frame c _
                                                            · rw [if_neg k29] at h
                                                              by_cases k30 : ((opcode >>> 24) &&& 0xFF) >>> 2 = 14
                                                              · rw [if_pos k30] at h
                                                                obtain ⟨c2, hc, hp⟩ := Option.map_eq_some'.mp h
                                                                subst hp
                                                                exact jal_frame hc
                                                              · rw [if_neg k30] at h
                                                                by_cases k31 : ((opcode >>> 24) &&& 0xFF) >>> 2 = 4
                                                                · rw [if_pos k31] at h
                                                                  obtain ⟨c2, hc, hp⟩ := Option.map_eq_some'.mp h
                                                                  subst hp
                                                                  exact beq_frame hc
                                                                · rw [if_neg k31] at h
                                                                  by_cases k32 : ((opcode >>> 24) &&& 0xFF) >>> 2 = 7
                                                                  · rw [if_pos k32] at h
                                                                    obtain ⟨c2, hc, hp⟩ := Option.map_eq_some'.mp h
                                                                    subst hp
                                                                    exact bgtz_frame hc
                                                                  · rw [if_neg k32] at h
                                                                    by_cases k33 : ((opcode >>> 24) &&& 0xFF) >>> 2 = 23
                                                                    · rw [if_pos k33] at h
                                                                      obtain ⟨c2, hc, hp⟩ := Option.map_eq_some'.mp h
                                                                      subst hp
                                                                      exact bgtzl_frame hc
                                                                    · rw [if_neg k33] at h
                                                                      by_cases k34 : ((opcode >>> 24) &&& 0xFF) >>> 2 = 6
                                                                      · rw [if_pos k34] at h
                                                                        obtain ⟨c2, hc, hp⟩ := Option.map_eq_some'.mp h
                                                                        subst hp
                                                                        exact blez_frame hc
                                                                      · rw [if_neg k34] at h
                                                                        by_cases k35 : ((opcode >>> 24) &&& 0xFF) >>> 2 = 22
                                                                        · rw [if_pos k35] at h
                                                                          obtain ⟨c2, hc, hp⟩ := Option.map_eq_some'.mp h
                                                                          subst hp
                                                                          exact blezl_frame hc
                                                                        · rw [if_neg k35] at h
                                                                          by_cases k36 : ((opcode >>> 24) &&& 0xFF) >>> 2 = 5
                                                                          · rw [if_pos k36] at h
                                                                            obtain ⟨c2, hc, hp⟩ := Option.map_eq_some'.mp h
                                                                            subst hp
                                                                            exact bne_frame hc
                                                                          · rw [if_neg k36] at h
                                                                            by_cases k37 : ((opcode >>> 24) &&& 0xFF) >>> 2 = 21
                                                                            · rw [if_pos k37] at h
                                                                              obtain ⟨c2, hc, hp⟩ := Option.map_eq_some'.mp h
                                                                              subst hp
                                                                              exact bnel_frame hc
                                                                            · rw [if_neg k37] at h
                                                                              exact Option.noConfusion h

set_option maxHeartbeats 4000000 in
theorem exec_opcode_npc {opcode : Nat} {c : CPU} {m : MMU} {p : CPU × MMU}
    (hb : isBranchOpcode opcode = false)
    (h : CPU.exec_opcode opcode c m = some p) :
    p.1.registers.next_program_counter = c.registers.next_program_counter := by
  unfold CPU.exec_opcode at h
  by_cases k0 : ((opcode >>> 24) &&& 0xFF) >>> 2 = 0
  · rw [if_pos k0] at h
    simp only [isBranchOpcode] at hb
    rw [k0] at hb
    simp at hb
    exact exec_special_npc hb.1 hb.2 h
  · rw [if_neg k0] at h
    by_cases k1 : ((opcode >>> 24) &&& 0xFF) >>> 2 = 1
    · rw [if_pos k1] at h
      simp only [isBranchOpcode] at hb
      rw [k1] at hb
      simp at hb
      exact exec_regimm_npc hb h
    · rw [if_neg k1] at h
      by_cases k2 : ((opcode >>> 24) &&& 0xFF) >>> 2 = 24
      · rw [if_pos k2] at h
        obtain ⟨e2, hres, hm2⟩ := execArith_inv h
        exact (daddi_frame hres).2
      · rw [if_neg k2] at h
        by_cases k3 : ((opcode >>> 24) &&& 0xFF) >>> 2 = 25
        · rw [if_pos k3] at h
          obtain ⟨c2, hc, hp⟩ := Option.map_eq_some'.mp h
          subst hp
          exact (daddiu_frame hc).2
        · rw [if_neg k3] at h
          by_cases k4 : ((opcode >>> 24) &&& 0xFF) >>> 2 = 8
          · rw [if_pos k4] at h
            obtain ⟨e2, hres, hm2⟩ := execArith_inv h
            exact (addi_frame hres).2
          · rw [if_neg k4] at h
            by_cases k5 : ((opcode >>> 24) &&& 0xFF) >>> 2 = 9
            · rw [if_pos k5] at h
              obtain ⟨c2, hc, hp⟩ := Option.map_eq_some'.mp h
              subst hp
              exact (addiu_frame hc).2
            · rw [if_neg k5] at h
              by_cases k6 : ((opcode >>> 24) &&& 0xFF) >>> 2 = 12
              · rw [if_pos k6] at h
                obtain ⟨c2, hc, hp⟩ := Option.map_eq_some'.mp h
                subst hp
                exact (andi_frame hc).2
              · rw [if_neg k6] at h
                by_cases k7 : ((opcode >>> 24) &&& 0xFF) >>> 2 = 13
                · rw [if_pos k7] at h
                  obtain ⟨c2, hc, hp⟩ := Option.map_eq_some'.mp h
                  subst hp
                  exact (ori_frame hc).2
                · rw [if_neg k7] at h
                  by_cases k8 : ((opcode >>> 24) &&& 0xFF) >>> 2 = 10
                  · rw [if_pos k8] at h
                    obtain ⟨c2, hc, hp⟩ := Option.map_eq_some'.mp h
                    subst hp
                    exact (slti_frame hc).2
                  · rw [if_neg k8] at h
                    by_cases k9 : ((opcode >>> 24) &&& 0xFF) >>> 2 = 11
                    · rw [if_pos k9] at h
                      obtain ⟨c2, hc, hp⟩ := Option.map_eq_some'.mp h
                      subst hp
                      exact (sltiu_frame hc).2
                    · rw [if_neg k9] at h
                      by_cases k10 : ((opcode >>> 24) &&& 0xFF) >>> 2 = 15
                      · rw [if_pos k10] at h
                        obtain ⟨c2, hc, hp⟩ := Option.map_eq_some'.mp h
                        subst hp
                        exact (lui_frame hc).2
                      · rw [if_neg k10] at h
                        by_cases k11 : ((opcode >>> 24) &&& 0xFF) >>> 2 = 16
                        · rw [if_pos k11] at h
                          exact (exec_cop0_frame h).2
                        · rw [if_neg k11] at h
                          by_cases k12 : ((opcode >>> 24) &&& 0xFF) >>> 2 = 32
                          · rw [if_pos k12] at h
                            obtain ⟨c2, hc, hp⟩ := Option.map_eq_some'.mp h
                            subst hp
                            exact (lb_frame hc).2
                          · rw [if_neg k12] at h
                            by_cases k13 : ((opcode >>> 24) &&& 0xFF) >>> 2 = 36
                            · rw [if_pos k13] at h
                              obtain ⟨c2, hc, hp⟩ := Option.map_eq_some'.mp h
                              subst hp
                              exact (lbu_frame hc).2
                            · rw [if_neg k13] at h
                              by_cases k14 : ((opcode >>> 24) &&& 0xFF) >>> 2 = 33
                              · rw [if_pos k14] at h
                                obtain ⟨c2, hc, hp⟩ := Option.map_eq_some'.mp h
                                subst hp
                                exact (lh_frame hc).2
                              · rw [if_neg k14] at h
                                by_cases k15 : ((opcode >>> 24) &&& 0xFF) >>> 2 = 37
                                · rw [if_pos k15] at h
                                  obtain ⟨c2, hc, hp⟩ := Option.map_eq_some'.mp h
                                  subst hp
                                  exact (lhu_frame hc).2
                                · rw [if_neg k15] at h
                                  by_cases k16 : ((opcode >>> 24) &&& 0xFF) >>> 2 = 35
                                  · rw [if_pos k16] at h
                                    obtain ⟨c2, hc, hp⟩ := Option.map_eq_some'.mp h
                                    subst hp
                                    exact (lw_frame hc).2
                                  · rw [if_neg k16] at h
                                    by_cases k17 : ((opcode >>> 24) &&& 0xFF) >>> 2 = 34
                                    · rw [if_pos k17] at h
                                      obtain ⟨c2, hc, hp⟩ := Option.map_eq_some'.mp h
                                      subst hp
                                      exact (lwl_frame hc).2
                                    · rw [if_neg k17] at h
                                      by_cases k18 : ((opcode >>> 24) &&& 0xFF) >>> 2 = 38
                                      · rw [if_pos k18] at h
                                        obtain ⟨c2, hc, hp⟩ := Option.map_eq_some'.mp h
                                        subst hp
                                        exact (lwr_frame hc).2
                                      · rw [if_neg k18] at h
                                        by_cases k19 : ((opcode >>> 24) &&& 0xFF) >>> 2 = 40
                                        · rw [if_pos k19] at h
                                          obtain ⟨m2x, hc, hp⟩ := Option.map_eq_some'.mp h
                                          subst hp
                                          rfl
                                        · rw [if_neg k19] at h
                                          by_cases k20 : ((opcode >>> 24) &&& 0xFF) >>> 2 = 41
                                          · rw [if_pos k20] at h
                                            obtain ⟨m2x, hc, hp⟩ := Option.map_eq_some'.mp h
                                            subst hp
                                            rfl
                                          · rw [if_neg k20] at h
                                            by_cases k21 : ((opcode >>> 24) &&& 0xFF) >>> 2 = 43
                                            · rw [if_pos k21] at h
                                              obtain ⟨m2x, hc, hp⟩ := Option.map_eq_some'.mp h
                                              subst hp
                                              rfl
                                            · rw [if_neg k21] at h
                                              by_cases k22 : ((opcode >>> 24) &&& 0xFF) >>> 2 = 42
                                              · rw [if_pos k22] at h
                                                obtain ⟨m2x, hc, hp⟩ := Option.map_eq_some'.mp h
                                                subst hp
                                                rfl
                                              · rw [if_neg k22] at h
                                                by_cases k23 : ((opcode >>> 24) &&& 0xFF) >>> 2 = 44
                                                · rw [if_pos k23] at h
                                                  obtain ⟨m2x, hc, hp⟩ := Option.map_eq_some'.mp h
                                                  subst hp
                                                  rfl
                                                · rw [if_neg k23] at h
                                                  by_cases k24 : ((opcode >>> 24) &&& 0xFF) >>> 2 = 52
                                                  · rw [if_pos k24] at h
                                                    obtain ⟨c2, hc, hp⟩ := Option.map_eq_some'.mp h
                                                    subst hp
                                                    exact (lld_frame hc).2
                                                  · rw [if_neg k24] at h
                                                    by_cases k25 : ((opcode >>> 24) &&& 0xFF) >>> 2 = 39
                                                    · rw [if_pos k25] at h
                                                      obtain ⟨c2, hc, hp⟩ := Option.map_eq_some'.mp h
                                                      subst hp
                                                      exact (lwu_frame hc).2
                                                    · rw [if_neg k25] at h
                                                      by_cases k26 : ((opcode >>> 24) &&& 0xFF) >>> 2 = 56
                                                      · rw [if_pos k26] at h
                                                        exact (sc_frame h).2
                                                      · rw [if_neg k26] at h
                                                        by_cases k27 : ((opcode >>> 24) &&& 0xFF) >>> 2 = 60
                                                        · rw [if_pos k27] at h
                                                          exact (scd_frame h).2
                                                        · rw [if_neg k27] at h
                                                          by_cases k28 : ((opcode >>> 24) &&& 0xFF) >>> 2 = 63
                                                          · rw [if_pos k28] at h
                                                            obtain ⟨m2x, hc, hp⟩ := Option.map_eq_some'.mp h
                                                            subst hp
                                                            rfl
                                                          · rw [if_neg k28] at h
                                                            by_cases k29 : ((opcode >>> 24) &&& 0xFF) >>> 2 = 2
                                                            · rw [if_pos k29] at h
                                                              exfalso
                                                              simp only [isBranchOpcode] at hb
                                                              rw [k29] at hb
                                                              simp at hb
                                                            · rw [if_neg k29] at h
                                                              by_cases k30 : ((opcode >>> 24) &&& 0xFF) >>> 2 = 14
                                                              · rw [if_pos k30] at h
                                                                exfalso
                                                                simp only [isBranchOpcode] at hb
                                                                rw [k30] at hb
                                                                simp at hb
                                                              · rw [if_neg k30] at h
                                                                by_cases k31 : ((opcode >>> 24) &&& 0xFF) >>> 2 = 4
                                                                · rw [if_pos k31] at h
                                                                  exfalso
                                                                  simp only [isBranchOpcode] at hb
                                                                  rw [k31] at hb
                                                                  simp at hb
                                                                · rw [if_neg k31] at h
                                                                  by_cases k32 : ((opcode >>> 24) &&& 0xFF) >>> 2 = 7
                                                                  · rw [if_pos k32] at h
                                                                    exfalso
                                                                    simp only [isBranchOpcode] at hb
                                                                    rw [k32] at hb
                                                                    simp at hb
                                                                  · rw [if_neg k32] at h
                                                                    by_cases k33 : ((opcode >>> 24) &&& 0xFF) >>> 2 = 23
                                                                    · rw [if_pos k33] at h
                                                                      exfalso
                                                                      simp only [isBranchOpcode] at hb
                                                                      rw [k33] at hb
                                                                      simp at hb
                                                                    · rw [if_neg k33] at h
                                                                      by_cases k34 : ((opcode >>> 24) &&& 0xFF) >>> 2 = 6
                                                                      · rw [if_pos k34] at h
                                                                        exfalso
                                                                        simp only [isBranchOpcode] at hb
                                                                        rw [k34] at hb
                                                                        simp at hb
                                                                      · rw [if_neg k34] at h
                                                                        by_cases k35 : ((opcode >>> 24) &&& 0xFF) >>> 2 = 22
                                                                        · rw [if_pos k35] at h
                                                                          exfalso
                                                                          simp only [isBranchOpcode] at hb
                                                                          rw [k35] at hb
                                                                          simp at hb
                                                                        · rw [if_neg k35] at h
                                                                          by_cases k36 : ((opcode >>> 24) &&& 0xFF) >>> 2 = 5
                                                                          · rw [if_pos k36] at h
                                                                            exfalso
                                                                            simp only [isBranchOpcode] at hb
                                                                            rw [k36] at hb
                                                                            simp at hb
                                                                          · rw [if_neg k36] at h
                                                                            by_cases k37 : ((opcode >>> 24) &&& 0xFF) >>> 2 = 21
                                                                            · rw [if_pos k37] at h
                                                                              exfalso
                                                                              simp only [isBranchOpcode] at hb
                                                                              rw [k37] at hb
                                                                              simp at hb
                                                                            · rw [if_neg k37] at h
                                                                              exact Option.noConfusion h


/-- Successful register read below index 32. -/
theorem get_ok (r : CPURegisters) {i : Nat} (hi : i ≤ 31) :
    r.get_by_number i = some (r.registers i) := by
  unfold CPURegisters.get_by_number
  rw [if_neg (by omega)]

/-- Successful register write below index 32. -/
theorem set_ok (r : CPURegisters) {i : Nat} (v : Int) (hi : i ≤ 31) :
    r.set_by_number i v = some (r.setRegister i v) := by
  unfold CPURegisters.set_by_number
  rw [if_neg (by omega)]

/-- Reading back a written slot (other than the fixed slot 0). -/
theorem setRegister_get_same (r : CPURegisters) {i : Nat} (v : Int) (hne : i ≠ 0) :
    (r.setRegister i v).registers i = v := by
  unfold CPURegisters.setRegister
  rw [if_neg hne]
  simp

/-- Discriminates the `Err` constructor of a handler result. -/
def exceptIsError : Except Int Int → Bool
  | Except.error _ => true
  | Except.ok _ => false

/-- An empty cartridge: no ROM image, no SRAM. -/
def romEmpty : ROM := { data := [], ram := [] }

/-- Memory fixture: byte 0x54 at physical 0 (a BNEL word after fetch) and
byte 0x34 at physical 4 (an ORI word after fetch); everything else zero. -/
def mmuA : MMU :=
  { rdram := { data := fun j => if j = 0 then 0x54 else if j = 4 then 0x34 else 0 }
    rom := romEmpty }

/-- CPU fixture: reset registers, PC at virtual 0x80000000 (KSEG0 base),
next-PC sequential. -/
def cpuA : CPU :=
  { registers := { CPURegisters.new with
      program_counter := 0x80000000, next_program_counter := 0x80000004 }
    cp0 := CP0Registers.new }

/-- CPU fixture for the non-branching witness step: PC at 0x80000004
(where `mmuA` holds the ORI word). -/
def cpuB : CPU :=
  { registers := { CPURegisters.new with
      program_counter := 0x80000004, next_program_counter := 0x80000008 }
    cp0 := CP0Registers.new }

/-- Memory fixture: byte 0x38 at physical 0 (a JAL word after fetch). -/
def mmuJal : MMU :=
  { rdram := { data := fun j => if j = 0 then 0x38 else 0 }
    rom := romEmpty }

/-- CPU fixture: register 1 holds the all-ones 64-bit pattern. -/
def cpuAndi : CPU :=
  { registers := { CPURegisters.new with registers := fun i => if i = 1 then -1 else 0 }
    cp0 := CP0Registers.new }

/-- CPU fixture: register 1 holds 7, register 2 holds 0 (a zero divisor). -/
def cpuDiv : CPU :=
  { registers := { CPURegisters.new with registers := fun i => if i = 1 then 7 else 0 }
    cp0 := CP0Registers.new }

/-- Memory fixture: physical byte 0 holds 1 and physical byte 1 holds 2. -/
def mmuBytes : MMU :=
  { rdram := { data := fun j => if j = 0 then 1 else if j = 1 then 2 else 0 }
    rom := romEmpty }

/-- CPU fixture: register 1 holds `i32::MAX`, register 2 holds 1. -/
def cpuAdd : CPU :=
  { registers := { CPURegisters.new with
      registers := fun i => if i = 1 then 2147483647 else if i = 2 then 1 else 0 }
    cp0 := CP0Registers.new }

/-- CPU fixture: load-linked flag set, register 1 holds a KSEG0 address,
register 2 a data value. -/
def cpuSc : CPU :=
  { registers := { CPURegisters.new with
      registers := fun i => if i = 1 then 0x80000010 else if i = 2 then 0x11223344 else 0
      load_link := true }
    cp0 := CP0Registers.new }

/-- CPU fixture: load-linked flag clear, same registers as `cpuSc`. -/
def cpuScClear : CPU :=
  { registers := { CPURegisters.new with
      registers := fun i => if i = 1 then 0x80000010 else if i = 2 then 0x11223344 else 0
      load_link := false }
    cp0 := CP0Registers.new }

/-- C4: the claim says an n-byte MMU read returns the bytes at successive
addresses p..p+n-1 and an n-byte write stores byte i at p+i.  The source
loops never advance the address: reading two bytes at 0 returns the byte
at 0 twice (even though the byte at 1 differs), and writing [7, 8] at 0
lands both bytes on address 0 (the last one wins) leaving address 1
untouched. -/
theorem claim4_same_byte :
    MMU.read_physical mmuBytes 0 2 = some [1, 1] ∧
    MMU.read_physical_byte mmuBytes 1 = some 2 ∧
    (MMU.write_physical mmuBytes 0 [7, 8]).map (fun m2 => (m2.rdram.data 0, m2.rdram.data 1)) =
      some (8, 2) :=
  ⟨rfl, rfl, rfl⟩

/-- C5 counterexample: virtual address 0x100000000 lies outside all five
segment windows; `MMU::convert` hits `unreachable!` (a process abort,
modelled `none`) instead of surfacing a recoverable TranslationFault
value. -/
theorem claim5_counterexample : MMU.convert 0x100000000 = none := rfl

/-- C5 amended: each of the five fixed windows translates by subtracting
its base, and an address outside all of them makes `MMU::convert` abort
the process via `unreachable!` (modelled `none`) rather than return a
recoverable fault value. -/
theorem claim5_amended (address : Int) :
    (0 ≤ address ∧ address ≤ 0x7FFFFFFF → MMU.convert address = some (address - 0)) ∧
    (0x80000000 ≤ address ∧ address ≤ 0x9FFFFFFF →
      MMU.convert address = some (address - 0x80000000)) ∧
    (0xA0000000 ≤ address ∧ address ≤ 0xBFFFFFFF →
      MMU.convert address = some (address - 0xA0000000)) ∧
    (0xC0000000 ≤ address ∧ address ≤ 0xDFFFFFFF →
      MMU.convert address = some (address - 0xC0000000)) ∧
    (0xE0000000 ≤ address ∧ address ≤ 0xFFFFFFFF →
      MMU.convert address = some (address - 0xE0000000)) ∧
    (address < 0 ∨ 0xFFFFFFFF < address → MMU.convert address = none) := by
  unfold MMU.convert
  refine ⟨fun h => ?_, fun h => ?_, fun h => ?_, fun h => ?_, fun h => ?_, fun h => ?_⟩
  · rw [if_pos (by omega)]
  · rw [if_neg (by omega), if_pos (by omega)]
  · rw [if_neg (by omega), if_neg (by omega), if_pos (by omega)]
  · rw [if_neg (by omega), if_neg (by omega), if_neg (by omega), if_pos (by omega)]
  · rw [if_neg (by omega), if_neg (by omega), if_neg (by omega), if_neg (by omega),
      if_pos (by omega)]
  · rw [if_neg (by omega), if_neg (by omega), if_neg (by omega), if_neg (by omega),
      if_neg (by omega)]

/-- C5 witness: the amended theorem applied at a KSEG0 address and at an
address outside every window. -/
theorem claim5_witness :
    MMU.convert 0x80000010 = some 0x10 ∧ MMU.convert (-1) = none := by
  constructor
  · rw [(claim5_amended 0x80000010).2.1 (by decide)]
    decide
  · exact (claim5_amended (-1)).2.2.2.2.2 (by decide)

/-- C3 counterexample: with a zero divisor (register 2 holds 0) all four
divide handlers hit the divide-by-zero panic of `wrapping_div` (a process
abort, modelled `none`) instead of completing with a defined LO/HI
result. -/
theorem claim3_counterexample :
    CPU.div cpuDiv 1 2 = none ∧ CPU.divu cpuDiv 1 2 = none ∧
    CPU.ddiv cpuDiv 1 2 = none ∧ CPU.ddivu cpuDiv 1 2 = none :=
  ⟨rfl, rfl, rfl, rfl⟩

/-- C3 amended: DIV/DIVU/DDIV/DDIVU write quotient to LO and (Euclidean)
remainder to HI for a nonzero divisor, but a zero divisor aborts the
process (the `wrapping_div` panic, modelled `none`) instead of yielding a
defined result. -/
theorem claim3_amended (c : CPU) (rs rt : Nat) (hrs : rs ≤ 31) (hrt : rt ≤ 31) :
    (toI 32 (c.registers.registers rt) = 0 → CPU.div c rs rt = none) ∧
    (toI 32 (c.registers.registers rt) ≠ 0 →
      CPU.div c rs rt = some ⟨(c.registers.set_lo
        (toI 32 (Int.tdiv (toI 32 (c.registers.registers rs)) (toI 32 (c.registers.registers rt))))).set_hi
        (Int.emod (toI 32 (c.registers.registers rs)) (toI 32 (c.registers.registers rt))), c.cp0⟩) ∧
    (toU 32 (c.registers.registers rt) = 0 → CPU.divu c rs rt = none) ∧
    (toU 32 (c.registers.registers rt) ≠ 0 →
      CPU.divu c rs rt = some ⟨(c.registers.set_lo
        (toI 32 ((toU 32 (c.registers.registers rs) / toU 32 (c.registers.registers rt) : Nat) : Int))).set_hi
        (toI 32 ((toU 32 (c.registers.registers rs) % toU 32 (c.registers.registers rt) : Nat) : Int)), c.cp0⟩) ∧
    (c.registers.registers rt = 0 → CPU.ddiv c rs rt = none) ∧
    (c.registers.registers rt ≠ 0 →
      CPU.ddiv c rs rt = some ⟨(c.registers.set_lo
        (toI 64 (Int.tdiv (c.registers.registers rs) (c.registers.registers rt)))).set_hi
        (Int.emod (c.registers.registers rs) (c.registers.registers rt)), c.cp0⟩) ∧
    (toU 64 (c.registers.registers rt) = 0 → CPU.ddivu c rs rt = none) ∧
    (toU 64 (c.registers.registers rt) ≠ 0 →
      CPU.ddivu c rs rt = some ⟨(c.registers.set_lo
        (toI 64 ((toU 64 (c.registers.registers rs) / toU 64 (c.registers.registers rt) : Nat) : Int))).set_hi
        (toI 64 ((toU 64 (c.registers.registers rs) % toU 64 (c.registers.registers rt) : Nat) : Int)), c.cp0⟩) := by
  refine ⟨fun h => ?_, fun h => ?_, fun h => ?_, fun h => ?_, fun h => ?_, fun h => ?_,
    fun h => ?_, fun h => ?_⟩
  all_goals simp only [CPU.div, CPU.divu, CPU.ddiv, CPU.ddivu, get_ok _ hrs, get_ok _ hrt,
    Option.bind_eq_bind, Option.some_bind]
  · rw [if_pos h]
  · rw [if_neg h]
  · rw [if_pos h]
  · rw [if_neg h]
  · rw [if_pos h]
  · rw [if_neg h]
  · rw [if_pos h]
  · rw [if_neg h]

/-- C3 witness: the amended theorem applied with a nonzero divisor
(register 1 holds 7): 0 / 7 puts 0 in LO and 0 in HI. -/
theorem claim3_witness :
    (CPU.div cpuDiv 2 1).map (fun c2 => (c2.registers.lo, c2.registers.hi)) = some (0, 0) := by
  have h := (claim3_amended cpuDiv 2 1 (by decide) (by decide)).2.1 (by decide)
  rw [h]
  rfl

/-- C2 counterexample: ADD with rs = i32::MAX and rt = 1 signals overflow
(`Err`), yet the destination register (slot 3, previously 0) is written
with the wrapped result i32::MIN -- the write is NOT suppressed. -/
theorem claim2_counterexample :
    (CPU.add cpuAdd 3 1 2).map
      (fun p => (p.1.registers.registers 3, exceptIsError p.2)) = some (-2147483648, true) ∧
    cpuAdd.registers.registers 3 = 0 :=
  ⟨rfl, rfl⟩

/-- C2 amended: ADD/SUB/DADD/DSUB and the immediate forms ADDI/DADDI
signal overflow exactly when the mathematical result leaves the target
width, but the wrapped result is committed to the destination register in
every case (the write is only discarded for the fixed slot 0); the
dispatcher then aborts on the `Err` via `todo!`. -/
theorem claim2_amended (c : CPU) (rd rs rt : Nat) (immediate : Int)
    (hrd : rd ≤ 31) (hrs : rs ≤ 31) (hrt : rt ≤ 31) :
    CPU.add c rd rs rt = some
      (⟨c.registers.setRegister rd
          (toI 32 (toI 32 (c.registers.registers rs) + toI 32 (c.registers.registers rt))), c.cp0⟩,
        if -2147483648 ≤ toI 32 (c.registers.registers rs) + toI 32 (c.registers.registers rt) ∧
            toI 32 (c.registers.registers rs) + toI 32 (c.registers.registers rt) ≤ 2147483647 then
          Except.ok (toI 32 (toI 32 (c.registers.registers rs) + toI 32 (c.registers.registers rt)))
        else
          Except.error (toI 32 (toI 32 (c.registers.registers rs) + toI 32 (c.registers.registers rt)))) ∧
    CPU.sub c rd rs rt = some
      (⟨c.registers.setRegister rd
          (toI 32 (toI 32 (c.registers.registers rs) - toI 32 (c.registers.registers rt))), c.cp0⟩,
        if -2147483648 ≤ toI 32 (c.registers.registers rs) - toI 32 (c.registers.registers rt) ∧
            toI 32 (c.registers.registers rs) - toI 32 (c.registers.registers rt) ≤ 2147483647 then
          Except.ok (toI 32 (toI 32 (c.registers.registers rs) - toI 32 (c.registers.registers rt)))
        else
          Except.error (toI 32 (toI 32 (c.registers.registers rs) - toI 32 (c.registers.registers rt)))) ∧
    CPU.dadd c rd rs rt = some
      (⟨c.registers.setRegister rd
          (toI 64 (c.registers.registers rs + c.registers.registers rt)), c.cp0⟩,
        if -9223372036854775808 ≤ c.registers.registers rs + c.registers.registers rt ∧
            c.registers.registers rs + c.registers.registers rt ≤ 9223372036854775807 then
          Except.ok (toI 64 (c.registers.registers rs + c.registers.registers rt))
        else
          Except.error (toI 64 (c.registers.registers rs + c.registers.registers rt))) ∧
    CPU.dsub c rd rs rt = some
      (⟨c.registers.setRegister rd
          (toI 64 (c.registers.registers rs - c.registers.registers rt)), c.cp0⟩,
        if -9223372036854775808 ≤ c.registers.registers rs - c.registers.registers rt ∧
            c.registers.registers rs - c.registers.registers rt ≤ 9223372036854775807 then
          Except.ok (toI 64 (c.registers.registers rs - c.registers.registers rt))
        else
          Except.error (toI 64 (c.registers.registers rs - c.registers.registers rt))) ∧
    CPU.addi c rd rs immediate = some
      (⟨c.registers.setRegister rd
          (toI 32 (toI 32 (c.registers.registers rs) + immediate)), c.cp0⟩,
        if -2147483648 ≤ toI 32 (c.registers.registers rs) + immediate ∧
            toI 32 (c.registers.registers rs) + immediate ≤ 2147483647 then
          Except.ok (toI 32 (toI 32 (c.registers.registers rs) + immediate))
        else
          Except.error (toI 32 (toI 32 (c.registers.registers rs) + immediate))) ∧
    CPU.daddi c rd rs immediate = some
      (⟨c.registers.setRegister rd
          (toI 64 (c.registers.registers rs + immediate)), c.cp0⟩,
        if -9223372036854775808 ≤ c.registers.registers rs + immediate ∧
            c.registers.registers rs + immediate ≤ 9223372036854775807 then
          Except.ok (toI 64 (c.registers.registers rs + immediate))
        else
          Except.error (toI 64 (c.registers.registers rs + immediate))) := by
  refine ⟨?_, ?_, ?_, ?_, ?_, ?_⟩
  all_goals
    simp only [CPU.add, CPU.sub, CPU.dadd, CPU.dsub, CPU.addi, CPU.daddi,
      checkedAdd32, checkedSub32, checkedAdd64, checkedSub64,
      get_ok _ hrs, get_ok _ hrt, set_ok _ _ hrd,
      Option.bind_eq_bind, Option.some_bind]
  all_goals split <;> rename_i heq <;> split at heq
  all_goals try exact Option.noConfusion heq
  all_goals first
    | rw [if_pos (by assumption)]
    | rw [if_neg (by assumption)]

/-- C2 witness: the amended theorem applied at the overflow fixture
(rs = i32::MAX, rt = 1): the handler reports `Err`. -/
theorem claim2_witness :
    (CPU.add cpuAdd 3 1 2).map (fun p => exceptIsError p.2) = some true := by
  have h := claim2_amended cpuAdd 3 1 2 1 (by decide) (by decide) (by decide)
  rw [h.1]
  decide

/-- C6 counterexample: at 0x80000000 `mmuA` holds a BNEL whose condition
fails (both compared registers read 0), so the branch is not taken; the
claim requires the delay-slot instruction at 0x80000004 to be nullified,
but on the following step the ORI there executes and writes 0x3400 into
register 6 (initially 0). -/
theorem claim6_counterexample :
    CPU.fetch_opcode 0x80000000 mmuA = some 0x54545400 ∧
    isBranchOpcode 0x54545400 = true ∧
    cpuA.registers.registers 6 = 0 ∧
    ((CPU.fetch_and_exec cpuA mmuA).bind fun pr => CPU.fetch_and_exec pr.1 pr.2).map
      (fun pr => pr.1.registers.registers 6) = some 0x3400 :=
  ⟨rfl, rfl, rfl, rfl⟩

/-- C6 amended: when a likely branch's condition fails, no nullification
happens -- the handler leaves the machine state unchanged (the source only
prints a diagnostic), except that the ALL forms still write the link
register; the delay-slot instruction therefore executes on the next
step. -/
theorem claim6_amended (c : CPU) (rs rt : Nat) (offset : Int)
    (hrs : rs ≤ 31) (hrt : rt ≤ 31) :
    (c.registers.registers rs = c.registers.registers rt →
      CPU.bnel c rs rt offset = some c) ∧
    (c.registers.registers rs < 0 → CPU.bgezl c rs offset = some c) ∧
    (0 < c.registers.registers rs → CPU.blezl c rs offset = some c) ∧
    (c.registers.registers rs ≤ 0 → CPU.bgtzl c rs offset = some c) ∧
    (0 ≤ c.registers.registers rs → CPU.bltzl c rs offset = some c) ∧
    (c.registers.registers rs < 0 →
      CPU.bgezall c rs offset =
        some ⟨c.registers.setRegister 31 (toI 64 (c.registers.program_counter + 8)), c.cp0⟩) ∧
    (0 ≤ c.registers.registers rs →
      CPU.bltzall c rs offset =
        some ⟨c.registers.setRegister 31 (toI 64 (c.registers.program_counter + 8)), c.cp0⟩) := by
  refine ⟨fun h => ?_, fun h => ?_, fun h => ?_, fun h => ?_, fun h => ?_, fun h => ?_,
    fun h => ?_⟩
  all_goals
    simp only [CPU.bnel, CPU.bgezl, CPU.blezl, CPU.bgtzl, CPU.bltzl, CPU.bgezall, CPU.bltzall,
      CPURegisters.get_program_counter, get_ok _ hrs, get_ok _ hrt, set_ok _ _ (by omega : (31 : Nat) ≤ 31),
      Option.bind_eq_bind, Option.some_bind]
  · rw [if_neg (by omega)]
  · rw [if_neg (by omega)]
  · rw [if_neg (by omega)]
  · rw [if_neg (by omega)]
  · rw [if_neg (by omega)]
  · rw [if_neg (by omega)]
  · rw [if_neg (by omega)]

/-- C6 witness: the amended theorem applied at the fixture: BNEL comparing
two zero registers is not taken and changes nothing. -/
theorem claim6_witness : CPU.bnel cpuA 1 2 5 = some cpuA :=
  (claim6_amended cpuA 1 2 5 (by decide) (by decide)).1 rfl

/-- C8 counterexample: ANDI with rs holding the all-ones pattern and
16-bit immediate 0x8000 (opcode 0x30208000, destination slot 16 per the
decode) produces the sign-extended mask result -32768 =
0xFFFFFFFFFFFF8000, not the zero-extended 0x0000000000008000 the claim
requires. -/
theorem claim8_counterexample :
    (CPU.exec_opcode 0x30208000 cpuAndi mmuA).map (fun pr => pr.1.registers.registers 16) =
      some (-32768) ∧
    (-32768 : Int) ≠ 0x8000 :=
  ⟨rfl, by decide⟩

/-- C8 amended: ANDI and ORI (via the dispatcher) and the XORI handler
combine the source register with the SIGN-extended 16-bit immediate
(`immediate as i64` on an `i16`), not a zero-extended one. -/
theorem claim8_amended (c : CPU) (m : MMU) (op : Nat) (rt rs : Nat) (immediate : Int)
    (hrt : rt ≤ 31) (hrs : rs ≤ 31) :
    (((op >>> 24) &&& 0xFF) >>> 2 = 12 →
      CPU.exec_opcode op c m = some
        (⟨c.registers.setRegister ((op >>> 11) &&& 0b11111)
            (landI (c.registers.registers ((op >>> 21) &&& 0b11111))
              (toI 16 ((op &&& 0xFFFF : Nat) : Int))), c.cp0⟩, m)) ∧
    (((op >>> 24) &&& 0xFF) >>> 2 = 13 →
      CPU.exec_opcode op c m = some
        (⟨c.registers.setRegister ((op >>> 11) &&& 0b11111)
            (lorI (c.registers.registers ((op >>> 21) &&& 0b11111))
              (toI 16 ((op &&& 0xFFFF : Nat) : Int))), c.cp0⟩, m)) ∧
    CPU.xori c rt rs immediate =
      some ⟨c.registers.setRegister rt (xorI (c.registers.registers rs) immediate), c.cp0⟩ := by
  refine ⟨fun hinst => ?_, fun hinst => ?_, ?_⟩
  · unfold CPU.exec_opcode
    rw [if_neg (by omega), if_neg (by omega), if_neg (by omega), if_neg (by omega),
      if_neg (by omega), if_neg (by omega), if_pos hinst]
    simp only [CPU.andi, params_rt_rs_immediate, get_ok _ Nat.and_le_right,
      set_ok _ _ Nat.and_le_right, Option.bind_eq_bind, Option.some_bind, Option.map_some']
  · unfold CPU.exec_opcode
    rw [if_neg (by omega), if_neg (by omega), if_neg (by omega), if_neg (by omega),
      if_neg (by omega), if_neg (by omega), if_neg (by omega), if_pos hinst]
    simp only [CPU.ori, params_rt_rs_immediate, get_ok _ Nat.and_le_right,
      set_ok _ _ Nat.and_le_right, Option.bind_eq_bind, Option.some_bind, Option.map_some']
  · simp only [CPU.xori, get_ok _ hrs, set_ok _ _ hrt,
      Option.bind_eq_bind, Option.some_bind]

/-- C8 witness: the amended theorem applied at the ORI opcode 0x34208000
(rs = slot 1 holding all ones, immediate 0x8000): the or with the
sign-extended immediate keeps the value all ones. -/
theorem claim8_witness :
    (CPU.exec_opcode 0x34208000 cpuAndi mmuA).map (fun pr => pr.1.registers.registers 16) =
      some (-1) := by
  have h := (claim8_amended cpuAndi mmuA 0x34208000 3 1 5 (by decide) (by decide)).2.1
    (by decide)
  rw [h]
  rfl

/-- C9: writes to GPR slot 0 are discarded (`set_by_number` at 0 returns
the register file unchanged: the `Fixed` register), and across any
successfully dispatched instruction a zero in slot 0 stays zero, so a
subsequent read through `get_by_number` returns 0. -/
theorem claim9_register_zero (r : CPURegisters) (v : Int) (op : Nat) (c : CPU) (m : MMU)
    (c2 : CPU) (m2 : MMU)
    (hz : c.registers.registers 0 = 0)
    (hstep : CPU.exec_opcode op c m = some (c2, m2)) :
    CPURegisters.set_by_number r 0 v = some r ∧
    c2.registers.get_by_number 0 = some 0 := by
  constructor
  · unfold CPURegisters.set_by_number CPURegisters.setRegister
    simp
  · have hfr := (exec_opcode_pc hstep).1
    unfold CPURegisters.get_by_number
    rw [if_neg (by omega)]
    rw [show c2.registers.registers 0 = c.registers.registers 0 from hfr, hz]

/-- C9 witness: the theorem applied to the ORI word 0x34343400 executed on
the reset-state fixture. -/
theorem claim9_witness :
    CPURegisters.set_by_number CPURegisters.new 0 5 = some CPURegisters.new ∧
    (CPU.exec_opcode 0x34343400 cpuA mmuA).map (fun pr => pr.1.registers.get_by_number 0) =
      some (some 0) := by
  obtain ⟨pr, hpr⟩ : ∃ pr, CPU.exec_opcode 0x34343400 cpuA mmuA = some pr := ⟨_, rfl⟩
  have h := claim9_register_zero CPURegisters.new 5 0x34343400 cpuA mmuA pr.1 pr.2 rfl
    (by rw [hpr])
  refine ⟨h.1, ?_⟩
  rw [hpr, Option.map_some', h.2]

/-- C10: with the load-linked flag set, SC/SCD issue the store of the low
word / doubleword of rt through the MMU and return the CPU unchanged (rt
keeps its value; no success indicator is written); with the flag clear, rt
is set to 0 and the memory is untouched. -/
theorem claim10_store_conditional (c : CPU) (m : MMU) (rt : Nat) (offset : Int) (base : Nat)
    (hrt : rt ≤ 31) (hbase : base ≤ 31) :
    (c.registers.load_link = true →
      CPU.sc c rt offset base m =
        (m.write_virtual (c.registers.registers base + offset)
          (be_bytes 4 (c.registers.registers rt))).map (fun m2 => (c, m2)) ∧
      CPU.scd c rt offset base m =
        (m.write_virtual (c.registers.registers base + offset)
          (be_bytes 8 (c.registers.registers rt))).map (fun m2 => (c, m2))) ∧
    (c.registers.load_link = false →
      CPU.sc c rt offset base m = some (⟨c.registers.setRegister rt 0, c.cp0⟩, m) ∧
      CPU.scd c rt offset base m = some (⟨c.registers.setRegister rt 0, c.cp0⟩, m)) := by
  constructor
  · intro hll
    constructor
    all_goals
      simp only [CPU.sc, CPU.scd, CPURegisters.get_load_link, hll, if_true,
        get_ok _ hbase, get_ok _ hrt, Option.bind_eq_bind, Option.some_bind]
    all_goals
      cases m.write_virtual (c.registers.registers base + offset)
        (be_bytes 4 (c.registers.registers rt)) <;>
      cases m.write_virtual (c.registers.registers base + offset)
        (be_bytes 8 (c.registers.registers rt)) <;> rfl
  · intro hll
    constructor
    all_goals
      simp only [CPU.sc, CPU.scd, CPURegisters.get_load_link, hll,
        set_ok _ _ hrt, Option.bind_eq_bind, Option.some_bind]
    all_goals rw [if_neg (by decide)]

/-- C10 witness: the theorem applied at the flag-set fixture (the SC store
goes through, rt keeps its value) and the flag-clear fixture (rt reads 0
afterwards, the memory cell is untouched). -/
theorem claim10_witness :
    (CPU.sc cpuSc 2 0 1 mmuA).map
      (fun pr => (pr.1.registers.registers 2, pr.2.rdram.data 16)) = some (0x11223344, 0x44) ∧
    (CPU.sc cpuScClear 2 0 1 mmuA).map
      (fun pr => (pr.1.registers.registers 2, pr.2.rdram.data 16)) = some (0, 0) := by
  constructor
  · have h := (claim10_store_conditional cpuSc mmuA 2 0 1 (by decide) (by decide)).1 rfl
    rw [h.1]
    rfl
  · have h := (claim10_store_conditional cpuScClear mmuA 2 0 1 (by decide) (by decide)).2 rfl
    rw [h.1]
    rfl

/-- C1: a step that fetches (at the old PC) a word whose decode is
non-branching, entered with next-PC = A + 4 where A is the old PC, ends
with PC = A + 4 and next-PC = A + 8 (the handler never touches PC or
next-PC; only branch handlers write next-PC). -/
theorem claim1_delay_slot (c : CPU) (m : MMU) (op : Nat) (c2 : CPU) (m2 : MMU)
    (hseq : c.registers.next_program_counter = c.registers.program_counter + 4)
    (hlo : -9223372036854775808 ≤ c.registers.program_counter)
    (hhi : c.registers.program_counter + 8 < 9223372036854775808)
    (hfetch : CPU.fetch_opcode c.registers.program_counter m = some op)
    (hnb : isBranchOpcode op = false)
    (hstep : CPU.fetch_and_exec c m = some (c2, m2)) :
    c2.registers.program_counter = c.registers.program_counter + 4 ∧
    c2.registers.next_program_counter = c.registers.program_counter + 8 := by
  unfold CPU.fetch_and_exec at hstep
  simp only [CPURegisters.get_program_counter, CPURegisters.get_next_program_counter] at hstep
  rw [hfetch] at hstep
  simp only [Option.bind_eq_bind, Option.some_bind] at hstep
  have hpc := (exec_opcode_pc hstep).2
  have hnpc := exec_opcode_npc hnb hstep
  simp only [CPURegisters.set_program_counter, CPURegisters.set_next_program_counter] at hpc hnpc
  rw [hseq] at hpc hnpc
  refine ⟨hpc, ?_⟩
  rw [hnpc, show c.registers.program_counter + 4 + 4 = c.registers.program_counter + 8 by ring]
  exact toI64_eq_self (by omega) (by omega)

/-- C1 witness: the theorem applied to the concrete step executing the ORI
word at 0x80000004 with next-PC 0x80000008. -/
theorem claim1_witness :
    (CPU.fetch_and_exec cpuB mmuA).map
      (fun pr => (pr.1.registers.program_counter, pr.1.registers.next_program_counter)) =
      some (0x80000008, 0x8000000C) := by
  obtain ⟨pr, hpr⟩ : ∃ pr, CPU.fetch_and_exec cpuB mmuA = some pr := ⟨_, rfl⟩
  have h := claim1_delay_slot cpuB mmuA 0x34343400 pr.1 pr.2 (by decide) (by decide) (by decide)
    rfl (by decide) (by rw [hpr])
  rw [hpr, Option.map_some', h.1, h.2]
  decide

/-- C7 counterexample: JAL fetched at A = 0x80000000 (entered with
next-PC = A + 4): the claim requires register 31 = A + 8 = 0x80000008, but
the handler links from the already-advanced PC and writes
A + 12 = 0x8000000C. -/
theorem claim7_counterexample :
    (CPU.fetch_and_exec cpuA mmuJal).map (fun pr => pr.1.registers.registers 31) =
      some 0x8000000C ∧
    (0x8000000C : Int) ≠ 0x80000000 + 8 :=
  ⟨rfl, by decide⟩

/-- C7 amended: for a step fetching a J or JAL at address A (sequential
entry, next-PC = A + 4), next-PC is built from the high bits (63..29) of
the ALREADY-ADVANCED PC, i.e. of A + 4, or-ed with target << 2, and JAL
writes A + 12 (the advanced PC plus 8) into register 31. -/
theorem claim7_amended (c : CPU) (m : MMU) (op : Nat) (c2 : CPU) (m2 : MMU)
    (hseq : c.registers.next_program_counter = c.registers.program_counter + 4)
    (hfetch : CPU.fetch_opcode c.registers.program_counter m = some op)
    (hstep : CPU.fetch_and_exec c m = some (c2, m2)) :
    (((op >>> 24) &&& 0xFF) >>> 2 = 2 →
      c2.registers.next_program_counter =
        toI 64 (((toU 64 (c.registers.program_counter + 4) &&& 0xFFFFFFFFE0000000) |||
          ((toU 64 (params_target op) <<< 2) % 18446744073709551616) : Nat)) ) ∧
    (((op >>> 24) &&& 0xFF) >>> 2 = 14 →
      c2.registers.registers 31 = toI 64 (c.registers.program_counter + 12) ∧
      c2.registers.next_program_counter =
        toI 64 (((toU 64 (c.registers.program_counter + 4) &&& 0xFFFFFFFFE0000000) |||
          ((toU 64 (params_target op) <<< 2) % 18446744073709551616) : Nat))) := by
  unfold CPU.fetch_and_exec at hstep
  simp only [CPURegisters.get_program_counter, CPURegisters.get_next_program_counter] at hstep
  rw [hfetch] at hstep
  simp only [Option.bind_eq_bind, Option.some_bind] at hstep
  constructor
  · intro hinst
    unfold CPU.exec_opcode at hstep
    iterate 29 rw [if_neg (by omega)] at hstep
    rw [if_pos hinst] at hstep
    injection hstep with h2
    injection h2 with h3 h4
    rw [← h3]
    simp only [CPU.j, CPURegisters.get_program_counter, CPURegisters.set_program_counter,
      CPURegisters.set_next_program_counter]
    rw [hseq]
  · intro hinst
    unfold CPU.exec_opcode at hstep
    iterate 30 rw [if_neg (by omega)] at hstep
    rw [if_pos hinst] at hstep
    obtain ⟨c2v, hc, hp⟩ := Option.map_eq_some'.mp hstep
    injection hp with h3 h4
    simp only [CPU.jal, CPURegisters.get_program_counter, CPURegisters.set_program_counter,
      CPURegisters.set_next_program_counter, set_ok _ _ (by omega : (31 : Nat) ≤ 31),
      Option.bind_eq_bind, Option.some_bind] at hc
    injection hc with h5
    rw [← h3, ← h5]
    constructor
    · rw [setRegister_get_same _ _ (by omega)]
      rw [hseq, show c.registers.program_counter + 4 + 8 = c.registers.program_counter + 12 by ring]
    · rw [hseq]

/-- C7 witness: the amended theorem applied to the JAL step at
0x80000000: next-PC combines the segment of the advanced PC with
target << 2 and register 31 gets 0x8000000C. -/
theorem claim7_witness :
    (CPU.fetch_and_exec cpuA mmuJal).map
      (fun pr => (pr.1.registers.registers 31, pr.1.registers.next_program_counter)) =
      some (0x8000000C, 0x80E0E000) := by
  obtain ⟨pr, hpr⟩ : ∃ pr, CPU.fetch_and_exec cpuA mmuJal = some pr := ⟨_, rfl⟩
  have h := (claim7_amended cpuA mmuJal 0x38383800 pr.1 pr.2 (by decide) rfl
    (by rw [hpr])).2 (by decide)
  rw [hpr, Option.map_some', h.1, h.2]
  decide
